import Mathlib

/-!
# Workflow-execution persistence: conditional batches and conflict diagnosis

A shallow embedding of `driver/mutable_state_store.go`.

* The session collaborator (`gocql.Session`) is a record of functions: every read
  the code issues is one call of a field of `Session`, and `txn.Exec()` is
  `Session.exec`.  Nothing is assumed about a session, so its answers may be any
  interleaving of concurrent writers, transport failures included.
* Every operation returns its Go result together with the list of session calls it
  made, in order (`Event`), so that "no read is issued" and "the batch is not
  executed" are statements about that list.
* The closures collected by `PostQueryValidation` are defunctionalised: a `Check`
  records which closure was added and the variables it captured; `runCheck` is the
  closure body.
* 64-bit integers are `Int`; the only arithmetic the code performs on them is
  `DBRecordVersion - 1`, wrapped by `wrapInt64`.
* A run-time panic is an outcome of its own: `Result.panic` in the read operations,
  and `Error.panic` in the outcome of a caller the panic unwinds through.
* `Store`, `execBatch` and `storeSession` give the store's side of the contract
  (section 5 of the specification): the conditions of a batch are evaluated on the
  stored values and the batch is applied as a whole or not at all.
-/

namespace Driver

/-! ## Values, rows and errors -/

/-- Two's-complement wrap of a 64-bit signed result. -/
def wrapInt64 (x : Int) : Int := (x + 2 ^ 63) % 2 ^ 64 - 2 ^ 63

/-- Dynamic column value, the `interface{}` stored in a scanned row map. -/
inductive Value
  | bytes (b : List Nat)
  | str (s : String)
  | int64 (n : Int)
  | int (n : Int)
  | uuid (s : String)
  | mapInt64Bytes (m : List (Int × List Nat))
  | mapStrBytes (m : List (String × List Nat))
  | uuids (l : List String)
  | eventBatches (l : List (String × List Nat))
  | other (tag : String)
  deriving DecidableEq, Repr

deriving instance DecidableEq for Except

/-- Scanned row `map[string]interface{}`: column name to value. -/
abbrev Row := List (String × Value)

/-- Map lookup `result[col]`; `none` when the key is absent. -/
def Row.get (r : Row) (col : String) : Option Value := r.lookup col

/-- Modelled from the spec: the failure classes of the session collaborator, whose
error types and classifier functions (`gocql.ConflictError`, `gocql.IsNotFoundError`)
live in `utils/gocql/errors.go`. Section 6: the collaborator classifies failures into
conditional-write-rejected, not-found and other I/O. -/
inductive DriverError
  | conflict (msg : String)
  | notFound
  | io (msg : String)
  deriving DecidableEq, Repr

/-- Modelled from the spec: `gocql.ConflictError(err)`, true exactly for a
conditional-write rejection. -/
def ConflictError : DriverError → Bool
  | .conflict _ => true
  | _ => false

/-- Modelled from the spec: `gocql.IsNotFoundError(err)`. -/
def IsNotFoundError : DriverError → Bool
  | .notFound => true
  | _ => false

/-- Fields of `p.CurrentWorkflowConditionFailedError` as the source fills them. -/
structure CurrentWorkflowConditionFailedError where
  Msg : String
  RequestIDs : List String
  RunID : String
  State : Int
  Status : Int
  LastWriteVersion : Int
  StartTime : Option Int
  deriving DecidableEq, Repr

/-- Modelled from the spec: the error of `newPersistedTypeMismatchError(column,
expected, actual, row)`, declared in another file of the package. Section 4.5:
PersistedTypeMismatch (columnName, expectedShape, actualValue, fullRowSnapshot). -/
structure PersistedTypeMismatchError where
  column : String
  expected : String
  actual : Value
  row : Row
  deriving DecidableEq, Repr

/-- Modelled from the spec: the text of a PersistedTypeMismatch, which names the
column and the expected shape. -/
def PersistedTypeMismatchError.Error (e : PersistedTypeMismatchError) : String :=
  "persisted type mismatch: column " ++ e.column ++ ", expected " ++ e.expected

/-- Go `error` values this layer returns. -/
inductive Error
  /-- an error of the session, handed to the caller as it is -/
  | driver (e : DriverError)
  /-- `serviceerror.Internal` -/
  | internal (msg : String)
  /-- `serviceerror.Unavailable` -/
  | unavailable (msg : String)
  /-- `serviceerror.NotFound` -/
  | notFound (msg : String)
  /-- `p.ShardOwnershipLostError` with the expected and the stored range id -/
  | shardOwnershipLost (shardID : Int) (expected actual : Int)
  /-- `p.ConditionFailedError` -/
  | conditionFailed (msg : String)
  /-- `p.WorkflowConditionFailedError` -/
  | workflowConditionFailed (runID : String) (expectedVersion actualVersion : Int)
  /-- `p.CurrentWorkflowConditionFailedError` -/
  | currentWorkflowConditionFailed (e : CurrentWorkflowConditionFailedError)
  /-- a PersistedTypeMismatch handed to the caller as it is -/
  | persistedTypeMismatch (e : PersistedTypeMismatchError)
  /-- an error of the serialization package -/
  | serialization (msg : String)
  /-- no value of Go type `error`: the call does not return, because a run-time panic
  raised at `site` unwinds through it, as it does through every caller (the package
  has no `recover`) -/
  | panic (site : String)
  deriving DecidableEq, Repr

/-- What a Go function of result type `(T, error)` does: it returns a value, returns
an error, or fails abnormally with a run-time panic; `panic` names the place, which is
the column whose unchecked type assertion failed or the nil pointer dereferenced. -/
inductive Result (α : Type)
  | ok (a : α)
  | error (e : Error)
  | panic (column : String)
  deriving DecidableEq, Repr

/-- Sequencing: an error or a panic ends the function. -/
def Result.andThen {α β : Type} (r : Result α) (f : α → Result β) : Result β :=
  match r with
  | .ok a => f a
  | .error e => .error e
  | .panic c => .panic c

/-- `enumsspb.WORKFLOW_EXECUTION_STATE_UNSPECIFIED`. -/
def WORKFLOW_EXECUTION_STATE_UNSPECIFIED : Int := 0

/-- `enumsspb.WORKFLOW_EXECUTION_STATE_COMPLETED`. -/
def WORKFLOW_EXECUTION_STATE_COMPLETED : Int := 3

/-- `enumspb.WORKFLOW_EXECUTION_STATUS_UNSPECIFIED`. -/
def WORKFLOW_EXECUTION_STATUS_UNSPECIFIED : Int := 0

/-! ## Request data -/

/-- `commonpb.DataBlob`; `EncodingName` is `EncodingType.String()`. -/
structure DataBlob where
  Data : List Nat
  EncodingName : String
  deriving DecidableEq, Repr

/-- `persistencespb.WorkflowExecutionState`, the fields the store reads. -/
structure WorkflowExecutionState where
  RunId : String
  State : Int
  Status : Int
  StartTime : Option Int
  deriving DecidableEq, Repr

/-- The five id-to-blob maps of an execution record. -/
inductive SubEntityKind
  | activity | timer | childExecution | requestCancel | signal
  deriving DecidableEq, Repr

/-- Key of a sub-entity map: `int64` for all maps but the timer map. -/
inductive MapKey
  | id (n : Int)
  | name (s : String)
  deriving DecidableEq, Repr

/-- `p.InternalWorkflowSnapshot`. The five info maps are one list tagged by kind. -/
structure InternalWorkflowSnapshot where
  NamespaceID : String
  WorkflowID : String
  RunID : String
  ExecutionInfoBlob : DataBlob
  ExecutionState : WorkflowExecutionState
  ExecutionStateBlob : DataBlob
  LastWriteVersion : Int
  NextEventID : Int
  DBRecordVersion : Int
  Condition : Int
  Checksum : DataBlob
  Infos : List (SubEntityKind × MapKey × DataBlob)
  SignalRequestedIDs : List String
  deriving DecidableEq, Repr

/-- `p.InternalWorkflowMutation`. Upserts and deletes of the five info maps are
lists tagged by kind. -/
structure InternalWorkflowMutation where
  NamespaceID : String
  WorkflowID : String
  RunID : String
  ExecutionInfoBlob : DataBlob
  ExecutionState : WorkflowExecutionState
  ExecutionStateBlob : DataBlob
  LastWriteVersion : Int
  NextEventID : Int
  DBRecordVersion : Int
  Condition : Int
  Checksum : DataBlob
  UpsertInfos : List (SubEntityKind × MapKey × DataBlob)
  DeleteInfos : List (SubEntityKind × MapKey)
  UpsertSignalRequestedIDs : List String
  DeleteSignalRequestedIDs : List String
  NewBufferedEvents : List DataBlob
  ClearBufferedEvents : Bool
  deriving DecidableEq, Repr

/-- `p.CreateWorkflowModeBrandNew`, first of the `iota` block of the persistence package. -/
def CreateWorkflowModeBrandNew : Int := 0
/-- `p.CreateWorkflowModeUpdateCurrent`. -/
def CreateWorkflowModeUpdateCurrent : Int := 1
/-- `p.CreateWorkflowModeBypassCurrent`. -/
def CreateWorkflowModeBypassCurrent : Int := 2

/-- `p.UpdateWorkflowModeUpdateCurrent`. -/
def UpdateWorkflowModeUpdateCurrent : Int := 0
/-- `p.UpdateWorkflowModeBypassCurrent`. -/
def UpdateWorkflowModeBypassCurrent : Int := 1

/-- `p.ConflictResolveWorkflowModeUpdateCurrent`. -/
def ConflictResolveWorkflowModeUpdateCurrent : Int := 0
/-- `p.ConflictResolveWorkflowModeBypassCurrent`. -/
def ConflictResolveWorkflowModeBypassCurrent : Int := 1

/-- `p.InternalCreateWorkflowExecutionRequest`. -/
structure InternalCreateWorkflowExecutionRequest where
  ShardID : Int
  RangeID : Int
  Mode : Int
  PreviousRunID : String
  PreviousLastWriteVersion : Int
  NewWorkflowSnapshot : InternalWorkflowSnapshot
  deriving DecidableEq, Repr

/-- `p.InternalUpdateWorkflowExecutionRequest`. -/
structure InternalUpdateWorkflowExecutionRequest where
  ShardID : Int
  RangeID : Int
  Mode : Int
  UpdateWorkflowMutation : InternalWorkflowMutation
  NewWorkflowSnapshot : Option InternalWorkflowSnapshot
  deriving DecidableEq, Repr

/-- `p.InternalConflictResolveWorkflowExecutionRequest`. -/
structure InternalConflictResolveWorkflowExecutionRequest where
  ShardID : Int
  RangeID : Int
  Mode : Int
  ResetWorkflowSnapshot : InternalWorkflowSnapshot
  NewWorkflowSnapshot : Option InternalWorkflowSnapshot
  CurrentWorkflowMutation : Option InternalWorkflowMutation
  deriving DecidableEq, Repr

/-- `p.InternalSetWorkflowExecutionRequest`. -/
structure InternalSetWorkflowExecutionRequest where
  ShardID : Int
  RangeID : Int
  SetWorkflowSnapshot : InternalWorkflowSnapshot
  deriving DecidableEq, Repr

/-- `executionCASCondition`: the run a batch wrote and the values it conditioned on. -/
structure executionCASCondition where
  runID : String
  dbVersion : Int
  nextEventID : Int
  deriving DecidableEq, Repr

/-! ## Statements of a batch -/

/-- Primary key of a row of `current_executions`. -/
structure CurrentKey where
  shardID : Int
  namespaceID : String
  workflowID : String
  deriving DecidableEq, Repr

/-- Primary key of a row of `executions`. -/
structure ExecutionKey where
  shardID : Int
  namespaceID : String
  workflowID : String
  runID : String
  deriving DecidableEq, Repr

/-- Columns of a `current_executions` row: the `SET` list of
`templateUpdateCurrentWorkflowExecutionQueryPrefix`, which is also the column list
of `templateGetCurrentExecutionConflictQuery`. -/
structure CurrentRecord where
  current_run_id : String
  execution_state : List Nat
  execution_state_encoding : String
  workflow_last_write_version : Int
  workflow_state : Int
  deriving DecidableEq, Repr

/-- Scalar columns of an `executions` row: the `SET` list of
`templateUpdateWorkflowExecutionQuery`. -/
structure ExecutionValues where
  execution : List Nat
  execution_encoding : String
  execution_state : List Nat
  execution_state_encoding : String
  next_event_id : Int
  db_record_version : Int
  checksum : List Nat
  checksum_encoding : String
  deriving DecidableEq, Repr

/-- The unconditional statements on the sub-entity columns of one `executions` row,
one constructor for each group of templates. -/
inductive SubEntityOp
  /-- `templateUpdate<Kind>InfoQuery`: `SET map[ ? ] = ?, map_encoding = ?` -/
  | setEntry (kind : SubEntityKind) (key : MapKey) (data : List Nat) (encoding : String)
  /-- `templateReset<Kind>InfoQuery`: `SET map = ?, map_encoding = ?` -/
  | resetMap (kind : SubEntityKind) (entries : List (MapKey × List Nat)) (encoding : String)
  /-- `templateDelete<Kind>InfoQuery`: `DELETE map[ ? ]` -/
  | deleteEntry (kind : SubEntityKind) (key : MapKey)
  /-- `templateUpdateSignalRequestedQuery` -/
  | addSignalRequested (ids : List String)
  /-- `templateResetSignalRequestedQuery` -/
  | resetSignalRequested (ids : List String)
  /-- `templateDeleteWorkflowExecutionSignalRequestedQuery` -/
  | removeSignalRequested (ids : List String)
  /-- `templateAppendBufferedEventsQuery` -/
  | appendBufferedEvents (event : DataBlob)
  /-- `templateDeleteBufferedEventsQuery` -/
  | deleteBufferedEvents
  deriving DecidableEq, Repr

/-- One statement queued by `txn.Query(template, args...)`: the template and its
bound arguments, in the order of the placeholders. -/
inductive Stmt
  /-- `templateUpdateLeaseQuery`: `SET range_id = ? WHERE shard_id = ? IF range_id = ?` -/
  | updateLease (rangeID shardID ifRangeID : Int)
  /-- `templateUpdateCurrentWorkflowExecutionQuery`: `IF current_run_id = ?` -/
  | updateCurrentWorkflowExecution (set : CurrentRecord) (key : CurrentKey) (ifRunID : String)
  /-- `templateUpdateCurrentWorkflowExecutionForNewQuery`:
  `IF workflow_last_write_version = ? and workflow_state = ? and current_run_id = ?` -/
  | updateCurrentWorkflowExecutionForNew (set : CurrentRecord) (key : CurrentKey)
      (ifLastWriteVersion ifState : Int) (ifRunID : String)
  /-- `templateCreateCurrentWorkflowExecutionQuery`: `INSERT ... IF NOT EXISTS` -/
  | createCurrentWorkflowExecution (key : CurrentKey) (values : CurrentRecord)
  /-- `templateCreateWorkflowExecutionQuery`: `INSERT ... IF NOT EXISTS` -/
  | createWorkflowExecution (key : ExecutionKey) (values : ExecutionValues)
  /-- `templateUpdateWorkflowExecutionQuery`: `IF db_record_version = ?` -/
  | updateWorkflowExecution (set : ExecutionValues) (key : ExecutionKey) (ifDBRecordVersion : Int)
  /-- `templateUpdateWorkflowExecutionQueryDeprecated`: the same `SET` list,
  `IF next_event_id = ?` -/
  | updateWorkflowExecutionDeprecated (set : ExecutionValues) (key : ExecutionKey)
      (ifNextEventID : Int)
  /-- a statement on the sub-entity columns of one execution row, without condition -/
  | subEntity (op : SubEntityOp) (key : ExecutionKey)
  deriving DecidableEq, Repr

/-- Whether the statement is on the `shards` table. -/
def Stmt.isLease : Stmt → Bool
  | .updateLease _ _ _ => true
  | _ => false

/-- Whether the statement is on the `current_executions` table. -/
def Stmt.onCurrent : Stmt → Bool
  | .updateCurrentWorkflowExecution _ _ _ => true
  | .updateCurrentWorkflowExecutionForNew _ _ _ _ _ => true
  | .createCurrentWorkflowExecution _ _ => true
  | _ => false

/-! ## The session collaborator -/

/-- The reads the store issues, one constructor for each `SELECT` template with its
bound arguments. -/
inductive Query
  /-- `templateGetLeaseQuery` -/
  | getLease (shardID : Int)
  /-- `templateGetWorkflowExecutionConflictsQuery` -/
  | getWorkflowExecutionConflicts (shardID : Int) (namespaceID workflowID runID : String)
  /-- `templateGetCurrentExecutionConflictQuery` -/
  | getCurrentExecutionConflict (shardID : Int) (namespaceID workflowID : String)
  /-- `templateGetCurrentExecutionQuery` -/
  | getCurrentExecution (shardID : Int) (namespaceID workflowID : String)
  /-- `templateGetWorkflowExecutionQuery` -/
  | getWorkflowExecution (shardID : Int) (namespaceID workflowID runID : String)
  /-- `templateListWorkflowExecutionQuery` with page size and page state -/
  | listWorkflowExecution (shardID : Int) (pageSize : Int) (pageToken : List Nat)
  deriving DecidableEq, Repr

/-- One call on the session. -/
inductive Event
  /-- a `Query(...).MapScan` or `Iter` -/
  | query (q : Query)
  /-- `txn.Exec()` of the queued statements -/
  | exec (batch : List Stmt)
  deriving DecidableEq, Repr

/-- Whether the event is the execution of a batch. -/
def Event.isExec : Event → Bool
  | .exec _ => true
  | _ => false

/-- Whether the event is one of the three reads the diagnosis issues. -/
def Event.isDiagnosisRead : Event → Bool
  | .query (.getLease _) => true
  | .query (.getWorkflowExecutionConflicts _ _ _ _) => true
  | .query (.getCurrentExecutionConflict _ _ _) => true
  | _ => false

/-- Columns of `templateGetLeaseQuery`. -/
structure LeaseRecord where
  range_id : Int
  deriving DecidableEq, Repr

/-- Columns of `templateGetWorkflowExecutionConflictsQuery`. -/
structure ExecutionConflictRecord where
  run_id : String
  db_record_version : Int
  next_event_id : Int
  deriving DecidableEq, Repr

/-- The session: what each call answers. The three conflict queries scan into a
record made by `newConflictRecord()` and are read at the column types of the
schema; the other reads scan into an untyped row map. -/
structure Session where
  /-- `Query(templateGetLeaseQuery, shardID).MapScan` -/
  scanLease : Int → Except DriverError LeaseRecord
  /-- `Query(templateGetCurrentExecutionConflictQuery, ...).MapScan` -/
  scanCurrentConflict : Int → String → String → Except DriverError CurrentRecord
  /-- `Query(templateGetWorkflowExecutionConflictsQuery, ...).MapScan` -/
  scanExecutionConflict : Int → String → String → String → Except DriverError ExecutionConflictRecord
  /-- `Query(...).MapScan(result)` of the other point reads -/
  mapScan : Query → Except DriverError Row
  /-- `Query(...).PageSize(n).PageState(token).Iter()`: the rows `iter.MapScan` yields
  and `iter.PageState()` after the last of them -/
  iter : Query → List Row × List Nat
  /-- `txn.Exec()`: `none` when the batch was applied -/
  exec : List Stmt → Option DriverError

/-! ## Deferred checks -/

/-- A closure added to the `PostQueryValidation`, with the variables it captured. -/
inductive Check
  /-- the closure of `validateCurrentWorkflowNotExist` -/
  | currentWorkflowNotExist (shardID : Int) (namespaceID workflowID : String)
  /-- the closure of `validateCurrentWorkflowRunId` -/
  | currentWorkflowRunId (shardID : Int) (namespaceID workflowID runID : String)
  /-- the closure of `validateCurrentWorkflowMvcc` -/
  | currentWorkflowMvcc (shardID : Int) (namespaceID workflowID : String)
      (lastWriteVersion workflowState : Int) (runID : String)
  /-- the first closure of `decodeConflict`, "Check Ownership for conflicts" -/
  | ownership (shardID rangeID : Int)
  /-- the closure of the loop of `decodeConflict`, "Check Execution for conflicts";
  each closure holds the condition of its own iteration -/
  | execution (shardID : Int) (namespaceID workflowID : String) (condition : executionCASCondition)
  deriving DecidableEq, Repr

/-- Whether the check reads the current-execution record. -/
def Check.onCurrent : Check → Bool
  | .currentWorkflowNotExist _ _ _ => true
  | .currentWorkflowRunId _ _ _ _ => true
  | .currentWorkflowMvcc _ _ _ _ _ _ => true
  | _ => false

/-- The read a check issues when it runs. -/
def Check.query : Check → Query
  | .currentWorkflowNotExist sh ns wf => .getCurrentExecutionConflict sh ns wf
  | .currentWorkflowRunId sh ns wf _ => .getCurrentExecutionConflict sh ns wf
  | .currentWorkflowMvcc sh ns wf _ _ _ => .getCurrentExecutionConflict sh ns wf
  | .ownership sh _ => .getLease sh
  | .execution sh ns wf c => .getWorkflowExecutionConflicts sh ns wf c.runID

/-- Modelled from the spec: `exportCurrentWorkflowConflictError(conflictRecord)`,
declared in another file of the package. Section 4.4: a mismatch gives
CurrentWorkflowConflict with the actual stored values attached. -/
def exportCurrentWorkflowConflictError (r : CurrentRecord) : Error :=
  .currentWorkflowConditionFailed
    { Msg := "Current workflow record conflict. Current run ID: " ++ r.current_run_id
      RequestIDs := []
      RunID := r.current_run_id
      State := r.workflow_state
      Status := WORKFLOW_EXECUTION_STATUS_UNSPECIFIED
      LastWriteVersion := r.workflow_last_write_version
      StartTime := none }

/-- Modelled from the spec: `extractShardOwnershipLostError(conflictRecord, shardID,
rangeID)`, declared in another file of the package. Section 4.4: stored rangeId mismatch
against the expected one gives ShardOwnershipLost (shardId, expected, actual). -/
def extractShardOwnershipLostError (r : LeaseRecord) (shardID rangeID : Int) : Option Error :=
  if r.range_id ≠ rangeID then some (.shardOwnershipLost shardID rangeID r.range_id) else none

/-- Modelled from the spec: `extractWorkflowConflictError(conflictRecord, dbVersion,
nextEventID)`, declared in another file of the package. Section 4.4: a stored
dbRecordVersion other than the value the caller conditioned on gives WorkflowConflict
with the expected and the actual version. -/
def extractWorkflowConflictError (r : ExecutionConflictRecord) (dbVersion _nextEventID : Int) :
    Option Error :=
  if r.db_record_version ≠ dbVersion then
    some (.workflowConditionFailed r.run_id dbVersion r.db_record_version)
  else none

/-- The body of each closure: one read, then the decision. `none` is Go `nil`. -/
def runCheck (d : Session) : Check → Option Error
  | .currentWorkflowNotExist shardID namespaceID workflowID =>
    match d.scanCurrentConflict shardID namespaceID workflowID with
    | .error err => if IsNotFoundError err then none else none
    | .ok conflictRecord => some (exportCurrentWorkflowConflictError conflictRecord)
  | .currentWorkflowRunId shardID namespaceID workflowID runID =>
    match d.scanCurrentConflict shardID namespaceID workflowID with
    | .ok conflictRecord =>
      if runID ≠ conflictRecord.current_run_id then
        some (exportCurrentWorkflowConflictError conflictRecord)
      else none
    | .error err => some (.driver err)
  | .currentWorkflowMvcc shardID namespaceID workflowID lastWriteVersion workflowState runID =>
    match d.scanCurrentConflict shardID namespaceID workflowID with
    | .ok conflictRecord =>
      if runID ≠ conflictRecord.current_run_id ∨
          lastWriteVersion ≠ conflictRecord.workflow_last_write_version ∨
          workflowState ≠ conflictRecord.workflow_state then
        some (exportCurrentWorkflowConflictError conflictRecord)
      else none
    | .error err => some (.driver err)
  | .ownership shardID rangeID =>
    match d.scanLease shardID with
    | .ok conflictRecord => extractShardOwnershipLostError conflictRecord shardID rangeID
    | .error err => some (.driver err)
  | .execution shardID namespaceID workflowID condition =>
    match d.scanExecutionConflict shardID namespaceID workflowID condition.runID with
    | .ok conflictRecord =>
      extractWorkflowConflictError conflictRecord condition.dbVersion condition.nextEventID
    | .error err =>
      if IsNotFoundError err then
        some (.conditionFailed ("Workflow does not exist: " ++ workflowID))
      else some (.driver err)

/-- Modelled from the spec: `PostQueryValidation.Validate`, declared in another file of
the package. Section 9: an ordered sequence of checks, evaluated in the order they
were added, stopping at the first violation. Returns the violation and the reads
made. -/
def Validate (d : Session) : List Check → Option Error × List Event
  | [] => (none, [])
  | c :: cs =>
    match runCheck d c with
    | some err => (some err, [.query c.query])
    | none => ((Validate d cs).1, .query c.query :: (Validate d cs).2)

/-- The checks `decodeConflict` hands to `Validate`: those already in the validator,
then the ownership check, then one execution check for each condition. -/
def decodeConflictChecks (validator : List Check) (shardID : Int) (namespaceID workflowID : String)
    (rangeID : Int) (requestExecutionCASConditions : List executionCASCondition) : List Check :=
  (validator ++ [.ownership shardID rangeID]) ++
    requestExecutionCASConditions.map (fun condition =>
      Check.execution shardID namespaceID workflowID condition)

/-- `MutableStateStore.decodeConflict`: the Go `error` it returns (`none` would be
`nil`) and the reads it made. -/
def decodeConflict (d : Session) (validator : List Check) (shardID : Int)
    (namespaceID workflowID : String) (rangeID : Int)
    (requestExecutionCASConditions : List executionCASCondition) : Option Error × List Event :=
  let checks := decodeConflictChecks validator shardID namespaceID workflowID rangeID
    requestExecutionCASConditions
  match Validate d checks with
  | (some err, reads) => (some err, reads)
  | (none, reads) =>
    (some (.conditionFailed ("WorkflowExecution conflict: Shard:" ++ toString shardID ++
      ", Namespace:" ++ namespaceID ++ ", WorkflowID:" ++ workflowID)), reads)

/-! ## Point read of the current execution -/

/-- The two functions of the serialization package the store calls; they are taken
as given. A failure carries the text of the serialization error. -/
structure Serializer where
  /-- `serialization.WorkflowExecutionStateToBlob` -/
  WorkflowExecutionStateToBlob : WorkflowExecutionState → Except String DataBlob
  /-- `serialization.WorkflowExecutionStateFromBlob(data, encoding)` -/
  WorkflowExecutionStateFromBlob : List Nat → String → Except String WorkflowExecutionState

/-- `p.GetCurrentExecutionRequest`. -/
structure GetCurrentExecutionRequest where
  ShardID : Int
  NamespaceID : String
  WorkflowID : String
  deriving DecidableEq, Repr

/-- `p.InternalGetCurrentExecutionResponse`. -/
structure InternalGetCurrentExecutionResponse where
  RunID : String
  ExecutionState : WorkflowExecutionState
  deriving DecidableEq, Repr

/-- `enumspb.EncodingType` of the Temporal API library. -/
inductive EncodingType
  | Unspecified
  | Proto3
  | Json
  deriving DecidableEq, Repr

/-- `EncodingType.String()` of the Temporal API library. -/
def EncodingTypeString : EncodingType → String
  | .Unspecified => "Unspecified"
  | .Proto3 => "Proto3"
  | .Json => "Json"

/-- `enumspb.EncodingTypeFromString(s)` of the Temporal API library: the value whose
name `s` is, in the form `String()` prints or in the form of the proto enum; `none` is
its error. -/
def EncodingTypeFromString (s : String) : Option EncodingType :=
  if s = "Unspecified" ∨ s = "ENCODING_TYPE_UNSPECIFIED" then some .Unspecified
  else if s = "Proto3" ∨ s = "ENCODING_TYPE_PROTO3" then some .Proto3
  else if s = "Json" ∨ s = "ENCODING_TYPE_JSON" then some .Json
  else none

/-- `p.NewDataBlob(data, encodingTypeStr)` of the Temporal server library
(`common/persistence`): the nil pointer, `none`, for empty data; otherwise the blob of
the data and of the encoding type named, which is ENCODING_TYPE_UNSPECIFIED for a name
the enum does not know. -/
def NewDataBlob (data : List Nat) (encodingTypeStr : String) : Option DataBlob :=
  if data.length = 0 then none
  else
    some { Data := data
           EncodingName :=
             EncodingTypeString ((EncodingTypeFromString encodingTypeStr).getD .Unspecified) }

/-- Modelled from the spec: `gocql.ConvertError(operation, err)`, declared in another
file of `utils/gocql`. Section 4.3: the point read fails NotFound when the row is
absent; section 7: other failures of the collaborator pass through unmodified. -/
def ConvertError (operation : String) : DriverError → Error
  | .notFound => .notFound ("operation " ++ operation ++ " encountered not found")
  | err => .driver err

/-- Modelled from the spec: `gocql.UUIDToString(value)`, declared in another file of
`utils/gocql`: the text of a uuid column (section 4.3: the point read gives
currentRunId). The schema types the column as uuid; any other shape gives the empty
string here. -/
def UUIDToString : Option Value → String
  | some (.uuid s) => s
  | _ => ""

/-- `executionStateBlobFromRow`. A failed type assertion leaves the zero value of
the asserted type in the variable handed to `newPersistedTypeMismatchError`. The blob
returned is the pointer `p.NewDataBlob` gives, `none` when it is nil. -/
def executionStateBlobFromRow (result : Row) :
    Except PersistedTypeMismatchError (Option DataBlob) :=
  match result.get "execution_state" with
  | some (.bytes state) =>
    match result.get "execution_state_encoding" with
    | some (.str stateEncoding) => .ok (NewDataBlob state stateEncoding)
    | _ =>
      .error { column := "execution_state_encoding", expected := "", actual := .str "",
               row := result }
  | _ => .error { column := "execution_state", expected := "", actual := .bytes [], row := result }

/-- `MutableStateStore.GetCurrentExecution`: what it does, and the read made. The
source reads `executionStateBlob.Data` without a nil check: on the nil blob that
`p.NewDataBlob` gives for an empty `execution_state` this is a nil pointer
dereference. -/
def GetCurrentExecution (ser : Serializer) (d : Session) (request : GetCurrentExecutionRequest) :
    Result InternalGetCurrentExecutionResponse × List Event :=
  let query := Query.getCurrentExecution request.ShardID request.NamespaceID request.WorkflowID
  match d.mapScan query with
  | .error err => (.error (ConvertError "GetCurrentExecution" err), [.query query])
  | .ok result =>
    let currentRunID := UUIDToString (result.get "current_run_id")
    match executionStateBlobFromRow result with
    | .error err =>
      (.error (.unavailable ("GetCurrentExecution operation failed. Error: " ++ err.Error)),
        [.query query])
    | .ok none => (.panic "executionStateBlob", [.query query])
    | .ok (some executionStateBlob) =>
      match ser.WorkflowExecutionStateFromBlob executionStateBlob.Data
          executionStateBlob.EncodingName with
      | .error err => (.error (.serialization err), [.query query])
      | .ok executionState =>
        (.ok { RunID := currentRunID, ExecutionState := executionState }, [.query query])

/-- `MutableStateStore.assertNotCurrentExecution`: error or `none`, and the read made.
A panic of `GetCurrentExecution` unwinds through it: `some (.panic site)`. -/
def assertNotCurrentExecution (ser : Serializer) (d : Session) (shardID : Int)
    (namespaceID workflowID runID : String) (startTime : Option Int) :
    Option Error × List Event :=
  match GetCurrentExecution ser d
      { ShardID := shardID, NamespaceID := namespaceID, WorkflowID := workflowID } with
  | (.error err, reads) =>
    match err with
    | .notFound _ => (none, reads)
    | _ => (some err, reads)
  | (.panic site, reads) => (some (.panic site), reads)
  | (.ok resp, reads) =>
    if resp.RunID = runID then
      (some (.currentWorkflowConditionFailed
        { Msg := "Assertion on current record failed. Current run ID is not expected: " ++
            resp.RunID
          RequestIDs := []
          RunID := ""
          State := WORKFLOW_EXECUTION_STATE_UNSPECIFIED
          Status := WORKFLOW_EXECUTION_STATUS_UNSPECIFIED
          LastWriteVersion := 0
          StartTime := startTime }), reads)
    else (none, reads)

/-! ## Execution-record statements -/

/-- Scalar columns written for a snapshot. -/
def snapshotValues (w : InternalWorkflowSnapshot) : ExecutionValues :=
  { execution := w.ExecutionInfoBlob.Data
    execution_encoding := w.ExecutionInfoBlob.EncodingName
    execution_state := w.ExecutionStateBlob.Data
    execution_state_encoding := w.ExecutionStateBlob.EncodingName
    next_event_id := w.NextEventID
    db_record_version := w.DBRecordVersion
    checksum := w.Checksum.Data
    checksum_encoding := w.Checksum.EncodingName }

/-- Scalar columns written for a mutation. -/
def mutationValues (w : InternalWorkflowMutation) : ExecutionValues :=
  { execution := w.ExecutionInfoBlob.Data
    execution_encoding := w.ExecutionInfoBlob.EncodingName
    execution_state := w.ExecutionStateBlob.Data
    execution_state_encoding := w.ExecutionStateBlob.EncodingName
    next_event_id := w.NextEventID
    db_record_version := w.DBRecordVersion
    checksum := w.Checksum.Data
    checksum_encoding := w.Checksum.EncodingName }

/-- Entries of one kind of a tagged list of infos. -/
def infosOfKind (infos : List (SubEntityKind × MapKey × DataBlob)) (kind : SubEntityKind) :
    List (MapKey × DataBlob) :=
  (infos.filter (fun e => e.1 = kind)).map (fun e => e.2)

/-- The full-map reset statement of one kind. -/
def resetKind (infos : List (SubEntityKind × MapKey × DataBlob)) (key : ExecutionKey)
    (kind : SubEntityKind) : Stmt :=
  let entries := infosOfKind infos kind
  .subEntity (.resetMap kind (entries.map (fun e => (e.1, e.2.Data)))
    ((entries.head?.map (fun e => e.2.EncodingName)).getD "")) key

/-- The key of the execution row of a snapshot. -/
def snapshotKey (shardID : Int) (w : InternalWorkflowSnapshot) : ExecutionKey :=
  { shardID := shardID, namespaceID := w.NamespaceID, workflowID := w.WorkflowID,
    runID := w.RunID }

/-- The key of the execution row of a mutation. -/
def mutationKey (shardID : Int) (w : InternalWorkflowMutation) : ExecutionKey :=
  { shardID := shardID, namespaceID := w.NamespaceID, workflowID := w.WorkflowID,
    runID := w.RunID }

/-- Modelled from the spec: the statements `applyWorkflowSnapshotTxnAsNew` queues (the
function is declared in another file of the package). Section 4.1: insert-if-absent of
the execution record, then per-field map statements; section 3: per-id set for each map
entry and add for the signal-requested set. -/
def snapshotAsNewStmts (shardID : Int) (w : InternalWorkflowSnapshot) : List Stmt :=
  [.createWorkflowExecution (snapshotKey shardID w) (snapshotValues w)] ++
    w.Infos.map (fun e =>
      .subEntity (.setEntry e.1 e.2.1 e.2.2.Data e.2.2.EncodingName) (snapshotKey shardID w)) ++
    [.subEntity (.addSignalRequested w.SignalRequestedIDs) (snapshotKey shardID w)]

/-- Modelled from the spec: the update of the scalar columns of an execution record,
queued by `applyWorkflowMutationTxn` and `applyWorkflowSnapshotTxnAsReset` (declared in
another file of the package). Section 9: two update strategies coexist, the current CAS
on dbRecordVersion and a legacy CAS on nextEventId, and both are kept; their templates
are `templateUpdateWorkflowExecutionQuery` and
`templateUpdateWorkflowExecutionQueryDeprecated` of this file, which write the same
columns. The current strategy writes `DBRecordVersion` on the condition that the stored
version is `DBRecordVersion - 1` (sections 3 and 4.1, and the comments on `dbVersion` in
the calling operations). The legacy strategy is that of a caller without a record
version, `DBRecordVersion` 0, the version of a row written before the column existed
(section 4.5): it conditions on the stored `next_event_id` being `condition`, the value
the operations hand to the diagnosis as `nextEventID`. -/
def updateExecution (values : ExecutionValues) (key : ExecutionKey) (condition : Int) : Stmt :=
  if values.db_record_version = 0 then .updateWorkflowExecutionDeprecated values key condition
  else .updateWorkflowExecution values key (wrapInt64 (values.db_record_version - 1))

/-- Modelled from the spec: the statements `applyWorkflowSnapshotTxnAsReset` queues (the
function is declared in another file of the package). Section 4.1: CAS update of the
execution record (`updateExecution`); section 3: full-map reset of every map and of the
signal-requested set, and clear-all of the buffered events. -/
def snapshotAsResetStmts (shardID : Int) (w : InternalWorkflowSnapshot) : List Stmt :=
  [updateExecution (snapshotValues w) (snapshotKey shardID w) w.Condition] ++
    [SubEntityKind.activity, .timer, .childExecution, .requestCancel, .signal].map
      (resetKind w.Infos (snapshotKey shardID w)) ++
    [.subEntity (.resetSignalRequested w.SignalRequestedIDs) (snapshotKey shardID w),
     .subEntity .deleteBufferedEvents (snapshotKey shardID w)]

/-- Modelled from the spec: the statements `applyWorkflowMutationTxn` queues (the
function is declared in another file of the package). Section 4.1: CAS update of the
execution record (`updateExecution`), then the per-field statements of the deltas;
section 3: per-id set and per-id delete on the maps, add and remove on the
signal-requested set, clear-all and append on the buffered events. -/
def mutationStmts (shardID : Int) (w : InternalWorkflowMutation) : List Stmt :=
  [updateExecution (mutationValues w) (mutationKey shardID w) w.Condition] ++
    w.UpsertInfos.map (fun e =>
      .subEntity (.setEntry e.1 e.2.1 e.2.2.Data e.2.2.EncodingName) (mutationKey shardID w)) ++
    w.DeleteInfos.map (fun e => .subEntity (.deleteEntry e.1 e.2) (mutationKey shardID w)) ++
    [.subEntity (.addSignalRequested w.UpsertSignalRequestedIDs) (mutationKey shardID w),
     .subEntity (.removeSignalRequested w.DeleteSignalRequestedIDs) (mutationKey shardID w)] ++
    (if w.ClearBufferedEvents then [.subEntity .deleteBufferedEvents (mutationKey shardID w)]
     else []) ++
    w.NewBufferedEvents.map (fun e =>
      .subEntity (.appendBufferedEvents e) (mutationKey shardID w))

/-- Modelled from the spec: `applyWorkflowSnapshotTxnAsNew(txn, shardID, snapshot)`,
declared in another file of the package: it queues `snapshotAsNewStmts`. The spec
names no failure of it. -/
def applyWorkflowSnapshotTxnAsNew (txn : List Stmt) (shardID : Int)
    (w : InternalWorkflowSnapshot) : Except Error (List Stmt) :=
  .ok (txn ++ snapshotAsNewStmts shardID w)

/-- Modelled from the spec: `applyWorkflowSnapshotTxnAsReset(txn, shardID, snapshot)`,
declared in another file of the package: it queues `snapshotAsResetStmts`. The spec
names no failure of it. -/
def applyWorkflowSnapshotTxnAsReset (txn : List Stmt) (shardID : Int)
    (w : InternalWorkflowSnapshot) : Except Error (List Stmt) :=
  .ok (txn ++ snapshotAsResetStmts shardID w)

/-- Modelled from the spec: `applyWorkflowMutationTxn(txn, shardID, mutation)`,
declared in another file of the package: it queues `mutationStmts`. The spec names no
failure of it. -/
def applyWorkflowMutationTxn (txn : List Stmt) (shardID : Int)
    (w : InternalWorkflowMutation) : Except Error (List Stmt) :=
  .ok (txn ++ mutationStmts shardID w)

/-! ## The four mutating operations -/

/-- What an operation returns (`none` is Go `nil`) and the session calls it made. -/
structure Outcome where
  err : Option Error
  trace : List Event
  deriving DecidableEq, Repr

/-- The statement appended by `txn.Query(templateUpdateLeaseQuery, request.RangeID,
request.ShardID, request.RangeID)`. -/
def leaseStmt (rangeID shardID : Int) : Stmt := .updateLease rangeID shardID rangeID

/-- The common tail of the four operations, from `err := txn.Exec()` to the return. -/
def execTxn (d : Session) (txn : List Stmt) (validator : List Check) (shardID : Int)
    (namespaceID workflowID : String) (rangeID : Int)
    (executionCASConditions : List executionCASCondition) : Outcome :=
  match d.exec txn with
  | some err =>
    if ConflictError err then
      { err := (decodeConflict d validator shardID namespaceID workflowID rangeID
          executionCASConditions).1
        trace := .exec txn :: (decodeConflict d validator shardID namespaceID workflowID rangeID
          executionCASConditions).2 }
    else { err := some (.driver err), trace := [.exec txn] }
  | none => { err := none, trace := [.exec txn] }

/-- The `switch request.Mode` of `CreateWorkflowExecution`: the statements queued and
the checks added, or the error returned. -/
def createModeSwitch (request : InternalCreateWorkflowExecutionRequest) :
    Except Error (List Stmt × List Check) :=
  let shardID := request.ShardID
  let newWorkflow := request.NewWorkflowSnapshot
  let lastWriteVersion := newWorkflow.LastWriteVersion
  let namespaceID := newWorkflow.NamespaceID
  let workflowID := newWorkflow.WorkflowID
  let runID := newWorkflow.RunID
  let key : CurrentKey := { shardID := shardID, namespaceID := namespaceID, workflowID := workflowID }
  let set : CurrentRecord :=
    { current_run_id := runID
      execution_state := newWorkflow.ExecutionStateBlob.Data
      execution_state_encoding := newWorkflow.ExecutionStateBlob.EncodingName
      workflow_last_write_version := lastWriteVersion
      workflow_state := newWorkflow.ExecutionState.State }
  if request.Mode = CreateWorkflowModeBypassCurrent then
    .ok ([], [])
  else if request.Mode = CreateWorkflowModeUpdateCurrent then
    .ok ([.updateCurrentWorkflowExecutionForNew set key request.PreviousLastWriteVersion
            WORKFLOW_EXECUTION_STATE_COMPLETED request.PreviousRunID],
         [.currentWorkflowMvcc shardID namespaceID workflowID request.PreviousLastWriteVersion
            WORKFLOW_EXECUTION_STATE_COMPLETED request.PreviousRunID])
  else if request.Mode = CreateWorkflowModeBrandNew then
    .ok ([.createCurrentWorkflowExecution key set],
         [.currentWorkflowNotExist shardID namespaceID workflowID])
  else
    .error (.internal ("CreateWorkflowExecution: unknown mode: " ++ toString request.Mode))

/-- `MutableStateStore.CreateWorkflowExecution`. -/
def CreateWorkflowExecution (d : Session) (request : InternalCreateWorkflowExecutionRequest) :
    Outcome :=
  let newWorkflow := request.NewWorkflowSnapshot
  match createModeSwitch request with
  | .error err => { err := some err, trace := [] }
  | .ok (txn, validator) =>
    match applyWorkflowSnapshotTxnAsNew txn request.ShardID newWorkflow with
    | .error err => { err := some err, trace := [] }
    | .ok txn =>
      execTxn d (txn ++ [leaseStmt request.RangeID request.ShardID]) validator request.ShardID
        newWorkflow.NamespaceID newWorkflow.WorkflowID request.RangeID
        [{ runID := newWorkflow.ExecutionState.RunId
           dbVersion := wrapInt64 (newWorkflow.DBRecordVersion - 1)
           nextEventID := newWorkflow.Condition }]

/-- The bypass case of a mode switch, `if err := d.assertNotCurrentExecution(...);
err != nil { return err }`: nothing is queued and no check is added. -/
def bypassCase (asserted : Option Error × List Event) :
    Except Error (List Stmt × List Check) × List Event :=
  match asserted with
  | (some err, reads) => (.error err, reads)
  | (none, reads) => (.ok ([], []), reads)

/-- The `switch request.Mode` of `UpdateWorkflowExecution`: the statements queued and
the checks added, or the error returned; and the read made by the bypass mode. -/
def updateModeSwitch (ser : Serializer) (d : Session)
    (request : InternalUpdateWorkflowExecutionRequest) :
    Except Error (List Stmt × List Check) × List Event :=
  let updateWorkflow := request.UpdateWorkflowMutation
  let namespaceID := updateWorkflow.NamespaceID
  let workflowID := updateWorkflow.WorkflowID
  let runID := updateWorkflow.RunID
  let shardID := request.ShardID
  if request.Mode = UpdateWorkflowModeBypassCurrent then
    bypassCase (assertNotCurrentExecution ser d request.ShardID namespaceID workflowID runID
      updateWorkflow.ExecutionState.StartTime)
  else if request.Mode = UpdateWorkflowModeUpdateCurrent then
    match request.NewWorkflowSnapshot with
    | some newWorkflow =>
      let newLastWriteVersion := newWorkflow.LastWriteVersion
      let newNamespaceID := newWorkflow.NamespaceID
      let newWorkflowID := newWorkflow.WorkflowID
      let newRunID := newWorkflow.RunID
      if namespaceID ≠ newNamespaceID then
        (.error (.internal
          "UpdateWorkflowExecution: cannot continue as new to another namespace"), [])
      else
        (.ok ([.updateCurrentWorkflowExecution
                { current_run_id := newRunID
                  execution_state := newWorkflow.ExecutionStateBlob.Data
                  execution_state_encoding := newWorkflow.ExecutionStateBlob.EncodingName
                  workflow_last_write_version := newLastWriteVersion
                  workflow_state := newWorkflow.ExecutionState.State }
                { shardID := shardID, namespaceID := newNamespaceID, workflowID := newWorkflowID }
                runID],
              [.currentWorkflowRunId shardID namespaceID workflowID runID]), [])
    | none =>
      let lastWriteVersion := updateWorkflow.LastWriteVersion
      match ser.WorkflowExecutionStateToBlob updateWorkflow.ExecutionState with
      | .error err => (.error (.serialization err), [])
      | .ok executionStateDatablob =>
        (.ok ([.updateCurrentWorkflowExecution
                { current_run_id := runID
                  execution_state := executionStateDatablob.Data
                  execution_state_encoding := executionStateDatablob.EncodingName
                  workflow_last_write_version := lastWriteVersion
                  workflow_state := updateWorkflow.ExecutionState.State }
                { shardID := request.ShardID, namespaceID := namespaceID,
                  workflowID := workflowID }
                runID],
              [.currentWorkflowRunId shardID namespaceID workflowID runID]), [])
  else
    (.error (.internal ("UpdateWorkflowExecution: unknown mode: " ++ toString request.Mode)), [])

/-- The statements of `UpdateWorkflowExecution` after the switch: the mutation, the
new snapshot when there is one, the lease. -/
def updateTxn (txn : List Stmt) (request : InternalUpdateWorkflowExecutionRequest) :
    Except Error (List Stmt) :=
  match applyWorkflowMutationTxn txn request.ShardID request.UpdateWorkflowMutation with
  | .error err => .error err
  | .ok txn =>
    match request.NewWorkflowSnapshot with
    | some newWorkflow =>
      match applyWorkflowSnapshotTxnAsNew txn request.ShardID newWorkflow with
      | .error err => .error err
      | .ok txn => .ok (txn ++ [leaseStmt request.RangeID request.ShardID])
    | none => .ok (txn ++ [leaseStmt request.RangeID request.ShardID])

/-- `MutableStateStore.UpdateWorkflowExecution`. -/
def UpdateWorkflowExecution (ser : Serializer) (d : Session)
    (request : InternalUpdateWorkflowExecutionRequest) : Outcome :=
  let updateWorkflow := request.UpdateWorkflowMutation
  match updateModeSwitch ser d request with
  | (.error err, reads) => { err := some err, trace := reads }
  | (.ok (txn, validator), reads) =>
    match updateTxn txn request with
    | .error err => { err := some err, trace := reads }
    | .ok txn =>
      let o := execTxn d txn validator request.ShardID updateWorkflow.NamespaceID
        updateWorkflow.WorkflowID request.RangeID
        [{ runID := updateWorkflow.ExecutionState.RunId
           dbVersion := wrapInt64 (updateWorkflow.DBRecordVersion - 1)
           nextEventID := updateWorkflow.Condition }]
      { err := o.err, trace := reads ++ o.trace }

/-- The `startTime` of `ConflictResolveWorkflowExecution`: the start time of the
current-run mutation when there is one. -/
def conflictResolveStartTime (request : InternalConflictResolveWorkflowExecutionRequest) :
    Option Int :=
  match request.CurrentWorkflowMutation with
  | some currentWorkflow => currentWorkflow.ExecutionState.StartTime
  | none => none

/-- The `switch request.Mode` of `ConflictResolveWorkflowExecution`. -/
def conflictResolveModeSwitch (ser : Serializer) (d : Session)
    (request : InternalConflictResolveWorkflowExecutionRequest) :
    Except Error (List Stmt × List Check) × List Event :=
  let currentWorkflow := request.CurrentWorkflowMutation
  let resetWorkflow := request.ResetWorkflowSnapshot
  let newWorkflow := request.NewWorkflowSnapshot
  let shardID := request.ShardID
  let namespaceID := resetWorkflow.NamespaceID
  let workflowID := resetWorkflow.WorkflowID
  let startTime := conflictResolveStartTime request
  if request.Mode = ConflictResolveWorkflowModeBypassCurrent then
    bypassCase (assertNotCurrentExecution ser d shardID namespaceID workflowID
      resetWorkflow.ExecutionState.RunId startTime)
  else if request.Mode = ConflictResolveWorkflowModeUpdateCurrent then
    let executionState :=
      match newWorkflow with
      | some newWorkflow => newWorkflow.ExecutionState
      | none => resetWorkflow.ExecutionState
    let executionStateBlob :=
      match newWorkflow with
      | some newWorkflow => newWorkflow.ExecutionStateBlob
      | none => resetWorkflow.ExecutionStateBlob
    let lastWriteVersion :=
      match newWorkflow with
      | some newWorkflow => newWorkflow.LastWriteVersion
      | none => resetWorkflow.LastWriteVersion
    let currentRunID :=
      match currentWorkflow with
      | some currentWorkflow => currentWorkflow.ExecutionState.RunId
      | none => resetWorkflow.ExecutionState.RunId
    (.ok ([.updateCurrentWorkflowExecution
            { current_run_id := executionState.RunId
              execution_state := executionStateBlob.Data
              execution_state_encoding := executionStateBlob.EncodingName
              workflow_last_write_version := lastWriteVersion
              workflow_state := executionState.State }
            { shardID := shardID, namespaceID := namespaceID, workflowID := workflowID }
            currentRunID],
          [.currentWorkflowRunId shardID namespaceID workflowID currentRunID]), [])
  else
    (.error (.internal ("ConflictResolveWorkflowExecution: unknown mode: " ++
      toString request.Mode)), [])

/-- The statements of `ConflictResolveWorkflowExecution` after the switch: the reset
snapshot, the current mutation and the new snapshot when there are, the lease. -/
def conflictResolveTxn (txn : List Stmt)
    (request : InternalConflictResolveWorkflowExecutionRequest) : Except Error (List Stmt) :=
  match applyWorkflowSnapshotTxnAsReset txn request.ShardID request.ResetWorkflowSnapshot with
  | .error err => .error err
  | .ok txn =>
    match (match request.CurrentWorkflowMutation with
           | some currentWorkflow => applyWorkflowMutationTxn txn request.ShardID currentWorkflow
           | none => .ok txn) with
    | .error err => .error err
    | .ok txn =>
      match (match request.NewWorkflowSnapshot with
             | some newWorkflow => applyWorkflowSnapshotTxnAsNew txn request.ShardID newWorkflow
             | none => .ok txn) with
      | .error err => .error err
      | .ok txn => .ok (txn ++ [leaseStmt request.RangeID request.ShardID])

/-- The conditions `ConflictResolveWorkflowExecution` hands to `decodeConflict`. -/
def conflictResolveCASConditions (request : InternalConflictResolveWorkflowExecutionRequest) :
    List executionCASCondition :=
  let resetWorkflow := request.ResetWorkflowSnapshot
  [{ runID := resetWorkflow.RunID
     dbVersion := wrapInt64 (resetWorkflow.DBRecordVersion - 1)
     nextEventID := resetWorkflow.Condition }] ++
  (match request.CurrentWorkflowMutation with
   | some currentWorkflow =>
     [{ runID := currentWorkflow.RunID
        dbVersion := wrapInt64 (currentWorkflow.DBRecordVersion - 1)
        nextEventID := currentWorkflow.Condition }]
   | none => [])

/-- `MutableStateStore.ConflictResolveWorkflowExecution`. -/
def ConflictResolveWorkflowExecution (ser : Serializer) (d : Session)
    (request : InternalConflictResolveWorkflowExecutionRequest) : Outcome :=
  let resetWorkflow := request.ResetWorkflowSnapshot
  match conflictResolveModeSwitch ser d request with
  | (.error err, reads) => { err := some err, trace := reads }
  | (.ok (txn, validator), reads) =>
    match conflictResolveTxn txn request with
    | .error err => { err := some err, trace := reads }
    | .ok txn =>
      let o := execTxn d txn validator request.ShardID resetWorkflow.NamespaceID
        resetWorkflow.WorkflowID request.RangeID (conflictResolveCASConditions request)
      { err := o.err, trace := reads ++ o.trace }

/-- `MutableStateStore.SetWorkflowExecution`. -/
def SetWorkflowExecution (d : Session) (request : InternalSetWorkflowExecutionRequest) :
    Outcome :=
  let shardID := request.ShardID
  let setSnapshot := request.SetWorkflowSnapshot
  match applyWorkflowSnapshotTxnAsReset [] shardID setSnapshot with
  | .error err => { err := some err, trace := [] }
  | .ok txn =>
    execTxn d (txn ++ [leaseStmt request.RangeID request.ShardID]) [] request.ShardID
      request.SetWorkflowSnapshot.NamespaceID request.SetWorkflowSnapshot.WorkflowID
      request.RangeID
      [{ runID := setSnapshot.RunID
         dbVersion := wrapInt64 (setSnapshot.DBRecordVersion - 1)
         nextEventID := setSnapshot.Condition }]

/-! ## The store behind the session

The tables are association lists from primary key to row. A batch is accepted when
the condition of every statement holds of the stored rows; then every statement is
applied, in order. A rejected batch writes nothing. -/

/-- Replace or add the row of a key. -/
def put {K V : Type} [DecidableEq K] (k : K) (v : V) (t : List (K × V)) : List (K × V) :=
  (k, v) :: t.filter (fun e => e.1 ≠ k)

/-- A row of `executions`. `values` is `none` while only sub-entity columns have
been written. -/
structure ExecutionRow where
  values : Option ExecutionValues
  maps : List ((SubEntityKind × MapKey) × List Nat)
  mapEncodings : List (SubEntityKind × String)
  signal_requested : List String
  buffered_events_list : List DataBlob
  deriving DecidableEq, Repr

/-- The row with every column null. -/
def ExecutionRow.empty : ExecutionRow :=
  { values := none, maps := [], mapEncodings := [], signal_requested := [],
    buffered_events_list := [] }

/-- Write of the scalar columns of a row. -/
def ExecutionRow.setValues (row : ExecutionRow) (v : ExecutionValues) : ExecutionRow :=
  { row with values := some v }

/-- The three tables. -/
structure Store where
  shards : List (Int × Int)
  current_executions : List (CurrentKey × CurrentRecord)
  executions : List (ExecutionKey × ExecutionRow)
  deriving DecidableEq, Repr

/-- Stored `range_id` of a shard. -/
def Store.rangeID (st : Store) (shardID : Int) : Option Int := st.shards.lookup shardID

/-- Stored current-execution record of a workflow id. -/
def Store.current (st : Store) (key : CurrentKey) : Option CurrentRecord :=
  st.current_executions.lookup key

/-- Stored execution row of a run. -/
def Store.execution (st : Store) (key : ExecutionKey) : Option ExecutionRow :=
  st.executions.lookup key

/-- Stored `db_record_version` of a run; `none` when the row or the column is absent. -/
def Store.dbRecordVersion (st : Store) (key : ExecutionKey) : Option Int :=
  match st.execution key with
  | some row => row.values.map (fun v => v.db_record_version)
  | none => none

/-- Stored `next_event_id` of a run; `none` when the row or the column is absent. -/
def Store.nextEventID (st : Store) (key : ExecutionKey) : Option Int :=
  match st.execution key with
  | some row => row.values.map (fun v => v.next_event_id)
  | none => none

/-- The `IF` clause of a statement, on the stored rows. -/
def Stmt.holds (st : Store) : Stmt → Bool
  | .updateLease _ shardID ifRangeID => st.rangeID shardID = some ifRangeID
  | .updateCurrentWorkflowExecution _ key ifRunID =>
    match st.current key with
    | some row => row.current_run_id = ifRunID
    | none => false
  | .updateCurrentWorkflowExecutionForNew _ key ifLastWriteVersion ifState ifRunID =>
    match st.current key with
    | some row =>
      row.workflow_last_write_version = ifLastWriteVersion ∧ row.workflow_state = ifState ∧
        row.current_run_id = ifRunID
    | none => false
  | .createCurrentWorkflowExecution key _ => st.current key = none
  | .createWorkflowExecution key _ => st.execution key = none
  | .updateWorkflowExecution _ key ifDBRecordVersion =>
    st.dbRecordVersion key = some ifDBRecordVersion
  | .updateWorkflowExecutionDeprecated _ key ifNextEventID =>
    st.nextEventID key = some ifNextEventID
  | .subEntity _ _ => true

/-- The write of a sub-entity statement on one row. -/
def SubEntityOp.apply (row : ExecutionRow) : SubEntityOp → ExecutionRow
  | .setEntry kind key data encoding =>
    { row with maps := put (kind, key) data row.maps
               mapEncodings := put kind encoding row.mapEncodings }
  | .resetMap kind entries encoding =>
    { row with maps := entries.map (fun e => ((kind, e.1), e.2)) ++
                 row.maps.filter (fun e => e.1.1 ≠ kind)
               mapEncodings := put kind encoding row.mapEncodings }
  | .deleteEntry kind key => { row with maps := row.maps.filter (fun e => e.1 ≠ (kind, key)) }
  | .addSignalRequested ids =>
    { row with signal_requested := row.signal_requested ++
        ids.filter (fun i => i ∉ row.signal_requested) }
  | .resetSignalRequested ids => { row with signal_requested := ids }
  | .removeSignalRequested ids =>
    { row with signal_requested := row.signal_requested.filter (fun i => i ∉ ids) }
  | .appendBufferedEvents event =>
    { row with buffered_events_list := row.buffered_events_list ++ [event] }
  | .deleteBufferedEvents => { row with buffered_events_list := [] }

/-- The write of a statement. -/
def Stmt.apply (st : Store) : Stmt → Store
  | .updateLease rangeID shardID _ => { st with shards := put shardID rangeID st.shards }
  | .updateCurrentWorkflowExecution set key _ =>
    { st with current_executions := put key set st.current_executions }
  | .updateCurrentWorkflowExecutionForNew set key _ _ _ =>
    { st with current_executions := put key set st.current_executions }
  | .createCurrentWorkflowExecution key values =>
    { st with current_executions := put key values st.current_executions }
  | .createWorkflowExecution key values =>
    { st with
        executions := put key (((st.execution key).getD .empty).setValues values) st.executions }
  | .updateWorkflowExecution set key _ =>
    { st with
        executions := put key (((st.execution key).getD .empty).setValues set) st.executions }
  | .updateWorkflowExecutionDeprecated set key _ =>
    { st with
        executions := put key (((st.execution key).getD .empty).setValues set) st.executions }
  | .subEntity op key =>
    { st with executions := put key (op.apply ((st.execution key).getD .empty)) st.executions }

/-- Whether the store accepts the batch. -/
def accepts (st : Store) (batch : List Stmt) : Bool := batch.all (Stmt.holds st)

/-- Atomic execution of a batch: the error of `txn.Exec()` and the store after. -/
def execBatch (st : Store) (batch : List Stmt) : Option DriverError × Store :=
  if accepts st batch then (none, batch.foldl Stmt.apply st)
  else (some (.conflict "conditional write rejected"), st)

/-- The columns of `templateGetCurrentExecutionQuery` as a scanned row. -/
def currentRow (r : CurrentRecord) : Row :=
  [("current_run_id", .uuid r.current_run_id),
   ("execution_state", .bytes r.execution_state),
   ("execution_state_encoding", .str r.execution_state_encoding),
   ("workflow_last_write_version", .int64 r.workflow_last_write_version)]

/-- The map column of one kind as a scanned value. -/
def mapColumn (row : ExecutionRow) (kind : SubEntityKind) : Value :=
  let entries := (row.maps.filter (fun e => e.1.1 = kind)).map (fun e => (e.1.2, e.2))
  match kind with
  | .timer =>
    .mapStrBytes (entries.filterMap (fun e =>
      match e.1 with
      | .name s => some (s, e.2)
      | .id _ => none))
  | _ =>
    .mapInt64Bytes (entries.filterMap (fun e =>
      match e.1 with
      | .id n => some (n, e.2)
      | .name _ => none))

/-- The columns of `templateGetWorkflowExecutionQuery` as a scanned row; a null
scalar column is absent from the row. -/
def executionRow (row : ExecutionRow) : Row :=
  (match row.values with
   | some v =>
     [("execution", .bytes v.execution), ("execution_encoding", .str v.execution_encoding),
      ("execution_state", .bytes v.execution_state),
      ("execution_state_encoding", .str v.execution_state_encoding),
      ("next_event_id", .int64 v.next_event_id),
      ("checksum", .bytes v.checksum), ("checksum_encoding", .str v.checksum_encoding),
      ("db_record_version", .int64 v.db_record_version)]
   | none => []) ++
  [("activity_map", mapColumn row .activity),
   ("activity_map_encoding", .str ((row.mapEncodings.lookup .activity).getD "")),
   ("timer_map", mapColumn row .timer),
   ("timer_map_encoding", .str ((row.mapEncodings.lookup .timer).getD "")),
   ("child_executions_map", mapColumn row .childExecution),
   ("child_executions_map_encoding", .str ((row.mapEncodings.lookup .childExecution).getD "")),
   ("request_cancel_map", mapColumn row .requestCancel),
   ("request_cancel_map_encoding", .str ((row.mapEncodings.lookup .requestCancel).getD "")),
   ("signal_map", mapColumn row .signal),
   ("signal_map_encoding", .str ((row.mapEncodings.lookup .signal).getD "")),
   ("signal_requested", .uuids row.signal_requested),
   ("buffered_events_list",
     .eventBatches (row.buffered_events_list.map (fun b => (b.EncodingName, b.Data))))]

/-- The columns of `templateListWorkflowExecutionQuery` as a scanned row; a null
scalar column is absent from the row. -/
def listRow (runID : String) (row : ExecutionRow) : Row :=
  ("run_id", Value.uuid runID) ::
    (match row.values with
     | some v =>
       [("execution", .bytes v.execution), ("execution_encoding", .str v.execution_encoding),
        ("execution_state", .bytes v.execution_state),
        ("execution_state_encoding", .str v.execution_state_encoding),
        ("next_event_id", .int64 v.next_event_id)]
     | none => [])

/-- The rows of one shard, in table order. -/
def shardRows (st : Store) (shardID : Int) : List Row :=
  (st.executions.filter (fun e => e.1.shardID = shardID)).map
    (fun e => listRow e.1.runID e.2)

/-- A page of rows: `pageToken` is empty on the first page and otherwise holds the
number of rows already served. -/
def page (rows : List Row) (pageSize : Int) (pageToken : List Nat) : List Row × List Nat :=
  let offset := pageToken.headD 0
  let rest := rows.drop offset
  if pageSize ≤ 0 ∨ rest.length ≤ pageSize.toNat then (rest, [])
  else (rest.take pageSize.toNat, [offset + pageSize.toNat])

/-- The session over a store with no transport failure: reads answer from the stored
rows, an absent row is not-found, and `exec` reports what `execBatch` decides. -/
def storeSession (st : Store) : Session where
  scanLease shardID :=
    match st.rangeID shardID with
    | some r => .ok { range_id := r }
    | none => .error .notFound
  scanCurrentConflict shardID namespaceID workflowID :=
    match st.current { shardID := shardID, namespaceID := namespaceID, workflowID := workflowID } with
    | some r => .ok r
    | none => .error .notFound
  scanExecutionConflict shardID namespaceID workflowID runID :=
    match st.execution { shardID := shardID, namespaceID := namespaceID,
                         workflowID := workflowID, runID := runID } with
    | some row =>
      .ok { run_id := runID
            db_record_version := (row.values.map (fun v => v.db_record_version)).getD 0
            next_event_id := (row.values.map (fun v => v.next_event_id)).getD 0 }
    | none => .error .notFound
  mapScan q :=
    match q with
    | .getCurrentExecution shardID namespaceID workflowID =>
      match st.current { shardID := shardID, namespaceID := namespaceID,
                         workflowID := workflowID } with
      | some r => .ok (currentRow r)
      | none => .error .notFound
    | .getWorkflowExecution shardID namespaceID workflowID runID =>
      match st.execution { shardID := shardID, namespaceID := namespaceID,
                           workflowID := workflowID, runID := runID } with
      | some row => .ok (executionRow row)
      | none => .error .notFound
    | _ => .error (.io "not a point read of a row map")
  iter q :=
    match q with
    | .listWorkflowExecution shardID pageSize pageToken =>
      page (shardRows st shardID) pageSize pageToken
    | _ => ([], [])
  exec batch := (execBatch st batch).1

/-- The store after an operation: every batch the operation executed, replayed. -/
def storeAfter (st : Store) (o : Outcome) : Store :=
  o.trace.foldl (fun s ev =>
    match ev with
    | .exec batch => (execBatch s batch).2
    | .query _ => s) st

/-! ## The four operations under one name -/

/-- A call of one of the four mutating operations. -/
inductive Op
  | create (request : InternalCreateWorkflowExecutionRequest)
  | update (request : InternalUpdateWorkflowExecutionRequest)
  | conflictResolve (request : InternalConflictResolveWorkflowExecutionRequest)
  | set (request : InternalSetWorkflowExecutionRequest)
  deriving DecidableEq, Repr

/-- Run the operation. -/
def Op.run (ser : Serializer) (d : Session) : Op → Outcome
  | .create request => CreateWorkflowExecution d request
  | .update request => UpdateWorkflowExecution ser d request
  | .conflictResolve request => ConflictResolveWorkflowExecution ser d request
  | .set request => SetWorkflowExecution d request

/-- `request.ShardID`. -/
def Op.ShardID : Op → Int
  | .create request => request.ShardID
  | .update request => request.ShardID
  | .conflictResolve request => request.ShardID
  | .set request => request.ShardID

/-- `request.RangeID`. -/
def Op.RangeID : Op → Int
  | .create request => request.RangeID
  | .update request => request.RangeID
  | .conflictResolve request => request.RangeID
  | .set request => request.RangeID

/-- The namespace id the operation hands to `decodeConflict`. -/
def Op.NamespaceID : Op → String
  | .create request => request.NewWorkflowSnapshot.NamespaceID
  | .update request => request.UpdateWorkflowMutation.NamespaceID
  | .conflictResolve request => request.ResetWorkflowSnapshot.NamespaceID
  | .set request => request.SetWorkflowSnapshot.NamespaceID

/-- The workflow id the operation hands to `decodeConflict`. -/
def Op.WorkflowID : Op → String
  | .create request => request.NewWorkflowSnapshot.WorkflowID
  | .update request => request.UpdateWorkflowMutation.WorkflowID
  | .conflictResolve request => request.ResetWorkflowSnapshot.WorkflowID
  | .set request => request.SetWorkflowSnapshot.WorkflowID

/-- The conditions the operation hands to `decodeConflict`. -/
def Op.conditions : Op → List executionCASCondition
  | .create request =>
    [{ runID := request.NewWorkflowSnapshot.ExecutionState.RunId
       dbVersion := wrapInt64 (request.NewWorkflowSnapshot.DBRecordVersion - 1)
       nextEventID := request.NewWorkflowSnapshot.Condition }]
  | .update request =>
    [{ runID := request.UpdateWorkflowMutation.ExecutionState.RunId
       dbVersion := wrapInt64 (request.UpdateWorkflowMutation.DBRecordVersion - 1)
       nextEventID := request.UpdateWorkflowMutation.Condition }]
  | .conflictResolve request => conflictResolveCASConditions request
  | .set request =>
    [{ runID := request.SetWorkflowSnapshot.RunID
       dbVersion := wrapInt64 (request.SetWorkflowSnapshot.DBRecordVersion - 1)
       nextEventID := request.SetWorkflowSnapshot.Condition }]

/-- The mode switch of the operation: statements queued and checks added, or the
error returned, and the reads made. `SetWorkflowExecution` has no switch. -/
def Op.switch (ser : Serializer) (d : Session) :
    Op → Except Error (List Stmt × List Check) × List Event
  | .create request => (createModeSwitch request, [])
  | .update request => updateModeSwitch ser d request
  | .conflictResolve request => conflictResolveModeSwitch ser d request
  | .set _ => (.ok ([], []), [])

/-- The checks in the validator when the operation reaches `txn.Exec()`. -/
def Op.registered (ser : Serializer) (d : Session) (op : Op) : List Check :=
  match (op.switch ser d).1 with
  | .ok (_, validator) => validator
  | .error _ => []

/-- The statements queued after the switch, the lease statement last. -/
def Op.txn (txn : List Stmt) : Op → Except Error (List Stmt)
  | .create request =>
    match applyWorkflowSnapshotTxnAsNew txn request.ShardID request.NewWorkflowSnapshot with
    | .error err => .error err
    | .ok txn => .ok (txn ++ [leaseStmt request.RangeID request.ShardID])
  | .update request => updateTxn txn request
  | .conflictResolve request => conflictResolveTxn txn request
  | .set request =>
    match applyWorkflowSnapshotTxnAsReset txn request.ShardID request.SetWorkflowSnapshot with
    | .error err => .error err
    | .ok txn => .ok (txn ++ [leaseStmt request.RangeID request.ShardID])

/-- The execution-record statements of the operation, between the statements of the
switch and the lease statement. -/
def Op.body : Op → List Stmt
  | .create request => snapshotAsNewStmts request.ShardID request.NewWorkflowSnapshot
  | .update request =>
    mutationStmts request.ShardID request.UpdateWorkflowMutation ++
      (match request.NewWorkflowSnapshot with
       | some newWorkflow => snapshotAsNewStmts request.ShardID newWorkflow
       | none => [])
  | .conflictResolve request =>
    snapshotAsResetStmts request.ShardID request.ResetWorkflowSnapshot ++
      (match request.CurrentWorkflowMutation with
       | some currentWorkflow => mutationStmts request.ShardID currentWorkflow
       | none => []) ++
      (match request.NewWorkflowSnapshot with
       | some newWorkflow => snapshotAsNewStmts request.ShardID newWorkflow
       | none => [])
  | .set request => snapshotAsResetStmts request.ShardID request.SetWorkflowSnapshot

/-- The batch the operation hands to `txn.Exec()`, when it gets there. -/
def Op.batch (ser : Serializer) (d : Session) (op : Op) : Option (List Stmt) :=
  match (op.switch ser d).1 with
  | .ok (txn, _) =>
    match op.txn txn with
    | .ok batch => some batch
    | .error _ => none
  | .error _ => none

/-! ## Example data

Shard 1 is owned at range id 5; workflow "w" of namespace "n". -/

/-- A payload. -/
def exBlob : DataBlob := { Data := [1], EncodingName := "Proto3" }

/-- A snapshot of run `run` in state `state`, written at record version `version`. -/
def exSnapshot (run : String) (state version : Int) : InternalWorkflowSnapshot :=
  { NamespaceID := "n", WorkflowID := "w", RunID := run, ExecutionInfoBlob := exBlob
    ExecutionState := { RunId := run, State := state, Status := 1, StartTime := none }
    ExecutionStateBlob := exBlob, LastWriteVersion := 0, NextEventID := 1
    DBRecordVersion := version, Condition := 0, Checksum := exBlob, Infos := []
    SignalRequestedIDs := [] }

/-- A mutation of run `run` that writes record version `version`. -/
def exMutation (run : String) (version : Int) : InternalWorkflowMutation :=
  { NamespaceID := "n", WorkflowID := "w", RunID := run, ExecutionInfoBlob := exBlob
    ExecutionState := { RunId := run, State := 2, Status := 1, StartTime := none }
    ExecutionStateBlob := exBlob, LastWriteVersion := 0, NextEventID := 2
    DBRecordVersion := version, Condition := 1, Checksum := exBlob, UpsertInfos := []
    DeleteInfos := [], UpsertSignalRequestedIDs := [], DeleteSignalRequestedIDs := []
    NewBufferedEvents := [], ClearBufferedEvents := false }

/-- A create request for run `run` on shard 1. -/
def exCreate (run : String) (rangeID mode : Int) : InternalCreateWorkflowExecutionRequest :=
  { ShardID := 1, RangeID := rangeID, Mode := mode, PreviousRunID := "r1"
    PreviousLastWriteVersion := 0, NewWorkflowSnapshot := exSnapshot run 2 1 }

/-- The current-execution key of workflow "w". -/
def exCurrentKey : CurrentKey := { shardID := 1, namespaceID := "n", workflowID := "w" }

/-- The execution key of run `run` of workflow "w". -/
def exKey (run : String) : ExecutionKey :=
  { shardID := 1, namespaceID := "n", workflowID := "w", runID := run }

/-- The scalar columns of a stored run at record version `version`. -/
def exValues (version : Int) : ExecutionValues :=
  { execution := [1], execution_encoding := "Proto3", execution_state := [1]
    execution_state_encoding := "Proto3", next_event_id := 1, db_record_version := version
    checksum := [1], checksum_encoding := "Proto3" }

/-- A store where run "r1" is the current run of "w", in state `state` and written at
last write version `lastWriteVersion`, with its execution record at version 1. -/
def exStore (state lastWriteVersion : Int) : Store :=
  { shards := [(1, 5)]
    current_executions :=
      [(exCurrentKey, { current_run_id := "r1", execution_state := [1]
                        execution_state_encoding := "Proto3"
                        workflow_last_write_version := lastWriteVersion
                        workflow_state := state })]
    executions := [(exKey "r1", { ExecutionRow.empty with values := some (exValues 1) })] }

/-- The store `exStore 2 0` with the execution record of "r1" at record version
`version`; its `next_event_id` is 1. -/
def exStoreAtVersion (version : Int) : Store :=
  { shards := [(1, 5)]
    current_executions := (exStore 2 0).current_executions
    executions :=
      [(exKey "r1", { ExecutionRow.empty with values := some (exValues version) })] }

/-- The store `exStore 2 7` with an empty state blob in the current-execution record
of "w". -/
def exEmptyStateStore : Store :=
  { shards := [(1, 5)]
    current_executions :=
      [(exCurrentKey, { current_run_id := "r1", execution_state := []
                        execution_state_encoding := "Proto3"
                        workflow_last_write_version := 7
                        workflow_state := 2 })]
    executions := [(exKey "r1", { ExecutionRow.empty with values := some (exValues 1) })] }

/-- A serializer that never fails. -/
def exSerializer : Serializer :=
  { WorkflowExecutionStateToBlob := fun _ => .ok exBlob
    WorkflowExecutionStateFromBlob := fun _ _ =>
      .ok { RunId := "r1", State := 2, Status := 1, StartTime := none } }

/-- An update request for run "r1" on shard 1 at range id 5. -/
def exUpdate (mode version : Int) (newWorkflow : Option InternalWorkflowSnapshot) :
    InternalUpdateWorkflowExecutionRequest :=
  { ShardID := 1, RangeID := 5, Mode := mode, UpdateWorkflowMutation := exMutation "r1" version
    NewWorkflowSnapshot := newWorkflow }

/-- A conflict-resolve request that resets run "r1" on shard 1 at range id 5. -/
def exConflictResolve (mode : Int) : InternalConflictResolveWorkflowExecutionRequest :=
  { ShardID := 1, RangeID := 5, Mode := mode, ResetWorkflowSnapshot := exSnapshot "r1" 2 2
    NewWorkflowSnapshot := none, CurrentWorkflowMutation := none }

/-- Statements that leave the scalar columns of the row `key` as they are. -/
def Stmt.keepsValues (key : ExecutionKey) : Stmt → Prop
  | .createWorkflowExecution k _ => k ≠ key
  | .updateWorkflowExecution _ k _ => k ≠ key
  | .updateWorkflowExecutionDeprecated _ k _ => k ≠ key
  | _ => True

/-- A set request for run "r1" on shard 1 at range id 5. -/
def exSet : InternalSetWorkflowExecutionRequest :=
  { ShardID := 1, RangeID := 5, SetWorkflowSnapshot := exSnapshot "r1" 2 2 }

/-- A session whose every call fails with a transport error. -/
def exTimeoutSession : Session :=
  { scanLease := fun _ => .error (.io "timeout")
    scanCurrentConflict := fun _ _ _ => .error (.io "timeout")
    scanExecutionConflict := fun _ _ _ _ => .error (.io "timeout")
    mapScan := fun _ => .error (.io "timeout")
    iter := fun _ => ([], [])
    exec := fun _ => some (.io "timeout") }

/-! ## Row decoding and the read operations -/

/-- Whether the check is a per-run execution check of `decodeConflict`. -/
def Check.isExecution : Check → Bool
  | .execution _ _ _ _ => true
  | _ => false

/-- `p.InternalWorkflowMutableState`. A Go map is a list of its entries; a nil map is
the empty list; a blob is a pointer, and the nil pointer is `none`. -/
structure InternalWorkflowMutableState where
  ActivityInfos : List (Int × Option DataBlob)
  TimerInfos : List (String × Option DataBlob)
  ChildExecutionInfos : List (Int × Option DataBlob)
  RequestCancelInfos : List (Int × Option DataBlob)
  SignalInfos : List (Int × Option DataBlob)
  SignalRequestedIDs : List String
  ExecutionInfo : Option DataBlob
  ExecutionState : Option DataBlob
  NextEventID : Int
  BufferedEvents : List DataBlob
  Checksum : Option DataBlob
  deriving DecidableEq, Repr

/-- `mutableStateFromRow`. A failed type assertion leaves the zero value of the
asserted type in the variable handed to `newPersistedTypeMismatchError`. -/
def mutableStateFromRow (result : Row) :
    Except PersistedTypeMismatchError InternalWorkflowMutableState :=
  match result.get "execution" with
  | some (.bytes eiBytes) =>
    match result.get "execution_encoding" with
    | some (.str eiEncoding) =>
      match result.get "next_event_id" with
      | some (.int64 nextEventID) =>
        match executionStateBlobFromRow result with
        | .error err => .error err
        | .ok protoState =>
          .ok { ActivityInfos := [], TimerInfos := [], ChildExecutionInfos := []
                RequestCancelInfos := [], SignalInfos := [], SignalRequestedIDs := []
                ExecutionInfo := NewDataBlob eiBytes eiEncoding
                ExecutionState := protoState
                NextEventID := nextEventID
                BufferedEvents := [], Checksum := none }
      | _ => .error { column := "next_event_id", expected := "", actual := .int64 0, row := result }
    | _ =>
      .error { column := "execution_encoding", expected := "", actual := .str "", row := result }
  | _ => .error { column := "execution", expected := "", actual := .bytes [], row := result }

/-- The unchecked assertion `result[col].(T)`: it panics when the key is absent (the
value is nil) or the value is of another type. `as` tells the values of type `T`. -/
def assertType {α : Type} (result : Row) (col : String) (as : Value → Option α) : Result α :=
  match result.get col with
  | some v =>
    match as v with
    | some a => .ok a
    | none => .panic col
  | none => .panic col

/-- Values of Go type `[]byte`. -/
def Value.asBytes : Value → Option (List Nat)
  | .bytes b => some b
  | _ => none

/-- Values of Go type `string`. -/
def Value.asString : Value → Option String
  | .str s => some s
  | _ => none

/-- Values of Go type `int64`. -/
def Value.asInt64 : Value → Option Int
  | .int64 n => some n
  | _ => none

/-- Values of Go type `map[int64][]byte`. -/
def Value.asMapInt64Bytes : Value → Option (List (Int × List Nat))
  | .mapInt64Bytes m => some m
  | _ => none

/-- Values of Go type `map[string][]byte`. -/
def Value.asMapStrBytes : Value → Option (List (String × List Nat))
  | .mapStrBytes m => some m
  | _ => none

/-- Values of Go type `[]map[string]interface{}` that hold event batches. -/
def Value.asEventBatches : Value → Option (List (String × List Nat))
  | .eventBatches l => some l
  | _ => none

/-- Modelled from the spec: `gocql.UUIDsToStringSlice(value)`, declared in another file
of `utils/gocql`: the texts of a set of uuids (section 3: signalRequested is a set of
ids). The schema types the column as a set of uuid; any other shape gives the empty
list here. -/
def UUIDsToStringSlice : Option Value → List String
  | some (.uuids l) => l
  | _ => []

/-- Modelled from the spec: `createHistoryEventBatchBlob(v)`, declared in another file
of the package: the blob of one element of the buffered events list (section 4.5: list
columns decode to ordered sequences; section 6: every blob is paired with its encoding
tag). An element is the pair of its encoding tag and its data. -/
def createHistoryEventBatchBlob (v : String × List Nat) : DataBlob :=
  { Data := v.2, EncodingName := v.1 }

/-- The statements of `GetWorkflowExecution` from `activityInfos := ...` to
`state.Checksum = ...`: the sub-entity maps, the signal-requested set, the buffered
events and the checksum, each read by unchecked type assertions in the order of the
source. -/
def subEntitiesFromRow (state : InternalWorkflowMutableState) (result : Row) :
    Result InternalWorkflowMutableState :=
  (assertType result "activity_map" Value.asMapInt64Bytes).andThen fun aMap =>
  (assertType result "activity_map_encoding" Value.asString).andThen fun aMapEncoding =>
  (assertType result "timer_map_encoding" Value.asString).andThen fun tMapEncoding =>
  (assertType result "timer_map" Value.asMapStrBytes).andThen fun tMap =>
  (assertType result "child_executions_map" Value.asMapInt64Bytes).andThen fun cMap =>
  (assertType result "child_executions_map_encoding" Value.asString).andThen fun cMapEncoding =>
  (assertType result "request_cancel_map_encoding" Value.asString).andThen fun rMapEncoding =>
  (assertType result "request_cancel_map" Value.asMapInt64Bytes).andThen fun rMap =>
  (assertType result "signal_map_encoding" Value.asString).andThen fun sMapEncoding =>
  (assertType result "signal_map" Value.asMapInt64Bytes).andThen fun sMap =>
  (assertType result "buffered_events_list" Value.asEventBatches).andThen fun eList =>
  (assertType result "checksum" Value.asBytes).andThen fun checksum =>
  (assertType result "checksum_encoding" Value.asString).andThen fun checksumEncoding =>
  .ok { state with
        ActivityInfos := aMap.map (fun e => (e.1, NewDataBlob e.2 aMapEncoding))
        TimerInfos := tMap.map (fun e => (e.1, NewDataBlob e.2 tMapEncoding))
        ChildExecutionInfos := cMap.map (fun e => (e.1, NewDataBlob e.2 cMapEncoding))
        RequestCancelInfos := rMap.map (fun e => (e.1, NewDataBlob e.2 rMapEncoding))
        SignalInfos := sMap.map (fun e => (e.1, NewDataBlob e.2 sMapEncoding))
        SignalRequestedIDs := UUIDsToStringSlice (result.get "signal_requested")
        BufferedEvents := eList.map createHistoryEventBatchBlob
        Checksum := NewDataBlob checksum checksumEncoding }

/-- The statements of `GetWorkflowExecution` on `dbVersion`: zero when the key is
absent, the unchecked assertion `.(int64)` when it is present. -/
def dbVersionFromRow (result : Row) : Result Int :=
  match result.get "db_record_version" with
  | some _ => assertType result "db_record_version" Value.asInt64
  | none => .ok 0

/-- `p.GetWorkflowExecutionRequest`. -/
structure GetWorkflowExecutionRequest where
  ShardID : Int
  NamespaceID : String
  WorkflowID : String
  RunID : String
  deriving DecidableEq, Repr

/-- `p.InternalGetWorkflowExecutionResponse`. -/
structure InternalGetWorkflowExecutionResponse where
  State : InternalWorkflowMutableState
  DBRecordVersion : Int
  deriving DecidableEq, Repr

/-- `MutableStateStore.GetWorkflowExecution`: what it does, and the read made. -/
def GetWorkflowExecution (d : Session) (request : GetWorkflowExecutionRequest) :
    Result InternalGetWorkflowExecutionResponse × List Event :=
  let query := Query.getWorkflowExecution request.ShardID request.NamespaceID request.WorkflowID
    request.RunID
  match d.mapScan query with
  | .error err => (.error (ConvertError "GetWorkflowExecution" err), [.query query])
  | .ok result =>
    match mutableStateFromRow result with
    | .error err =>
      (.error (.unavailable ("GetWorkflowExecution operation failed. Error: " ++ err.Error)),
        [.query query])
    | .ok state =>
      ((subEntitiesFromRow state result).andThen fun state =>
        (dbVersionFromRow result).andThen fun dbVersion =>
        .ok { State := state, DBRecordVersion := dbVersion }, [.query query])

/-- `p.ListConcreteExecutionsRequest`. -/
structure ListConcreteExecutionsRequest where
  ShardID : Int
  PageSize : Int
  PageToken : List Nat
  deriving DecidableEq, Repr

/-- `p.InternalListConcreteExecutionsResponse`. -/
structure InternalListConcreteExecutionsResponse where
  States : List InternalWorkflowMutableState
  NextPageToken : List Nat
  deriving DecidableEq, Repr

/-- The loop `for iter.MapScan(result)` of `ListConcreteExecutions` over the rows the
iterator yields: the states appended, or the error that ends the function. -/
def listStates : List Row → Except PersistedTypeMismatchError (List InternalWorkflowMutableState)
  | [] => .ok []
  | result :: rest =>
    match result.get "execution" with
    | some _ =>
      match mutableStateFromRow result with
      | .error err => .error err
      | .ok state =>
        match listStates rest with
        | .error err => .error err
        | .ok states => .ok (state :: states)
    | none => listStates rest

/-- `MutableStateStore.ListConcreteExecutions`: response or error, and the read made. -/
def ListConcreteExecutions (d : Session) (request : ListConcreteExecutionsRequest) :
    Except Error InternalListConcreteExecutionsResponse × List Event :=
  let query := Query.listWorkflowExecution request.ShardID request.PageSize request.PageToken
  match listStates (d.iter query).1 with
  | .error err => (.error (.persistedTypeMismatch err), [.query query])
  | .ok states =>
    (.ok { States := states
           NextPageToken := if (d.iter query).2.length > 0 then (d.iter query).2 else [] },
      [.query query])

/-- A store with shard 1 at range id 5 and no workflow. -/
def exEmptyStore : Store := { shards := [(1, 5)], current_executions := [], executions := [] }

/-- The store `exStore 2 0` with a second run "r2" of workflow "w", at record
version 1. -/
def exStoreTwoRuns : Store :=
  { shards := [(1, 5)]
    current_executions := (exStore 2 0).current_executions
    executions :=
      [(exKey "r1", { ExecutionRow.empty with values := some (exValues 1) }),
       (exKey "r2", { ExecutionRow.empty with values := some (exValues 1) })] }

/-- A row whose `execution` column holds a string: the column drifted from blob to
text. -/
def exDriftRow : Row :=
  [("run_id", .uuid "r1"), ("execution", .str "x"), ("execution_encoding", .str "Proto3"),
   ("execution_state", .bytes [1]), ("execution_state_encoding", .str "Proto3"),
   ("next_event_id", .int64 1)]

/-- A row of `executions` with its scalar columns and without any sub-entity column,
checksum or buffered events. -/
def exScalarRow : Row :=
  [("execution", .bytes [1]), ("execution_encoding", .str "Proto3"),
   ("execution_state", .bytes [1]), ("execution_state_encoding", .str "Proto3"),
   ("next_event_id", .int64 1)]

/-- A session that answers every point read and every page with the given row, and
rejects every batch. -/
def exRowSession (row : Row) : Session :=
  { scanLease := fun _ => .error .notFound
    scanCurrentConflict := fun _ _ _ => .error .notFound
    scanExecutionConflict := fun _ _ _ _ => .error .notFound
    mapScan := fun _ => .ok row
    iter := fun _ => ([row], [])
    exec := fun _ => some (.conflict "conditional write rejected") }

/-- The row the store returns for a run stored at record version 1 with empty
sub-entity columns: every column of `templateGetWorkflowExecutionQuery`. -/
def exFullRow : Row := executionRow { ExecutionRow.empty with values := some (exValues 1) }

/-- The row without the column `col`. -/
def Row.without (r : Row) (col : String) : Row := r.filter (fun e => e.1 ≠ col)

/-- The state `mutableStateFromRow` decodes from `exFullRow`: the three scalar
payloads, every other field empty. -/
def exScalarState : InternalWorkflowMutableState :=
  { ActivityInfos := [], TimerInfos := [], ChildExecutionInfos := []
    RequestCancelInfos := [], SignalInfos := [], SignalRequestedIDs := []
    ExecutionInfo := some { Data := [1], EncodingName := "Proto3" }
    ExecutionState := some { Data := [1], EncodingName := "Proto3" }
    NextEventID := 1
    BufferedEvents := [], Checksum := none }

/-- The state `GetWorkflowExecution` decodes from `exFullRow`: `exScalarState` with
the checksum of the row. -/
def exFullState : InternalWorkflowMutableState :=
  { exScalarState with Checksum := some { Data := [1], EncodingName := "Proto3" } }

/-! ## Host list of the cluster configuration

`parseHosts` of `utils/gocql/client.go`. A Go string of text is the list of its code
points. -/

/-- `unicode.IsSpace` of the Go standard library: the code points with the Unicode
White_Space property. -/
def IsSpace (c : Char) : Bool :=
  (0x09 ≤ c.toNat && c.toNat ≤ 0x0D) || c.toNat == 0x20 || c.toNat == 0x85 ||
  c.toNat == 0xA0 || c.toNat == 0x1680 || (0x2000 ≤ c.toNat && c.toNat ≤ 0x200A) ||
  c.toNat == 0x2028 || c.toNat == 0x2029 || c.toNat == 0x202F || c.toNat == 0x205F ||
  c.toNat == 0x3000

/-- `strings.TrimSpace(s)` of the Go standard library: `s` without its leading and
trailing white space. -/
def TrimSpace (s : List Char) : List Char :=
  ((s.dropWhile IsSpace).reverse.dropWhile IsSpace).reverse

/-- `strings.Split(s, sep)` of the Go standard library for a separator of one
character: the substrings between the separators, one more than there are separators
in `s`; the empty string gives the one empty substring. -/
def Split (s : List Char) (sep : Char) : List (List Char) :=
  match s with
  | [] => [[]]
  | c :: cs =>
    if c = sep then [] :: Split cs sep
    else
      match Split cs sep with
      | field :: fields => (c :: field) :: fields
      | [] => [[c]]

/-- `strings.Join(elems, sep)` of the Go standard library for a separator of one
character. -/
def Join (elems : List (List Char)) (sep : Char) : List Char :=
  match elems with
  | [] => []
  | [a] => a
  | a :: b :: rest => a ++ sep :: Join (b :: rest) sep

/-- `parseHosts`: the loop over the fields of the input, which appends the trimmed
field when it is not empty. The nil slice and the empty slice are the empty list. -/
def parseHosts (input : List Char) : List (List Char) :=
  (Split input ',').foldl
    (fun hosts h =>
      let host := TrimSpace h
      if host.length > 0 then hosts ++ [host] else hosts)
    []

/-- A conflict-resolve request in mode UpdateCurrent that resets run "r1", carries the
mutation of the current run "r2" and the snapshot of the new run "r3". -/
def exConflictResolveFull : InternalConflictResolveWorkflowExecutionRequest :=
  { ShardID := 1, RangeID := 5, Mode := ConflictResolveWorkflowModeUpdateCurrent
    ResetWorkflowSnapshot := exSnapshot "r1" 2 2
    NewWorkflowSnapshot := some (exSnapshot "r3" 1 1)
    CurrentWorkflowMutation := some (exMutation "r2" 2) }

/-! ## Lemmas -/

theorem Op.run_eq (ser : Serializer) (d : Session) (op : Op) :
    op.run ser d =
      match (op.switch ser d).1 with
      | .error err => { err := some err, trace := (op.switch ser d).2 }
      | .ok (txn, validator) =>
        match op.txn txn with
        | .error err => { err := some err, trace := (op.switch ser d).2 }
        | .ok batch =>
          { err := (execTxn d batch validator op.ShardID op.NamespaceID op.WorkflowID
              op.RangeID op.conditions).err
            trace := (op.switch ser d).2 ++ (execTxn d batch validator op.ShardID
              op.NamespaceID op.WorkflowID op.RangeID op.conditions).trace } := by
  cases op with
  | create request =>
    simp only [Op.run, Op.switch, Op.txn, CreateWorkflowExecution, Op.ShardID, Op.NamespaceID,
      Op.WorkflowID, Op.RangeID, Op.conditions, List.nil_append]
    cases createModeSwitch request with
    | error err => rfl
    | ok p =>
      obtain ⟨txn, validator⟩ := p
      simp only [applyWorkflowSnapshotTxnAsNew]
  | update request =>
    simp only [Op.run, Op.switch, Op.txn, UpdateWorkflowExecution, Op.ShardID, Op.NamespaceID,
      Op.WorkflowID, Op.RangeID, Op.conditions]
    rcases updateModeSwitch ser d request with ⟨_ | ⟨txn, validator⟩, reads⟩
    · rfl
    · simp only
  | conflictResolve request =>
    simp only [Op.run, Op.switch, Op.txn, ConflictResolveWorkflowExecution, Op.ShardID,
      Op.NamespaceID, Op.WorkflowID, Op.RangeID, Op.conditions]
    rcases conflictResolveModeSwitch ser d request with ⟨_ | ⟨txn, validator⟩, reads⟩
    · rfl
    · simp only
  | set request =>
    simp only [Op.run, Op.switch, Op.txn, SetWorkflowExecution, Op.ShardID, Op.NamespaceID,
      Op.WorkflowID, Op.RangeID, Op.conditions, List.nil_append, applyWorkflowSnapshotTxnAsReset]

theorem Check.query_isDiagnosisRead (c : Check) : (Event.query c.query).isDiagnosisRead = true := by
  cases c <;> rfl

theorem Validate_none (d : Session) (cs : List Check) (h : ∀ c ∈ cs, runCheck d c = none) :
    (Validate d cs).1 = none := by
  induction cs with
  | nil => rfl
  | cons c cs ih =>
    have hc : runCheck d c = none := h c (List.mem_cons_self c cs)
    simp only [Validate, hc]
    exact ih (fun c' hc' => h c' (List.mem_cons_of_mem c hc'))

theorem Validate_append_some (d : Session) (pre rest : List Check) (c : Check) (e : Error)
    (hpre : ∀ c' ∈ pre, runCheck d c' = none) (hc : runCheck d c = some e) :
    (Validate d (pre ++ c :: rest)).1 = some e := by
  induction pre with
  | nil => simp only [List.nil_append, Validate, hc]
  | cons p pre ih =>
    have hp : runCheck d p = none := hpre p (List.mem_cons_self p pre)
    simp only [List.cons_append, Validate, hp]
    exact ih (fun c' hc' => hpre c' (List.mem_cons_of_mem p hc'))

theorem Validate_some_of (d : Session) (cs : List Check) (e : Error)
    (h : (Validate d cs).1 = some e) : ∃ c ∈ cs, runCheck d c = some e := by
  induction cs with
  | nil => simp [Validate] at h
  | cons c cs ih =>
    cases hc : runCheck d c with
    | some e' =>
      simp only [Validate, hc] at h
      exact ⟨c, List.mem_cons_self c cs, by rw [hc]; exact h⟩
    | none =>
      simp only [Validate, hc] at h
      obtain ⟨c', hc', he⟩ := ih h
      exact ⟨c', List.mem_cons_of_mem c hc', he⟩

theorem Validate_reads (d : Session) (cs : List Check) :
    ∀ ev ∈ (Validate d cs).2, ev.isDiagnosisRead = true ∧ ev.isExec = false := by
  induction cs with
  | nil => intro ev h; simp [Validate] at h
  | cons c cs ih =>
    intro ev h
    cases hc : runCheck d c with
    | some e' =>
      simp only [Validate, hc, List.mem_singleton] at h
      subst h
      exact ⟨Check.query_isDiagnosisRead c, rfl⟩
    | none =>
      simp only [Validate, hc, List.mem_cons] at h
      rcases h with h | h
      · subst h
        exact ⟨Check.query_isDiagnosisRead c, rfl⟩
      · exact ih ev h

theorem Validate_reads_ne_nil (d : Session) (c : Check) (cs : List Check) :
    (Validate d (c :: cs)).2 ≠ [] := by
  cases hc : runCheck d c <;> simp [Validate, hc]

theorem decodeConflictChecks_ne_nil (validator : List Check) (shardID : Int)
    (namespaceID workflowID : String) (rangeID : Int) (conds : List executionCASCondition) :
    ∃ c cs, decodeConflictChecks validator shardID namespaceID workflowID rangeID conds = c :: cs := by
  cases validator with
  | nil => exact ⟨_, _, rfl⟩
  | cons v vs => exact ⟨v, _, rfl⟩

theorem decodeConflict_reads (d : Session) (validator : List Check) (shardID : Int)
    (namespaceID workflowID : String) (rangeID : Int) (conds : List executionCASCondition) :
    (decodeConflict d validator shardID namespaceID workflowID rangeID conds).2 =
      (Validate d (decodeConflictChecks validator shardID namespaceID workflowID rangeID conds)).2 := by
  rcases h : Validate d (decodeConflictChecks validator shardID namespaceID workflowID rangeID
    conds) with ⟨_ | e, reads⟩ <;> simp only [decodeConflict, h]

theorem decodeConflict_err (d : Session) (validator : List Check) (shardID : Int)
    (namespaceID workflowID : String) (rangeID : Int) (conds : List executionCASCondition) :
    (decodeConflict d validator shardID namespaceID workflowID rangeID conds).1 =
      match (Validate d (decodeConflictChecks validator shardID namespaceID workflowID rangeID
        conds)).1 with
      | some err => some err
      | none => some (.conditionFailed ("WorkflowExecution conflict: Shard:" ++
          toString shardID ++ ", Namespace:" ++ namespaceID ++ ", WorkflowID:" ++ workflowID)) := by
  rcases h : Validate d (decodeConflictChecks validator shardID namespaceID workflowID rangeID
    conds) with ⟨_ | e, reads⟩ <;> simp only [decodeConflict, h]

theorem decodeConflict_ne_none (d : Session) (validator : List Check) (shardID : Int)
    (namespaceID workflowID : String) (rangeID : Int) (conds : List executionCASCondition) :
    (decodeConflict d validator shardID namespaceID workflowID rangeID conds).1 ≠ none := by
  rw [decodeConflict_err]
  cases (Validate d (decodeConflictChecks validator shardID namespaceID workflowID rangeID
    conds)).1 <;> simp

theorem bypassCase_registered (a : Option Error × List Event) :
    (match (bypassCase a).1 with
      | .ok (_, validator) => validator
      | .error _ => []) = [] := by
  rcases a with ⟨_ | e, reads⟩ <;> rfl

theorem Op.registered_cases (ser : Serializer) (d : Session) (op : Op) :
    op.registered ser d = [] ∨ ∃ c, op.registered ser d = [c] ∧ c.onCurrent = true := by
  cases op with
  | create request =>
    simp only [Op.registered, Op.switch, createModeSwitch]
    split_ifs <;> simp [Check.onCurrent]
  | update request =>
    simp only [Op.registered, Op.switch, updateModeSwitch]
    split_ifs
    · simp [bypassCase_registered]
    · cases request.NewWorkflowSnapshot with
      | none =>
        simp only
        cases ser.WorkflowExecutionStateToBlob request.UpdateWorkflowMutation.ExecutionState <;>
          simp [Check.onCurrent]
      | some newWorkflow =>
        simp only
        split_ifs <;> simp [Check.onCurrent]
    · simp
  | conflictResolve request =>
    simp only [Op.registered, Op.switch, conflictResolveModeSwitch]
    split_ifs
    · simp [bypassCase_registered]
    · simp [Check.onCurrent]
    · simp
  | set request => left; rfl

theorem execTxn_conflict (d : Session) (txn : List Stmt) (validator : List Check) (shardID : Int)
    (namespaceID workflowID : String) (rangeID : Int) (conds : List executionCASCondition)
    (err : DriverError) (hexec : d.exec txn = some err) (hconf : ConflictError err = true) :
    execTxn d txn validator shardID namespaceID workflowID rangeID conds =
      { err := (decodeConflict d validator shardID namespaceID workflowID rangeID conds).1
        trace := .exec txn ::
          (decodeConflict d validator shardID namespaceID workflowID rangeID conds).2 } := by
  simp only [execTxn, hexec, hconf, if_true]

theorem Op.run_of_batch (ser : Serializer) (d : Session) (op : Op) (batch : List Stmt)
    (hbatch : op.batch ser d = some batch) :
    op.run ser d =
      { err := (execTxn d batch (op.registered ser d) op.ShardID op.NamespaceID op.WorkflowID
          op.RangeID op.conditions).err
        trace := (op.switch ser d).2 ++ (execTxn d batch (op.registered ser d) op.ShardID
          op.NamespaceID op.WorkflowID op.RangeID op.conditions).trace } := by
  rw [Op.run_eq]
  unfold Op.batch at hbatch
  unfold Op.registered
  cases hs : (op.switch ser d).1 with
  | error e => simp [hs] at hbatch
  | ok p =>
    obtain ⟨txn, validator⟩ := p
    simp only [hs] at hbatch ⊢
    cases ht : op.txn txn with
    | error e => simp [ht] at hbatch
    | ok b =>
      simp only [ht, Option.some.injEq] at hbatch ⊢
      subst hbatch
      rfl

theorem lookup_put_self {K V : Type} [DecidableEq K] (k : K) (v : V) (t : List (K × V)) :
    (put k v t).lookup k = some v := by
  simp [put, List.lookup]

theorem lookup_filter_ne {K V : Type} [DecidableEq K] (k k' : K) (t : List (K × V))
    (h : k' ≠ k) : (t.filter (fun e => e.1 ≠ k)).lookup k' = t.lookup k' := by
  induction t with
  | nil => rfl
  | cons e t ih =>
    obtain ⟨a, b⟩ := e
    by_cases hak : a = k
    · subst hak
      have hne : (k' == a) = false := by simpa using h
      simp only [List.filter, ne_eq, not_true_eq_false, decide_False, List.lookup, hne]
      exact ih
    · by_cases hk : k' = a
      · subst hk
        simp [List.filter, hak, List.lookup]
      · have hne : (k' == a) = false := by simpa using hk
        simp only [List.filter, ne_eq, hak, not_false_eq_true, decide_True, List.lookup, hne]
        exact ih

theorem lookup_put_of_ne {K V : Type} [DecidableEq K] (k k' : K) (v : V) (t : List (K × V))
    (h : k' ≠ k) : (put k v t).lookup k' = t.lookup k' := by
  have hne : (k' == k) = false := by simpa using h
  simp only [put, List.lookup, hne]
  exact lookup_filter_ne k k' t h

theorem SubEntityOp.apply_values (row : ExecutionRow) (op : SubEntityOp) :
    (op.apply row).values = row.values := by
  cases op <;> rfl

theorem replay_queries (st : Store) (t : List Event) (h : ∀ ev ∈ t, ev.isExec = false) :
    storeAfter st { err := none, trace := t } = st := by
  simp only [storeAfter]
  induction t generalizing st with
  | nil => rfl
  | cons ev t ih =>
    have hev := h ev (List.mem_cons_self ev t)
    cases ev with
    | exec b => simp [Event.isExec] at hev
    | query q =>
      simp only [List.foldl]
      exact ih st (fun ev' hev' => h ev' (List.mem_cons_of_mem _ hev'))

theorem storeAfter_trace (st : Store) (o : Outcome) :
    storeAfter st o = storeAfter st { err := none, trace := o.trace } := rfl

theorem storeAfter_append (st : Store) (t₁ t₂ : List Event) :
    storeAfter st { err := none, trace := t₁ ++ t₂ } =
      storeAfter (storeAfter st { err := none, trace := t₁ }) { err := none, trace := t₂ } := by
  simp only [storeAfter, List.foldl_append]

theorem GetCurrentExecution_reads (ser : Serializer) (d : Session)
    (request : GetCurrentExecutionRequest) :
    (GetCurrentExecution ser d request).2 =
      [.query (.getCurrentExecution request.ShardID request.NamespaceID request.WorkflowID)] := by
  unfold GetCurrentExecution
  simp only
  split
  · rfl
  · split
    · rfl
    · rfl
    · split <;> rfl

theorem assertNotCurrentExecution_reads (ser : Serializer) (d : Session) (shardID : Int)
    (namespaceID workflowID runID : String) (startTime : Option Int) :
    (assertNotCurrentExecution ser d shardID namespaceID workflowID runID startTime).2 =
      [.query (.getCurrentExecution shardID namespaceID workflowID)] := by
  have h := GetCurrentExecution_reads ser d
    { ShardID := shardID, NamespaceID := namespaceID, WorkflowID := workflowID }
  unfold assertNotCurrentExecution
  rcases hg : GetCurrentExecution ser d
    { ShardID := shardID, NamespaceID := namespaceID, WorkflowID := workflowID } with ⟨r, reads⟩
  rw [hg] at h
  simp only at h
  subst h
  cases r with
  | error err => cases err <;> rfl
  | panic site => rfl
  | ok resp =>
    simp only
    split_ifs <;> rfl

theorem bypassCase_reads (a : Option Error × List Event) : (bypassCase a).2 = a.2 := by
  rcases a with ⟨_ | e, reads⟩ <;> rfl

theorem Op.switch_reads (ser : Serializer) (d : Session) (op : Op) :
    ∀ ev ∈ (op.switch ser d).2, ev.isExec = false ∧ ev.isDiagnosisRead = false := by
  intro ev hev
  cases op with
  | create request => simp [Op.switch] at hev
  | update request =>
    simp only [Op.switch, updateModeSwitch] at hev
    split_ifs at hev
    · rw [bypassCase_reads, assertNotCurrentExecution_reads] at hev
      simp only [List.mem_singleton] at hev
      subst hev
      exact ⟨rfl, rfl⟩
    · cases hn : request.NewWorkflowSnapshot with
      | none =>
        simp only [hn] at hev
        cases hs : ser.WorkflowExecutionStateToBlob request.UpdateWorkflowMutation.ExecutionState <;>
          simp [hs] at hev
      | some newWorkflow =>
        simp only [hn] at hev
        split_ifs at hev <;> simp at hev
    · simp at hev
  | conflictResolve request =>
    simp only [Op.switch, conflictResolveModeSwitch] at hev
    split_ifs at hev
    · rw [bypassCase_reads, assertNotCurrentExecution_reads] at hev
      simp only [List.mem_singleton] at hev
      subst hev
      exact ⟨rfl, rfl⟩
    · simp at hev
    · simp at hev
  | set request => simp [Op.switch] at hev

theorem bypassCase_stmts (a : Option Error × List Event) (txn : List Stmt) (v : List Check)
    (h : (bypassCase a).1 = .ok (txn, v)) : txn = [] ∧ v = [] := by
  rcases a with ⟨_ | e, reads⟩
  · simp only [bypassCase, Except.ok.injEq, Prod.mk.injEq] at h
    exact ⟨h.1.symm, h.2.symm⟩
  · simp [bypassCase] at h

theorem Op.switch_stmts (ser : Serializer) (d : Session) (op : Op) (txn : List Stmt)
    (v : List Check) (h : (op.switch ser d).1 = .ok (txn, v)) :
    ∀ s ∈ txn, s.isLease = false ∧ s.onCurrent = true := by
  intro s hs
  cases op with
  | create request =>
    simp only [Op.switch, createModeSwitch] at h
    split_ifs at h <;> simp only [Except.ok.injEq, Prod.mk.injEq] at h <;>
      obtain ⟨h1, -⟩ := h <;> subst h1 <;> simp at hs <;> subst hs <;> exact ⟨rfl, rfl⟩
  | update request =>
    simp only [Op.switch, updateModeSwitch] at h
    split_ifs at h
    · rw [(bypassCase_stmts _ _ _ h).1] at hs
      cases hs
    · cases hn : request.NewWorkflowSnapshot with
      | none =>
        simp only [hn] at h
        cases hb : ser.WorkflowExecutionStateToBlob
            request.UpdateWorkflowMutation.ExecutionState with
        | error e => simp [hb] at h
        | ok blob =>
          simp only [hb, Except.ok.injEq, Prod.mk.injEq] at h
          obtain ⟨h1, -⟩ := h
          subst h1
          simp only [List.mem_singleton] at hs
          subst hs
          exact ⟨rfl, rfl⟩
      | some newWorkflow =>
        simp only [hn] at h
        split_ifs at h
        simp only [Except.ok.injEq, Prod.mk.injEq] at h
        obtain ⟨h1, -⟩ := h
        subst h1
        simp only [List.mem_singleton] at hs
        subst hs
        exact ⟨rfl, rfl⟩
  | conflictResolve request =>
    simp only [Op.switch, conflictResolveModeSwitch] at h
    split_ifs at h
    · rw [(bypassCase_stmts _ _ _ h).1] at hs
      cases hs
    · simp only [Except.ok.injEq, Prod.mk.injEq] at h
      obtain ⟨h1, -⟩ := h
      subst h1
      simp only [List.mem_singleton] at hs
      subst hs
      exact ⟨rfl, rfl⟩
  | set request =>
    simp only [Op.switch, Except.ok.injEq, Prod.mk.injEq] at h
    obtain ⟨h1, -⟩ := h
    subst h1
    cases hs

theorem Op.txn_eq (op : Op) (txn : List Stmt) :
    op.txn txn = .ok (txn ++ op.body ++ [leaseStmt op.RangeID op.ShardID]) := by
  cases op with
  | create request => rfl
  | update request =>
    simp only [Op.txn, updateTxn, applyWorkflowMutationTxn, Op.body, Op.RangeID, Op.ShardID]
    cases request.NewWorkflowSnapshot <;>
      simp [applyWorkflowSnapshotTxnAsNew, List.append_assoc]
  | conflictResolve request =>
    simp only [Op.txn, conflictResolveTxn, applyWorkflowSnapshotTxnAsReset, Op.body, Op.RangeID,
      Op.ShardID]
    cases request.CurrentWorkflowMutation <;> cases request.NewWorkflowSnapshot <;>
      simp [applyWorkflowSnapshotTxnAsNew, applyWorkflowMutationTxn, List.append_assoc]
  | set request => rfl

theorem snapshotAsNewStmts_kind (shardID : Int) (w : InternalWorkflowSnapshot) :
    ∀ s ∈ snapshotAsNewStmts shardID w, s.isLease = false ∧ s.onCurrent = false := by
  intro s hs
  simp only [snapshotAsNewStmts, List.mem_append, List.mem_singleton, List.mem_map] at hs
  rcases hs with (h | ⟨e, -, h⟩) | h <;> subst h <;> exact ⟨rfl, rfl⟩

theorem updateExecution_kind (values : ExecutionValues) (key : ExecutionKey) (condition : Int) :
    (updateExecution values key condition).isLease = false ∧
      (updateExecution values key condition).onCurrent = false := by
  unfold updateExecution
  split_ifs <;> exact ⟨rfl, rfl⟩

/-- The condition of the update of an execution record: the stored `next_event_id`
for a caller at record version 0, the stored record version otherwise. -/
theorem updateExecution_holds (values : ExecutionValues) (key : ExecutionKey) (condition : Int)
    (st : Store) :
    (updateExecution values key condition).holds st = true ↔
      if values.db_record_version = 0 then st.nextEventID key = some condition
      else st.dbRecordVersion key = some (wrapInt64 (values.db_record_version - 1)) := by
  unfold updateExecution
  split_ifs <;> simp [Stmt.holds]

/-- Both forms of the update write the record version of the request. -/
theorem updateExecution_apply_version (values : ExecutionValues) (key : ExecutionKey)
    (condition : Int) (st : Store) :
    ((updateExecution values key condition).apply st).dbRecordVersion key =
      some values.db_record_version := by
  unfold updateExecution
  split_ifs <;>
    simp only [Stmt.apply, Store.dbRecordVersion, Store.execution, lookup_put_self,
      ExecutionRow.setValues, Option.map_some']

/-- Both forms of the update hold of a store only when the row exists. -/
theorem updateExecution_holds_exists (values : ExecutionValues) (key : ExecutionKey)
    (condition : Int) (st : Store) (h : (updateExecution values key condition).holds st = true) :
    st.execution key ≠ none := by
  intro hnone
  rw [updateExecution_holds] at h
  split_ifs at h
  · simp [Store.nextEventID, hnone] at h
  · simp [Store.dbRecordVersion, hnone] at h

theorem snapshotAsResetStmts_kind (shardID : Int) (w : InternalWorkflowSnapshot) :
    ∀ s ∈ snapshotAsResetStmts shardID w, s.isLease = false ∧ s.onCurrent = false := by
  intro s hs
  simp only [snapshotAsResetStmts, List.mem_append, List.mem_map, List.mem_cons,
    List.not_mem_nil, or_false, resetKind] at hs
  rcases hs with (h | ⟨e, -, h⟩) | h | h
  · subst h; exact updateExecution_kind _ _ _
  · subst h; exact ⟨rfl, rfl⟩
  · subst h; exact ⟨rfl, rfl⟩
  · subst h; exact ⟨rfl, rfl⟩

theorem mutationStmts_kind (shardID : Int) (w : InternalWorkflowMutation) :
    ∀ s ∈ mutationStmts shardID w, s.isLease = false ∧ s.onCurrent = false := by
  intro s hs
  simp only [mutationStmts, List.mem_append, List.mem_map, List.mem_cons,
    List.not_mem_nil, or_false] at hs
  rcases hs with ((((h | ⟨e, -, h⟩) | ⟨e, -, h⟩) | h | h) | h) | ⟨e, -, h⟩
  · subst h; exact updateExecution_kind _ _ _
  · subst h; exact ⟨rfl, rfl⟩
  · subst h; exact ⟨rfl, rfl⟩
  · subst h; exact ⟨rfl, rfl⟩
  · subst h; exact ⟨rfl, rfl⟩
  · split_ifs at h
    · simp only [List.mem_singleton] at h
      subst h; exact ⟨rfl, rfl⟩
    · cases h
  · subst h; exact ⟨rfl, rfl⟩

theorem Op.body_kind (op : Op) : ∀ s ∈ op.body, s.isLease = false ∧ s.onCurrent = false := by
  intro s hs
  cases op with
  | create request => exact snapshotAsNewStmts_kind _ _ s hs
  | update request =>
    simp only [Op.body, List.mem_append] at hs
    rcases hs with h | h
    · exact mutationStmts_kind _ _ s h
    · cases hn : request.NewWorkflowSnapshot with
      | none => simp [hn] at h
      | some w => simp only [hn] at h; exact snapshotAsNewStmts_kind _ _ s h
  | conflictResolve request =>
    simp only [Op.body, List.mem_append] at hs
    rcases hs with (h | h) | h
    · exact snapshotAsResetStmts_kind _ _ s h
    · cases hn : request.CurrentWorkflowMutation with
      | none => simp [hn] at h
      | some w => simp only [hn] at h; exact mutationStmts_kind _ _ s h
    · cases hn : request.NewWorkflowSnapshot with
      | none => simp [hn] at h
      | some w => simp only [hn] at h; exact snapshotAsNewStmts_kind _ _ s h
  | set request => exact snapshotAsResetStmts_kind _ _ s hs

theorem Op.batch_eq (ser : Serializer) (d : Session) (op : Op) (batch : List Stmt)
    (h : op.batch ser d = some batch) :
    ∃ txn v, (op.switch ser d).1 = .ok (txn, v) ∧
      batch = txn ++ op.body ++ [leaseStmt op.RangeID op.ShardID] := by
  unfold Op.batch at h
  cases hs : (op.switch ser d).1 with
  | error e => simp [hs] at h
  | ok p =>
    obtain ⟨txn, v⟩ := p
    simp only [hs, Op.txn_eq, Option.some.injEq] at h
    exact ⟨txn, v, rfl, h.symm⟩

theorem Op.run_of_no_batch (ser : Serializer) (d : Session) (op : Op)
    (h : op.batch ser d = none) :
    (op.run ser d).trace = (op.switch ser d).2 ∧ (op.run ser d).err ≠ none := by
  rw [Op.run_eq]
  unfold Op.batch at h
  cases hs : (op.switch ser d).1 with
  | error e => simp
  | ok p =>
    obtain ⟨txn, v⟩ := p
    simp [hs, Op.txn_eq] at h

theorem storeSession_exec (st : Store) (batch : List Stmt) :
    (storeSession st).exec batch =
      if accepts st batch then none else some (.conflict "conditional write rejected") := by
  simp only [storeSession, execBatch]
  split_ifs <;> rfl

theorem Op.storeAfter_run (ser : Serializer) (st : Store) (op : Op) :
    ((op.run ser (storeSession st)).err = none →
      ∃ batch, op.batch ser (storeSession st) = some batch ∧ accepts st batch = true ∧
        storeAfter st (op.run ser (storeSession st)) = batch.foldl Stmt.apply st) ∧
    ((op.run ser (storeSession st)).err ≠ none →
      storeAfter st (op.run ser (storeSession st)) = st) := by
  have hreads := Op.switch_reads ser (storeSession st) op
  have hq : storeAfter st { err := none, trace := (op.switch ser (storeSession st)).2 } = st :=
    replay_queries st _ (fun ev hev => (hreads ev hev).1)
  cases hb : op.batch ser (storeSession st) with
  | none =>
    obtain ⟨ht, he⟩ := Op.run_of_no_batch ser (storeSession st) op hb
    refine ⟨fun h => absurd h he, fun _ => ?_⟩
    rw [storeAfter_trace, ht]
    exact hq
  | some batch =>
    have hrun := Op.run_of_batch ser (storeSession st) op batch hb
    by_cases hacc : accepts st batch = true
    · have hexec : (storeSession st).exec batch = none := by
        rw [storeSession_exec, if_pos hacc]
      have hx : execTxn (storeSession st) batch (op.registered ser (storeSession st)) op.ShardID
          op.NamespaceID op.WorkflowID op.RangeID op.conditions =
          { err := none, trace := [.exec batch] } := by
        simp only [execTxn, hexec]
      rw [hx] at hrun
      refine ⟨fun _ => ⟨batch, rfl, hacc, ?_⟩, fun h => ?_⟩
      · rw [storeAfter_trace, hrun, storeAfter_append, hq]
        simp only [storeAfter, List.foldl, execBatch, if_pos hacc]
      · rw [hrun] at h
        exact absurd rfl h
    · have hexec : (storeSession st).exec batch =
          some (.conflict "conditional write rejected") := by
        rw [storeSession_exec, if_neg hacc]
      rw [execTxn_conflict _ _ _ _ _ _ _ _ _ hexec rfl] at hrun
      refine ⟨fun h => ?_, fun _ => ?_⟩
      · rw [hrun] at h
        exact absurd h (decodeConflict_ne_none _ _ _ _ _ _ _)
      · rw [storeAfter_trace, hrun, storeAfter_append, hq]
        have hcons : ∀ t : List Event, ([Event.exec batch] ++ t) = Event.exec batch :: t :=
          fun _ => rfl
        rw [← hcons, storeAfter_append]
        have h1 : storeAfter st { err := none, trace := [Event.exec batch] } = st := by
          simp only [storeAfter, List.foldl, execBatch, if_neg hacc]
        rw [h1]
        apply replay_queries
        intro ev hev
        rw [decodeConflict_reads] at hev
        exact (Validate_reads _ _ ev hev).2

theorem Stmt.apply_keepsValues (key : ExecutionKey) (s : Stmt) (st : Store)
    (h : s.keepsValues key) : (s.apply st).dbRecordVersion key = st.dbRecordVersion key := by
  cases s with
  | updateLease r sh c => rfl
  | updateCurrentWorkflowExecution set k c => rfl
  | updateCurrentWorkflowExecutionForNew set k a b c => rfl
  | createCurrentWorkflowExecution k v => rfl
  | createWorkflowExecution k v =>
    have hne : key ≠ k := fun e => h e.symm
    simp only [Stmt.apply, Store.dbRecordVersion, Store.execution, lookup_put_of_ne k key _ _ hne]
  | updateWorkflowExecution set k c =>
    have hne : key ≠ k := fun e => h e.symm
    simp only [Stmt.apply, Store.dbRecordVersion, Store.execution, lookup_put_of_ne k key _ _ hne]
  | updateWorkflowExecutionDeprecated set k c =>
    have hne : key ≠ k := fun e => h e.symm
    simp only [Stmt.apply, Store.dbRecordVersion, Store.execution, lookup_put_of_ne k key _ _ hne]
  | subEntity op k =>
    by_cases hk : key = k
    · subst hk
      simp only [Stmt.apply, Store.dbRecordVersion, Store.execution, lookup_put_self,
        SubEntityOp.apply_values]
      cases List.lookup key st.executions <;> rfl
    · simp only [Stmt.apply, Store.dbRecordVersion, Store.execution,
        lookup_put_of_ne k key _ _ hk]

theorem foldl_apply_version (key : ExecutionKey) (u : Stmt) (D : Int)
    (hu : ∀ st : Store, (u.apply st).dbRecordVersion key = some D) (batch : List Stmt) :
    ∀ st : Store, (∀ s ∈ batch, s.keepsValues key ∨ s = u) →
      (batch.foldl Stmt.apply st).dbRecordVersion key =
        if u ∈ batch then some D else st.dbRecordVersion key := by
  induction batch with
  | nil => intro st _; simp
  | cons s batch ih =>
    intro st h
    have ih' := ih (s.apply st) (fun s' hs' => h s' (List.mem_cons_of_mem s hs'))
    simp only [List.foldl, ih']
    by_cases hsu : s = u
    · subst hsu
      simp [hu]
    · have hk : s.keepsValues key := by
        rcases h s (List.mem_cons_self s batch) with hk | hk
        · exact hk
        · exact absurd hk hsu
      have hmem : u ∈ s :: batch ↔ u ∈ batch := by
        simp only [List.mem_cons]
        constructor
        · rintro (h1 | h1)
          · exact absurd h1.symm hsu
          · exact h1
        · exact Or.inr
      simp only [hmem, Stmt.apply_keepsValues key s st hk]

theorem Stmt.keepsValues_of_onCurrent (key : ExecutionKey) (s : Stmt)
    (h : s.onCurrent = true) : s.keepsValues key := by
  cases s <;> trivial

theorem mutationStmts_mem (shardID : Int) (w : InternalWorkflowMutation) (s : Stmt)
    (hs : s ∈ mutationStmts shardID w) :
    s = updateExecution (mutationValues w) (mutationKey shardID w) w.Condition ∨
      ∃ op, s = .subEntity op (mutationKey shardID w) := by
  simp only [mutationStmts, List.mem_append, List.mem_map, List.mem_cons,
    List.not_mem_nil, or_false] at hs
  rcases hs with ((((h | ⟨e, -, h⟩) | ⟨e, -, h⟩) | h | h) | h) | ⟨e, -, h⟩
  · exact Or.inl h
  · exact Or.inr ⟨_, h.symm⟩
  · exact Or.inr ⟨_, h.symm⟩
  · exact Or.inr ⟨_, h⟩
  · exact Or.inr ⟨_, h⟩
  · split_ifs at h
    · simp only [List.mem_singleton] at h
      exact Or.inr ⟨_, h⟩
    · cases h
  · exact Or.inr ⟨_, h.symm⟩

theorem snapshotAsNewStmts_mem (shardID : Int) (w : InternalWorkflowSnapshot) (s : Stmt)
    (hs : s ∈ snapshotAsNewStmts shardID w) :
    s = .createWorkflowExecution (snapshotKey shardID w) (snapshotValues w) ∨
      ∃ op, s = .subEntity op (snapshotKey shardID w) := by
  simp only [snapshotAsNewStmts, List.mem_append, List.mem_singleton, List.mem_map] at hs
  rcases hs with (h | ⟨e, -, h⟩) | h
  · exact Or.inl h
  · exact Or.inr ⟨_, h.symm⟩
  · exact Or.inr ⟨_, h⟩

theorem mutationStmts_head (shardID : Int) (w : InternalWorkflowMutation) :
    updateExecution (mutationValues w) (mutationKey shardID w) w.Condition ∈
      mutationStmts shardID w := by
  simp [mutationStmts]

theorem snapshotAsNewStmts_head (shardID : Int) (w : InternalWorkflowSnapshot) :
    Stmt.createWorkflowExecution (snapshotKey shardID w) (snapshotValues w) ∈
      snapshotAsNewStmts shardID w := by
  simp [snapshotAsNewStmts]

theorem wrapInt64_succ_pred (D : Int) (h : -2 ^ 63 ≤ D ∧ D < 2 ^ 63) :
    D = wrapInt64 (wrapInt64 (D - 1) + 1) ∧
      (wrapInt64 (D - 1) < 2 ^ 63 - 1 → D = wrapInt64 (D - 1) + 1) := by
  obtain ⟨h1, h2⟩ := h
  simp only [wrapInt64]
  norm_num at h1 h2 ⊢
  omega

theorem execTxn_trace (d : Session) (txn : List Stmt) (validator : List Check) (shardID : Int)
    (namespaceID workflowID : String) (rangeID : Int) (conds : List executionCASCondition) :
    ∃ reads, (execTxn d txn validator shardID namespaceID workflowID rangeID conds).trace =
        .exec txn :: reads ∧
      (∀ ev ∈ reads, ev.isDiagnosisRead = true ∧ ev.isExec = false) ∧
      (reads ≠ [] ↔ ∃ err, d.exec txn = some err ∧ ConflictError err = true) := by
  cases hexec : d.exec txn with
  | none =>
    refine ⟨[], (by simp only [execTxn, hexec]), fun ev hev => (by cases hev), ?_⟩
    simp
  | some err =>
    by_cases hconf : ConflictError err = true
    · refine ⟨(decodeConflict d validator shardID namespaceID workflowID rangeID conds).2,
        by rw [execTxn_conflict _ _ _ _ _ _ _ _ _ hexec hconf], ?_, ?_⟩
      · intro ev hev
        rw [decodeConflict_reads] at hev
        exact Validate_reads _ _ ev hev
      · obtain ⟨c, cs, hcs⟩ := decodeConflictChecks_ne_nil validator shardID namespaceID
          workflowID rangeID conds
        rw [decodeConflict_reads, hcs]
        exact ⟨fun _ => ⟨err, rfl, hconf⟩, fun _ => Validate_reads_ne_nil d c cs⟩
    · refine ⟨[], (by simp only [execTxn, hexec, hconf, Bool.false_eq_true, if_false]),
        fun ev hev => (by cases hev), ?_⟩
      simp only [ne_eq, not_true_eq_false, Option.some.injEq, false_iff, not_exists, not_and]
      intro e he
      subst he
      exact hconf

theorem Op.exec_mem_trace (ser : Serializer) (d : Session) (op : Op) (batch : List Stmt) :
    Event.exec batch ∈ (op.run ser d).trace ↔ op.batch ser d = some batch := by
  cases hb : op.batch ser d with
  | none =>
    rw [(Op.run_of_no_batch ser d op hb).1]
    simp only [reduceCtorEq, iff_false]
    intro hmem
    have := (Op.switch_reads ser d op _ hmem).1
    simp [Event.isExec] at this
  | some b =>
    rw [Op.run_of_batch ser d op b hb]
    obtain ⟨reads, ht, hr, -⟩ := execTxn_trace d b (op.registered ser d) op.ShardID
      op.NamespaceID op.WorkflowID op.RangeID op.conditions
    simp only [ht, List.mem_append, List.mem_cons, Event.exec.injEq, Option.some.injEq]
    constructor
    · rintro (h | h | h)
      · have := (Op.switch_reads ser d op _ h).1
        simp [Event.isExec] at this
      · exact h.symm
      · have := (hr _ h).2
        simp [Event.isExec] at this
    · intro h
      exact Or.inr (Or.inl h.symm)

theorem Op.batch_filter_onCurrent (ser : Serializer) (d : Session) (op : Op)
    (batch : List Stmt) (h : op.batch ser d = some batch) :
    ∃ txn v, (op.switch ser d).1 = .ok (txn, v) ∧ batch.filter Stmt.onCurrent = txn := by
  obtain ⟨txn, v, hsw, hb⟩ := Op.batch_eq ser d op batch h
  refine ⟨txn, v, hsw, ?_⟩
  have h1 : txn.filter Stmt.onCurrent = txn :=
    List.filter_eq_self.mpr (fun s hs => (Op.switch_stmts ser d op txn v hsw s hs).2)
  have h2 : op.body.filter Stmt.onCurrent = [] :=
    List.filter_eq_nil_iff.mpr (fun s hs => by simp [(Op.body_kind op s hs).2])
  rw [hb, List.filter_append, List.filter_append, h1, h2]
  simp [leaseStmt, Stmt.onCurrent]

theorem GetCurrentExecution_cases (ser : Serializer) (d : Session)
    (request : GetCurrentExecutionRequest) :
    (∃ row state, d.mapScan (.getCurrentExecution request.ShardID request.NamespaceID
          request.WorkflowID) = .ok row ∧
        (GetCurrentExecution ser d request).1 =
          .ok { RunID := UUIDToString (row.get "current_run_id"), ExecutionState := state }) ∨
    (d.mapScan (.getCurrentExecution request.ShardID request.NamespaceID
          request.WorkflowID) = .error .notFound ∧
      ∃ msg, (GetCurrentExecution ser d request).1 = .error (.notFound msg)) ∨
    (d.mapScan (.getCurrentExecution request.ShardID request.NamespaceID
          request.WorkflowID) ≠ .error .notFound ∧
      ((∃ e, (GetCurrentExecution ser d request).1 = .error (.driver e)) ∨
       (∃ msg, (GetCurrentExecution ser d request).1 = .error (.unavailable msg)) ∨
       (∃ msg, (GetCurrentExecution ser d request).1 = .error (.serialization msg)) ∨
       (∃ site, (GetCurrentExecution ser d request).1 = .panic site))) := by
  cases hscan : d.mapScan (.getCurrentExecution request.ShardID request.NamespaceID
    request.WorkflowID) with
  | error err =>
    have hg : (GetCurrentExecution ser d request).1 =
        .error (ConvertError "GetCurrentExecution" err) := by
      simp only [GetCurrentExecution, hscan]
    rw [hg]
    cases err with
    | notFound => exact Or.inr (Or.inl ⟨rfl, _, rfl⟩)
    | conflict m => exact Or.inr (Or.inr ⟨by simp, Or.inl ⟨_, rfl⟩⟩)
    | io m => exact Or.inr (Or.inr ⟨by simp, Or.inl ⟨_, rfl⟩⟩)
  | ok row =>
    cases hblob : executionStateBlobFromRow row with
    | error e =>
      have hg : (GetCurrentExecution ser d request).1 = .error (.unavailable
          ("GetCurrentExecution operation failed. Error: " ++ e.Error)) := by
        simp only [GetCurrentExecution, hscan, hblob]
      rw [hg]
      exact Or.inr (Or.inr ⟨by simp, Or.inr (Or.inl ⟨_, rfl⟩)⟩)
    | ok pointer =>
      cases pointer with
      | none =>
        have hg : (GetCurrentExecution ser d request).1 = .panic "executionStateBlob" := by
          simp only [GetCurrentExecution, hscan, hblob]
        rw [hg]
        exact Or.inr (Or.inr ⟨by simp, Or.inr (Or.inr (Or.inr ⟨_, rfl⟩))⟩)
      | some blob =>
        cases hstate : ser.WorkflowExecutionStateFromBlob blob.Data blob.EncodingName with
        | error e =>
          have hg : (GetCurrentExecution ser d request).1 = .error (.serialization e) := by
            simp only [GetCurrentExecution, hscan, hblob, hstate]
          rw [hg]
          exact Or.inr (Or.inr ⟨by simp, Or.inr (Or.inr (Or.inl ⟨_, rfl⟩))⟩)
        | ok state =>
          have hg : (GetCurrentExecution ser d request).1 =
              .ok { RunID := UUIDToString (row.get "current_run_id")
                    ExecutionState := state } := by
            simp only [GetCurrentExecution, hscan, hblob, hstate]
          rw [hg]
          exact Or.inl ⟨row, state, rfl, rfl⟩

theorem assertNotCurrentExecution_eq (ser : Serializer) (d : Session) (shardID : Int)
    (namespaceID workflowID runID : String) (startTime : Option Int) :
    (assertNotCurrentExecution ser d shardID namespaceID workflowID runID startTime).1 =
      match (GetCurrentExecution ser d
        { ShardID := shardID, NamespaceID := namespaceID, WorkflowID := workflowID }).1 with
      | .error (.notFound _) => none
      | .error err => some err
      | .panic site => some (.panic site)
      | .ok resp =>
        if resp.RunID = runID then
          some (.currentWorkflowConditionFailed
            { Msg := "Assertion on current record failed. Current run ID is not expected: " ++
                resp.RunID
              RequestIDs := []
              RunID := ""
              State := WORKFLOW_EXECUTION_STATE_UNSPECIFIED
              Status := WORKFLOW_EXECUTION_STATUS_UNSPECIFIED
              LastWriteVersion := 0
              StartTime := startTime })
        else none := by
  unfold assertNotCurrentExecution
  rcases hg : GetCurrentExecution ser d
    { ShardID := shardID, NamespaceID := namespaceID, WorkflowID := workflowID } with ⟨r, reads⟩
  cases r with
  | error err => cases err <;> rfl
  | panic site => rfl
  | ok resp =>
    simp only
    split_ifs <;> rfl

theorem Stmt.apply_shards (s : Stmt) (st : Store) (h : s.isLease = false) :
    (s.apply st).shards = st.shards := by
  cases s <;> first | rfl | simp [Stmt.isLease] at h

theorem foldl_apply_shards (batch : List Stmt) :
    ∀ st : Store, (∀ s ∈ batch, s.isLease = false) →
      (batch.foldl Stmt.apply st).shards = st.shards := by
  induction batch with
  | nil => intro st _; rfl
  | cons s batch ih =>
    intro st h
    simp only [List.foldl]
    rw [ih (s.apply st) (fun s' hs' => h s' (List.mem_cons_of_mem s hs')),
      Stmt.apply_shards s st (h s (List.mem_cons_self s batch))]

theorem Op.batch_init (ser : Serializer) (d : Session) (op : Op) (batch : List Stmt)
    (h : op.batch ser d = some batch) :
    ∃ init, batch = init ++ [.updateLease op.RangeID op.ShardID op.RangeID] ∧
      ∀ s ∈ init, s.isLease = false := by
  obtain ⟨txn, v, hsw, hb⟩ := Op.batch_eq ser d op batch h
  refine ⟨txn ++ op.body, hb, fun s hs => ?_⟩
  rcases List.mem_append.mp hs with h1 | h1
  · exact (Op.switch_stmts ser d op txn v hsw s h1).1
  · exact (Op.body_kind op s h1).1

theorem executionStateBlobFromRow_currentRow (rec : CurrentRecord) :
    executionStateBlobFromRow (currentRow rec) =
      .ok (NewDataBlob rec.execution_state rec.execution_state_encoding) := by
  rfl

/-- `GetCurrentExecution` on a store: with a stored record whose state blob is not
empty and deserializes it returns the stored run id, with a stored record whose state
blob is empty it panics, and with no stored record it returns NotFound. -/
theorem GetCurrentExecution_store (ser : Serializer) (st : Store) (shardID : Int)
    (namespaceID workflowID : String) :
    (∀ rec blob state, st.current ⟨shardID, namespaceID, workflowID⟩ = some rec →
      NewDataBlob rec.execution_state rec.execution_state_encoding = some blob →
      ser.WorkflowExecutionStateFromBlob blob.Data blob.EncodingName = .ok state →
      (GetCurrentExecution ser (storeSession st) ⟨shardID, namespaceID, workflowID⟩).1 =
        .ok { RunID := rec.current_run_id, ExecutionState := state }) ∧
    (∀ rec, st.current ⟨shardID, namespaceID, workflowID⟩ = some rec →
      rec.execution_state = [] →
      (GetCurrentExecution ser (storeSession st) ⟨shardID, namespaceID, workflowID⟩).1 =
        .panic "executionStateBlob") ∧
    (st.current ⟨shardID, namespaceID, workflowID⟩ = none →
      ∃ msg, (GetCurrentExecution ser (storeSession st) ⟨shardID, namespaceID, workflowID⟩).1 =
        .error (.notFound msg)) := by
  refine ⟨?_, ?_, ?_⟩
  · intro rec blob state hcur hblob hstate
    have hscan : (storeSession st).mapScan (.getCurrentExecution shardID namespaceID workflowID) =
        .ok (currentRow rec) := by
      simp only [storeSession, hcur]
    simp only [GetCurrentExecution, hscan, executionStateBlobFromRow_currentRow, hblob, hstate]
    rfl
  · intro rec hcur hempty
    have hscan : (storeSession st).mapScan (.getCurrentExecution shardID namespaceID workflowID) =
        .ok (currentRow rec) := by
      simp only [storeSession, hcur]
    have hblob : NewDataBlob rec.execution_state rec.execution_state_encoding = none := by
      simp [NewDataBlob, hempty]
    simp only [GetCurrentExecution, hscan, executionStateBlobFromRow_currentRow, hblob]
  · intro hcur
    have hscan : (storeSession st).mapScan (.getCurrentExecution shardID namespaceID workflowID) =
        .error .notFound := by
      simp only [storeSession, hcur]
    exact ⟨"operation " ++ "GetCurrentExecution" ++ " encountered not found",
      by simp only [GetCurrentExecution, hscan, ConvertError]⟩
theorem Check.isExecution_of_onCurrent (c : Check) (h : c.onCurrent = true) :
    c.isExecution = false := by
  cases c <;> first | rfl | simp [Check.onCurrent] at h

theorem decodeConflictChecks_filter_isExecution (ser : Serializer) (d : Session) (op : Op)
    (shardID : Int) (namespaceID workflowID : String) (rangeID : Int)
    (conds : List executionCASCondition) :
    (decodeConflictChecks (op.registered ser d) shardID namespaceID workflowID rangeID
        conds).filter Check.isExecution =
      conds.map (fun condition => Check.execution shardID namespaceID workflowID condition) := by
  have hreg : (op.registered ser d).filter Check.isExecution = [] := by
    rcases Op.registered_cases ser d op with h | ⟨c, h, hc⟩
    · rw [h]; rfl
    · rw [h]
      simp [List.filter, Check.isExecution_of_onCurrent c hc]
  have hmap : (conds.map (fun condition =>
      Check.execution shardID namespaceID workflowID condition)).filter Check.isExecution =
      conds.map (fun condition => Check.execution shardID namespaceID workflowID condition) :=
    List.filter_eq_self.mpr (fun c hc => by
      obtain ⟨cond, -, rfl⟩ := List.mem_map.mp hc
      rfl)
  simp only [decodeConflictChecks, List.filter_append, hreg, hmap]
  simp [List.filter, Check.isExecution]

theorem Op.err_of_rejection (ser : Serializer) (d : Session) (op : Op) (batch : List Stmt)
    (err : DriverError) (hmem : Event.exec batch ∈ (op.run ser d).trace)
    (hexec : d.exec batch = some err) (hconf : ConflictError err = true) :
    (op.run ser d).err = (decodeConflict d (op.registered ser d) op.ShardID op.NamespaceID
      op.WorkflowID op.RangeID op.conditions).1 := by
  have hb := (Op.exec_mem_trace ser d op batch).mp hmem
  rw [Op.run_of_batch ser d op batch hb, execTxn_conflict _ _ _ _ _ _ _ _ _ hexec hconf]
/-- The four diagnosis checks other than the existence check return the error of
their own read as it is when the read fails with an error that is not not-found. -/
theorem runCheck_read_error (d : Session) (err : DriverError)
    (hnf : IsNotFoundError err = false) :
    (∀ shardID rangeID, d.scanLease shardID = .error err →
      runCheck d (.ownership shardID rangeID) = some (.driver err)) ∧
    (∀ shardID namespaceID workflowID condition,
      d.scanExecutionConflict shardID namespaceID workflowID condition.runID = .error err →
      runCheck d (.execution shardID namespaceID workflowID condition) = some (.driver err)) ∧
    (∀ shardID namespaceID workflowID runID,
      d.scanCurrentConflict shardID namespaceID workflowID = .error err →
      runCheck d (.currentWorkflowRunId shardID namespaceID workflowID runID) =
        some (.driver err)) ∧
    (∀ shardID namespaceID workflowID lastWriteVersion workflowState runID,
      d.scanCurrentConflict shardID namespaceID workflowID = .error err →
      runCheck d (.currentWorkflowMvcc shardID namespaceID workflowID lastWriteVersion
        workflowState runID) = some (.driver err)) := by
  refine ⟨fun _ _ h => ?_, fun _ _ _ _ h => ?_, fun _ _ _ _ h => ?_, fun _ _ _ _ _ _ h => ?_⟩
  · simp only [runCheck, h]
  · simp only [runCheck, h, hnf, Bool.false_eq_true, if_false]
  · simp only [runCheck, h]
  · simp only [runCheck, h]
theorem createModeSwitch_brandNew (request : InternalCreateWorkflowExecutionRequest)
    (hmode : request.Mode = CreateWorkflowModeBrandNew) :
    createModeSwitch request = .ok
      ([.createCurrentWorkflowExecution
          { shardID := request.ShardID
            namespaceID := request.NewWorkflowSnapshot.NamespaceID
            workflowID := request.NewWorkflowSnapshot.WorkflowID }
          { current_run_id := request.NewWorkflowSnapshot.RunID
            execution_state := request.NewWorkflowSnapshot.ExecutionStateBlob.Data
            execution_state_encoding :=
              request.NewWorkflowSnapshot.ExecutionStateBlob.EncodingName
            workflow_last_write_version := request.NewWorkflowSnapshot.LastWriteVersion
            workflow_state := request.NewWorkflowSnapshot.ExecutionState.State }],
       [.currentWorkflowNotExist request.ShardID request.NewWorkflowSnapshot.NamespaceID
          request.NewWorkflowSnapshot.WorkflowID]) := by
  simp [createModeSwitch, hmode, CreateWorkflowModeBrandNew, CreateWorkflowModeBypassCurrent,
    CreateWorkflowModeUpdateCurrent]

theorem create_brandNew_rejected (d : Session)
    (request : InternalCreateWorkflowExecutionRequest) (batch : List Stmt) (err : DriverError)
    (rec : CurrentRecord) (hmode : request.Mode = CreateWorkflowModeBrandNew)
    (hmem : Event.exec batch ∈ (CreateWorkflowExecution d request).trace)
    (hexec : d.exec batch = some err) (hconf : ConflictError err = true)
    (hcur : d.scanCurrentConflict request.ShardID request.NewWorkflowSnapshot.NamespaceID
      request.NewWorkflowSnapshot.WorkflowID = .ok rec) :
    (CreateWorkflowExecution d request).err = some (exportCurrentWorkflowConflictError rec) := by
  have ser : Serializer :=
    { WorkflowExecutionStateToBlob := fun _ => .error ""
      WorkflowExecutionStateFromBlob := fun _ _ => .error "" }
  have h := Op.err_of_rejection ser d (.create request) batch err hmem hexec hconf
  simp only [Op.run] at h
  rw [h, decodeConflict_err]
  simp only [Op.registered, Op.switch, createModeSwitch_brandNew request hmode,
    decodeConflictChecks, List.singleton_append, List.cons_append, Validate, runCheck,
    Op.ShardID, Op.NamespaceID, Op.WorkflowID, hcur]
theorem mutableStateFromRow_ok_iff (row : Row) (s : InternalWorkflowMutableState) :
    mutableStateFromRow row = .ok s ↔
      ∃ eiBytes eiEncoding nextEventID state stateEncoding,
        row.get "execution" = some (.bytes eiBytes) ∧
        row.get "execution_encoding" = some (.str eiEncoding) ∧
        row.get "next_event_id" = some (.int64 nextEventID) ∧
        row.get "execution_state" = some (.bytes state) ∧
        row.get "execution_state_encoding" = some (.str stateEncoding) ∧
        s = { ActivityInfos := [], TimerInfos := [], ChildExecutionInfos := []
              RequestCancelInfos := [], SignalInfos := [], SignalRequestedIDs := []
              ExecutionInfo := NewDataBlob eiBytes eiEncoding
              ExecutionState := NewDataBlob state stateEncoding
              NextEventID := nextEventID
              BufferedEvents := [], Checksum := none } := by
  constructor
  · intro h
    cases h1 : row.get "execution" with
    | none => simp [mutableStateFromRow, h1] at h
    | some v1 =>
      cases v1 with
      | bytes eiBytes =>
        cases h2 : row.get "execution_encoding" with
        | none => simp [mutableStateFromRow, h1, h2] at h
        | some v2 =>
          cases v2 with
          | str eiEncoding =>
            cases h3 : row.get "next_event_id" with
            | none => simp [mutableStateFromRow, h1, h2, h3] at h
            | some v3 =>
              cases v3 with
              | int64 nextEventID =>
                cases h4 : row.get "execution_state" with
                | none =>
                  simp [mutableStateFromRow, executionStateBlobFromRow, h1, h2, h3, h4] at h
                | some v4 =>
                  cases v4 with
                  | bytes state =>
                    cases h5 : row.get "execution_state_encoding" with
                    | none =>
                      simp [mutableStateFromRow, executionStateBlobFromRow, h1, h2, h3, h4,
                        h5] at h
                    | some v5 =>
                      cases v5 with
                      | str stateEncoding =>
                        simp only [mutableStateFromRow, executionStateBlobFromRow, h1, h2, h3,
                          h4, h5, Except.ok.injEq] at h
                        exact ⟨eiBytes, eiEncoding, nextEventID, state, stateEncoding, rfl, rfl,
                          rfl, rfl, rfl, h.symm⟩
                      | _ =>
                        simp [mutableStateFromRow, executionStateBlobFromRow, h1, h2, h3, h4,
                          h5] at h
                  | _ =>
                    simp [mutableStateFromRow, executionStateBlobFromRow, h1, h2, h3, h4] at h
              | _ => simp [mutableStateFromRow, h1, h2, h3] at h
          | _ => simp [mutableStateFromRow, h1, h2] at h
      | _ => simp [mutableStateFromRow, h1] at h
  · rintro ⟨eiBytes, eiEncoding, nextEventID, state, stateEncoding, h1, h2, h3, h4, h5, rfl⟩
    simp only [mutableStateFromRow, executionStateBlobFromRow, h1, h2, h3, h4, h5]

theorem executionStateBlobFromRow_error_row (row : Row) (e : PersistedTypeMismatchError)
    (h : executionStateBlobFromRow row = .error e) :
    e.row = row ∧ (e.actual = .bytes [] ∨ e.actual = .str "" ∨ e.actual = .int64 0) := by
  unfold executionStateBlobFromRow at h
  repeat' split at h
  all_goals cases h <;> simp

theorem mutableStateFromRow_error_row (row : Row) (e : PersistedTypeMismatchError)
    (h : mutableStateFromRow row = .error e) :
    e.row = row ∧ (e.actual = .bytes [] ∨ e.actual = .str "" ∨ e.actual = .int64 0) := by
  unfold mutableStateFromRow at h
  repeat' split at h
  all_goals first
    | (cases h <;> simp)
    | (cases h; apply executionStateBlobFromRow_error_row; assumption)

/-- The loop of `ListConcreteExecutions` returns states when every row with an
`execution` column decodes, and these are the decoded rows with an `execution` column,
in the order of the rows. -/
theorem listStates_ok (rows : List Row)
    (h : ∀ row ∈ rows, (row.get "execution").isSome = true →
      (mutableStateFromRow row).isOk = true) :
    ∃ states, listStates rows = .ok states ∧
      states.map Except.ok =
        (rows.filter (fun row => (row.get "execution").isSome)).map mutableStateFromRow := by
  induction rows with
  | nil => exact ⟨[], rfl, rfl⟩
  | cons row rest ih =>
    obtain ⟨states, hs, hmap⟩ := ih (fun r hr => h r (List.mem_cons_of_mem _ hr))
    cases hx : row.get "execution" with
    | none =>
      refine ⟨states, ?_, ?_⟩
      · simp only [listStates, hx, hs]
      · simp only [List.filter, hx, Option.isSome_none, hmap]
    | some v =>
      have hok := h row (List.mem_cons_self _ _) (by simp [hx])
      cases hm : mutableStateFromRow row with
      | error e => simp [hm, Except.isOk, Except.toBool] at hok
      | ok state =>
        refine ⟨state :: states, ?_, ?_⟩
        · simp only [listStates, hx, hm, hs]
        · simp only [List.filter, hx, Option.isSome_some, List.map_cons, hm, hmap]

/-- The loop of `ListConcreteExecutions` returns the error of the first row with an
`execution` column that does not decode: it returns states only when every such row
decodes. -/
theorem listStates_ok_decodes (rows : List Row) (states : List InternalWorkflowMutableState)
    (h : listStates rows = .ok states) :
    ∀ row ∈ rows, (row.get "execution").isSome = true →
      (mutableStateFromRow row).isOk = true := by
  induction rows generalizing states with
  | nil => intro row hrow; cases hrow
  | cons r rest ih =>
    intro row hrow hx
    cases hr : r.get "execution" with
    | none =>
      simp only [listStates, hr] at h
      rcases List.mem_cons.mp hrow with rfl | hmem
      · simp [hr] at hx
      · exact ih states h row hmem hx
    | some v =>
      cases hm : mutableStateFromRow r with
      | error e => simp [listStates, hr, hm] at h
      | ok state =>
        cases hl : listStates rest with
        | error e => simp [listStates, hr, hm, hl] at h
        | ok rs =>
          rcases List.mem_cons.mp hrow with rfl | hmem
          · simp [hm, Except.isOk, Except.toBool]
          · exact ih rs hl row hmem hx

/-- The loop of `parseHosts` appends, in order, the images that pass the test. -/
theorem foldl_append_if {α β : Type} (f : α → β) (p : β → Bool) (l : List α) (init : List β) :
    l.foldl (fun acc h => if p (f h) = true then acc ++ [f h] else acc) init =
      init ++ (l.map f).filter p := by
  induction l generalizing init with
  | nil => simp
  | cons a l ih =>
    simp only [List.foldl_cons, List.map_cons, List.filter_cons]
    rw [ih]
    split_ifs <;> simp

theorem parseHosts_eq (input : List Char) :
    parseHosts input =
      ((Split input ',').map TrimSpace).filter (fun host => decide (host ≠ [])) := by
  have h := foldl_append_if TrimSpace (fun host => decide (host.length > 0))
    (Split input ',') []
  simp only [decide_eq_true_eq, List.nil_append] at h
  unfold parseHosts
  rw [h]
  congr 1
  funext host
  cases host <;> simp

theorem Split_ne_nil (s : List Char) (sep : Char) : Split s sep ≠ [] := by
  cases s with
  | nil => simp [Split]
  | cons c cs =>
    unfold Split
    split_ifs
    · simp
    · split <;> simp

/-- A field of `Split` holds characters of the input only, and never the separator. -/
theorem Split_mem (s : List Char) (sep : Char) :
    ∀ field ∈ Split s sep, sep ∉ field ∧ ∀ c ∈ field, c ∈ s := by
  induction s with
  | nil =>
    intro field h
    simp only [Split, List.mem_singleton] at h
    subst h
    simp
  | cons c cs ih =>
    intro field h
    unfold Split at h
    split_ifs at h with hc
    · rcases List.mem_cons.mp h with rfl | h
      · simp
      · exact ⟨(ih field h).1, fun x hx => List.mem_cons_of_mem _ ((ih field h).2 x hx)⟩
    · split at h
      · rename_i f fs heq
        rcases List.mem_cons.mp h with rfl | h
        · have hf := ih f (by rw [heq]; exact List.mem_cons_self _ _)
          refine ⟨?_, ?_⟩
          · intro hmem
            rcases List.mem_cons.mp hmem with rfl | hmem
            · exact hc rfl
            · exact hf.1 hmem
          · intro x hx
            rcases List.mem_cons.mp hx with rfl | hx
            · exact List.mem_cons_self _ _
            · exact List.mem_cons_of_mem _ (hf.2 x hx)
        · have hf := ih field (by rw [heq]; exact List.mem_cons_of_mem _ h)
          exact ⟨hf.1, fun x hx => List.mem_cons_of_mem _ (hf.2 x hx)⟩
      · rename_i heq
        exact absurd heq (Split_ne_nil cs sep)

/-- Joining the fields of `Split` with the separator gives the input back. -/
theorem Join_Split (s : List Char) (sep : Char) : Join (Split s sep) sep = s := by
  induction s with
  | nil => rfl
  | cons c cs ih =>
    unfold Split
    split_ifs with hc
    · subst hc
      cases hs : Split cs c with
      | nil => exact absurd hs (Split_ne_nil cs c)
      | cons f fs =>
        rw [hs] at ih
        simp only [Join, List.nil_append, ih]
    · cases hs : Split cs sep with
      | nil => exact absurd hs (Split_ne_nil cs sep)
      | cons f fs =>
        rw [hs] at ih
        simp only
        cases fs with
        | nil =>
          simp only [Join] at ih ⊢
          rw [ih]
        | cons g gs =>
          simp only [Join] at ih ⊢
          rw [List.cons_append, ih]

theorem Split_of_not_mem (a : List Char) (sep : Char) (h : sep ∉ a) : Split a sep = [a] := by
  induction a with
  | nil => rfl
  | cons c cs ih =>
    have hc : ¬ c = sep := fun e => h (e ▸ List.mem_cons_self _ _)
    have hcs : sep ∉ cs := fun e => h (List.mem_cons_of_mem _ e)
    unfold Split
    rw [if_neg hc, ih hcs]

theorem Split_append_sep (a rest : List Char) (sep : Char) (h : sep ∉ a) :
    Split (a ++ sep :: rest) sep = a :: Split rest sep := by
  induction a with
  | nil =>
    simp only [List.nil_append]
    rw [Split, if_pos rfl]
  | cons c cs ih =>
    have hc : ¬ c = sep := fun e => h (e ▸ List.mem_cons_self _ _)
    have hcs : sep ∉ cs := fun e => h (List.mem_cons_of_mem _ e)
    rw [List.cons_append, Split, if_neg hc, ih hcs]

/-- Splitting the join of a non-empty list of strings without the separator gives the
list back. -/
theorem Split_Join (elems : List (List Char)) (sep : Char) (hne : elems ≠ [])
    (h : ∀ a ∈ elems, sep ∉ a) : Split (Join elems sep) sep = elems := by
  induction elems with
  | nil => exact absurd rfl hne
  | cons a rest ih =>
    cases rest with
    | nil =>
      simp only [Join]
      exact Split_of_not_mem a sep (h a (List.mem_cons_self _ _))
    | cons b rest =>
      simp only [Join]
      rw [Split_append_sep a _ sep (h a (List.mem_cons_self _ _))]
      rw [ih (by simp) (fun x hx => h x (List.mem_cons_of_mem _ hx))]

theorem dropWhile_head_not {α : Type} (p : α → Bool) (l : List α) (c : α) (t : List α)
    (h : l.dropWhile p = c :: t) : p c = false := by
  induction l with
  | nil => simp at h
  | cons a l ih =>
    rw [List.dropWhile_cons] at h
    split_ifs at h with ha
    · exact ih h
    · simp only [List.cons.injEq] at h
      rw [← h.1]
      simpa using ha

theorem dropWhile_mem {α : Type} (p : α → Bool) (l : List α) :
    ∀ c ∈ l.dropWhile p, c ∈ l :=
  fun _ hc => (List.dropWhile_suffix p).subset hc

/-- The trimmed string holds characters of the string only. -/
theorem TrimSpace_mem (s : List Char) : ∀ c ∈ TrimSpace s, c ∈ s := by
  intro c hc
  unfold TrimSpace at hc
  rw [List.mem_reverse] at hc
  have h1 := dropWhile_mem IsSpace _ c hc
  rw [List.mem_reverse] at h1
  exact dropWhile_mem IsSpace _ c h1

/-- The trimmed string has no white space at its start. -/
theorem TrimSpace_head (s : List Char) (c : Char) (h : (TrimSpace s).head? = some c) :
    IsSpace c = false := by
  unfold TrimSpace at h
  cases hd : s.dropWhile IsSpace with
  | nil => simp [hd] at h
  | cons a t =>
    have ha := dropWhile_head_not IsSpace s a t hd
    have hsuf : List.dropWhile IsSpace (a :: t).reverse <:+ (a :: t).reverse :=
      List.dropWhile_suffix IsSpace
    have hpre : (List.dropWhile IsSpace (a :: t).reverse).reverse <+: a :: t := by
      have := List.reverse_prefix.mpr hsuf
      rwa [List.reverse_reverse] at this
    rw [hd] at h
    obtain ⟨r, hr⟩ := hpre
    cases hx : (List.dropWhile IsSpace (a :: t).reverse).reverse with
    | nil =>
      rw [hx] at h
      cases h
    | cons x xs =>
      rw [hx] at h hr
      simp only [List.head?_cons, Option.some.injEq] at h
      simp only [List.cons_append, List.cons.injEq] at hr
      rw [← h, hr.1]
      exact ha

/-- The trimmed string has no white space at its end. -/
theorem TrimSpace_getLast (s : List Char) (c : Char) (h : (TrimSpace s).getLast? = some c) :
    IsSpace c = false := by
  unfold TrimSpace at h
  rw [List.getLast?_reverse] at h
  cases hx : List.dropWhile IsSpace (List.dropWhile IsSpace s).reverse with
  | nil => simp [hx] at h
  | cons x xs =>
    rw [hx] at h
    simp only [List.head?_cons, Option.some.injEq] at h
    rw [← h]
    exact dropWhile_head_not IsSpace _ x xs hx

/-- A string without white space at its start and at its end is its own trimmed
string. -/
theorem TrimSpace_of_trimmed (s : List Char)
    (hhead : ∀ c, s.head? = some c → IsSpace c = false)
    (hlast : ∀ c, s.getLast? = some c → IsSpace c = false) : TrimSpace s = s := by
  have h1 : s.dropWhile IsSpace = s := by
    cases s with
    | nil => rfl
    | cons a t =>
      have := hhead a rfl
      simp [List.dropWhile_cons, this]
  have h2 : s.reverse.dropWhile IsSpace = s.reverse := by
    cases hr : s.reverse with
    | nil => rfl
    | cons a t =>
      have hl : s.getLast? = some a := by
        rw [← List.head?_reverse, hr]
        rfl
      have := hlast a hl
      simp [List.dropWhile_cons, this]
  unfold TrimSpace
  rw [h1, h2, List.reverse_reverse]

/-- A string of white space only trims to the empty string. -/
theorem TrimSpace_of_spaces (s : List Char) (h : ∀ c ∈ s, IsSpace c = true) :
    TrimSpace s = [] := by
  have h1 : s.dropWhile IsSpace = [] := by
    rw [List.dropWhile_eq_nil_iff]
    exact h
  unfold TrimSpace
  rw [h1]
  rfl

/-- When the mode switch of an operation queues `txn` and registers `v`, the operation
executes exactly the batch of `txn`, its execution-record statements and the lease
statement; the statements of that batch on current_executions are `txn`, and the checks
registered for the diagnosis are `v`. -/
theorem Op.of_switch (ser : Serializer) (d : Session) (op : Op) (txn : List Stmt)
    (v : List Check) (hsw : (op.switch ser d).1 = .ok (txn, v)) :
    (∀ b, Event.exec b ∈ (op.run ser d).trace ↔
      b = txn ++ op.body ++ [leaseStmt op.RangeID op.ShardID]) ∧
    (txn ++ op.body ++ [leaseStmt op.RangeID op.ShardID]).filter Stmt.onCurrent = txn ∧
    op.registered ser d = v := by
  have hb : op.batch ser d = some (txn ++ op.body ++ [leaseStmt op.RangeID op.ShardID]) := by
    simp only [Op.batch, hsw, Op.txn_eq]
  refine ⟨fun b => ?_, ?_, ?_⟩
  · rw [Op.exec_mem_trace, hb]
    constructor
    · intro h
      simp only [Option.some.injEq] at h
      exact h.symm
    · intro h
      rw [h]
  · obtain ⟨txn', v', hsw', hf⟩ := Op.batch_filter_onCurrent ser d op _ hb
    rw [hsw] at hsw'
    simp only [Except.ok.injEq, Prod.mk.injEq] at hsw'
    rw [hf, hsw'.1]
  · simp only [Op.registered, hsw]

/-- What assertNotCurrentExecution does, by what `GetCurrentExecution` does: a
CurrentWorkflowConflict exactly when the read returns a record whose run id is the
target run id; no error when the read returns a record of another run or reports
NotFound; any other error of the read as it is; and when the read panics, the panic. In
the bypass mode of UpdateWorkflowExecution and ConflictResolveWorkflowExecution what the
assertion gives, error or panic, is the result of the operation, and the only session
call made is that read. On a store: with a stored record whose state blob is not empty
and deserializes, the conflict is returned exactly when the stored current_run_id is the
target run id; with a stored record whose state blob is empty the call panics; with no
stored record no error is returned. -/
theorem assertNotCurrentExecution_cases (ser : Serializer) (d : Session) :
    (∀ (shardID : Int) (namespaceID workflowID runID : String) (startTime : Option Int),
      ((∃ e, (assertNotCurrentExecution ser d shardID namespaceID workflowID runID
            startTime).1 = some (.currentWorkflowConditionFailed e)) ↔
        ∃ resp, (GetCurrentExecution ser d ⟨shardID, namespaceID, workflowID⟩).1 = .ok resp ∧ resp.RunID = runID) ∧
      (∀ resp, (GetCurrentExecution ser d ⟨shardID, namespaceID, workflowID⟩).1 = .ok resp → resp.RunID ≠ runID →
        (assertNotCurrentExecution ser d shardID namespaceID workflowID runID
          startTime).1 = none) ∧
      (∀ msg, (GetCurrentExecution ser d ⟨shardID, namespaceID, workflowID⟩).1 = .error (.notFound msg) →
        (assertNotCurrentExecution ser d shardID namespaceID workflowID runID
          startTime).1 = none) ∧
      (∀ err, (GetCurrentExecution ser d ⟨shardID, namespaceID, workflowID⟩).1 = .error err → (∀ msg, err ≠ .notFound msg) →
        (assertNotCurrentExecution ser d shardID namespaceID workflowID runID
          startTime).1 = some err) ∧
      (∀ resp, (GetCurrentExecution ser d ⟨shardID, namespaceID, workflowID⟩).1 = .ok resp →
        ∃ row, d.mapScan (.getCurrentExecution shardID namespaceID workflowID) = .ok row ∧
          resp.RunID = UUIDToString (row.get "current_run_id")) ∧
      (d.mapScan (.getCurrentExecution shardID namespaceID workflowID) = .error .notFound →
        (assertNotCurrentExecution ser d shardID namespaceID workflowID runID
          startTime).1 = none)) ∧
    (∀ (request : InternalUpdateWorkflowExecutionRequest) (err : Error),
      request.Mode = UpdateWorkflowModeBypassCurrent →
      (assertNotCurrentExecution ser d request.ShardID
        request.UpdateWorkflowMutation.NamespaceID request.UpdateWorkflowMutation.WorkflowID
        request.UpdateWorkflowMutation.RunID
        request.UpdateWorkflowMutation.ExecutionState.StartTime).1 = some err →
      UpdateWorkflowExecution ser d request =
        { err := some err
          trace := [.query (.getCurrentExecution request.ShardID
            request.UpdateWorkflowMutation.NamespaceID
            request.UpdateWorkflowMutation.WorkflowID)] }) ∧
    (∀ (request : InternalConflictResolveWorkflowExecutionRequest) (err : Error),
      request.Mode = ConflictResolveWorkflowModeBypassCurrent →
      (assertNotCurrentExecution ser d request.ShardID
        request.ResetWorkflowSnapshot.NamespaceID request.ResetWorkflowSnapshot.WorkflowID
        request.ResetWorkflowSnapshot.ExecutionState.RunId
        (conflictResolveStartTime request)).1 = some err →
      ConflictResolveWorkflowExecution ser d request =
        { err := some err
          trace := [.query (.getCurrentExecution request.ShardID
            request.ResetWorkflowSnapshot.NamespaceID
            request.ResetWorkflowSnapshot.WorkflowID)] }) ∧
    (∀ (st : Store) (shardID : Int) (namespaceID workflowID runID : String)
        (startTime : Option Int),
      (∀ rec blob state, st.current ⟨shardID, namespaceID, workflowID⟩ = some rec →
        NewDataBlob rec.execution_state rec.execution_state_encoding = some blob →
        ser.WorkflowExecutionStateFromBlob blob.Data blob.EncodingName = .ok state →
        ((∃ e, (assertNotCurrentExecution ser (storeSession st) shardID namespaceID workflowID
            runID startTime).1 = some (.currentWorkflowConditionFailed e)) ↔
          rec.current_run_id = runID)) ∧
      (∀ rec, st.current ⟨shardID, namespaceID, workflowID⟩ = some rec →
        rec.execution_state = [] →
        (assertNotCurrentExecution ser (storeSession st) shardID namespaceID workflowID runID
          startTime).1 = some (.panic "executionStateBlob")) ∧
      (st.current ⟨shardID, namespaceID, workflowID⟩ = none →
        (assertNotCurrentExecution ser (storeSession st) shardID namespaceID workflowID runID
          startTime).1 = none)) ∧
    (∀ (shardID : Int) (namespaceID workflowID runID : String) (startTime : Option Int)
        (site : String),
      (GetCurrentExecution ser d ⟨shardID, namespaceID, workflowID⟩).1 = .panic site →
      (assertNotCurrentExecution ser d shardID namespaceID workflowID runID startTime).1 =
        some (.panic site)) := by
  refine ⟨fun shardID namespaceID workflowID runID startTime => ?_, ?_, ?_, ?_, ?_⟩
  · have ha := assertNotCurrentExecution_eq ser d shardID namespaceID workflowID runID startTime
    have hc := GetCurrentExecution_cases ser d
      ⟨shardID, namespaceID, workflowID⟩
    simp only at hc
    rcases hc with ⟨row, state, hscan, hg⟩ | ⟨hscan, msg, hg⟩ |
      ⟨hscan, ⟨e, hg⟩ | ⟨msg, hg⟩ | ⟨msg, hg⟩ | ⟨site, hg⟩⟩
    · rw [hg] at ha
      simp only at ha
      rw [ha, hg]
      refine ⟨?_, ?_, ?_, ?_, ?_, ?_⟩
      · by_cases hrun : UUIDToString (row.get "current_run_id") = runID
        · simp [hrun]
        · simp [hrun]
      · intro resp hresp hne
        simp only [Result.ok.injEq] at hresp
        subst hresp
        simp only [if_neg hne]
      · intro msg h; cases h
      · intro err h; cases h
      · intro resp hresp
        simp only [Result.ok.injEq] at hresp
        subst hresp
        exact ⟨row, hscan, rfl⟩
      · intro h; rw [hscan] at h; cases h
    · rw [hg] at ha
      simp only at ha
      rw [ha, hg]
      refine ⟨by simp, ?_, ?_, ?_, ?_, ?_⟩
      · intro resp h; cases h
      · intro _ _; rfl
      · intro err h hnf
        simp only [Result.error.injEq] at h
        exact absurd h.symm (hnf msg)
      · intro resp h; cases h
      · intro _; rfl
    · rw [hg] at ha
      simp only at ha
      rw [ha, hg]
      refine ⟨by simp, ?_, ?_, ?_, ?_, ?_⟩
      · intro resp h; cases h
      · intro m h; cases h
      · intro err h _
        simp only [Result.error.injEq] at h
        rw [h]
      · intro resp h; cases h
      · intro h; exact absurd h hscan
    · rw [hg] at ha
      simp only at ha
      rw [ha, hg]
      refine ⟨by simp, ?_, ?_, ?_, ?_, ?_⟩
      · intro resp h; cases h
      · intro m h; cases h
      · intro err h _
        simp only [Result.error.injEq] at h
        rw [h]
      · intro resp h; cases h
      · intro h; exact absurd h hscan
    · rw [hg] at ha
      simp only at ha
      rw [ha, hg]
      refine ⟨by simp, ?_, ?_, ?_, ?_, ?_⟩
      · intro resp h; cases h
      · intro m h; cases h
      · intro err h _
        simp only [Result.error.injEq] at h
        rw [h]
      · intro resp h; cases h
      · intro h; exact absurd h hscan
    · rw [hg] at ha
      simp only at ha
      rw [ha, hg]
      refine ⟨by simp, ?_, ?_, ?_, ?_, ?_⟩
      · intro resp h; cases h
      · intro m h; cases h
      · intro err h; cases h
      · intro resp h; cases h
      · intro h; exact absurd h hscan
  · intro request err hmode hassert
    have hr := assertNotCurrentExecution_reads ser d request.ShardID
      request.UpdateWorkflowMutation.NamespaceID request.UpdateWorkflowMutation.WorkflowID
      request.UpdateWorkflowMutation.RunID
      request.UpdateWorkflowMutation.ExecutionState.StartTime
    rcases ha : assertNotCurrentExecution ser d request.ShardID
      request.UpdateWorkflowMutation.NamespaceID request.UpdateWorkflowMutation.WorkflowID
      request.UpdateWorkflowMutation.RunID
      request.UpdateWorkflowMutation.ExecutionState.StartTime with ⟨e, reads⟩
    rw [ha] at hassert hr
    simp only at hassert hr
    subst hassert hr
    simp only [UpdateWorkflowExecution, updateModeSwitch, hmode, if_true, ha, bypassCase]
  · intro request err hmode hassert
    have hr := assertNotCurrentExecution_reads ser d request.ShardID
      request.ResetWorkflowSnapshot.NamespaceID request.ResetWorkflowSnapshot.WorkflowID
      request.ResetWorkflowSnapshot.ExecutionState.RunId (conflictResolveStartTime request)
    rcases ha : assertNotCurrentExecution ser d request.ShardID
      request.ResetWorkflowSnapshot.NamespaceID request.ResetWorkflowSnapshot.WorkflowID
      request.ResetWorkflowSnapshot.ExecutionState.RunId
      (conflictResolveStartTime request) with ⟨e, reads⟩
    rw [ha] at hassert hr
    simp only at hassert hr
    subst hassert hr
    simp only [ConflictResolveWorkflowExecution, conflictResolveModeSwitch, hmode, if_true, ha,
      bypassCase]
  · intro st shardID namespaceID workflowID runID startTime
    obtain ⟨hsome, hpanic, hnone⟩ :=
      GetCurrentExecution_store ser st shardID namespaceID workflowID
    refine ⟨?_, ?_, ?_⟩
    · intro rec blob state hcur hblob hstate
      rw [assertNotCurrentExecution_eq, hsome rec blob state hcur hblob hstate]
      by_cases hrun : rec.current_run_id = runID
      · simp [hrun]
      · simp [hrun]
    · intro rec hcur hempty
      rw [assertNotCurrentExecution_eq, hpanic rec hcur hempty]
    · intro hcur
      obtain ⟨msg, hg⟩ := hnone hcur
      rw [assertNotCurrentExecution_eq, hg]
  · intro shardID namespaceID workflowID runID startTime site hg
    rw [assertNotCurrentExecution_eq, hg]

/-! ## The claims -/

/-- C1 (amended): after a rejected batch of CreateWorkflowExecution,
UpdateWorkflowExecution, ConflictResolveWorkflowExecution or SetWorkflowExecution, if
the lease read gives a range_id other than the RangeID of the request, the operation
returns ShardOwnershipLost with the expected and the stored range id whenever the
current-execution check registered by the mode switch reports no violation, whatever
the per-run execution checks would report; SetWorkflowExecution and the bypass modes
register no such check. The registered check is a current-execution check, it runs
before the lease check, and what it reports is what the operation returns. -/
theorem lease_check_follows_current_check (ser : Serializer) (d : Session) (op : Op)
    (batch : List Stmt) (err : DriverError) (rec : LeaseRecord)
    (hmem : Event.exec batch ∈ (op.run ser d).trace)
    (hexec : d.exec batch = some err) (hconf : ConflictError err = true)
    (hlease : d.scanLease op.ShardID = .ok rec) (hne : rec.range_id ≠ op.RangeID) :
    ((∀ c ∈ op.registered ser d, runCheck d c = none) →
      (op.run ser d).err = some (.shardOwnershipLost op.ShardID op.RangeID rec.range_id)) ∧
    (∀ c ∈ op.registered ser d, c.onCurrent = true ∧
      ∀ e, runCheck d c = some e → (op.run ser d).err = some e) := by
  have hbatch := (Op.exec_mem_trace ser d op batch).mp hmem
  have hrun := Op.run_of_batch ser d op batch hbatch
  rw [execTxn_conflict d batch _ _ _ _ _ _ err hexec hconf] at hrun
  have hown : runCheck d (.ownership op.ShardID op.RangeID) =
      some (.shardOwnershipLost op.ShardID op.RangeID rec.range_id) := by
    simp [runCheck, hlease, extractShardOwnershipLostError, hne]
  constructor
  · intro hcur
    rw [hrun]
    simp only [decodeConflict_err, decodeConflictChecks, List.append_assoc, List.singleton_append]
    rw [Validate_append_some d _ _ _ _ hcur hown]
  · intro c hc
    rcases Op.registered_cases ser d op with h | ⟨c', h, hon⟩
    · rw [h] at hc; cases hc
    · rw [h] at hc
      have hcc : c = c' := by simpa using hc
      subst hcc
      refine ⟨hon, fun e he => ?_⟩
      rw [hrun]
      simp only [decodeConflict_err, decodeConflictChecks, h, List.singleton_append,
        List.cons_append, Validate, he]

/-- C1, instance: a bypass create for run "r2" at range id 6 on the store where the
shard is at range id 5 is rejected and returns ShardOwnershipLost. -/
theorem lease_check_follows_current_check_witness :
    (Op.run exSerializer (storeSession (exStore 2 0))
      (.create (exCreate "r2" 6 CreateWorkflowModeBypassCurrent))).err =
      some (.shardOwnershipLost 1 6 5) :=
  (lease_check_follows_current_check exSerializer (storeSession (exStore 2 0))
    (.create (exCreate "r2" 6 CreateWorkflowModeBypassCurrent))
    [.createWorkflowExecution (exKey "r2") (exValues 1),
     .subEntity (.addSignalRequested []) (exKey "r2"), .updateLease 6 1 6]
    (.conflict "conditional write rejected") { range_id := 5 }
    (by decide) (by decide) (by decide) (by decide) (by decide)).1 (by decide)

/-- C1, counterexample: a BrandNew create for run "r2" at range id 6, on the store
where the shard is at range id 5 and "r1" is the current run, is rejected; the stored
range id differs from the one of the request, and the operation returns
CurrentWorkflowConflict, not ShardOwnershipLost. -/
theorem lease_check_first_counterexample :
    (storeSession (exStore 2 0)).scanLease 1 = .ok { range_id := 5 } ∧
    (exCreate "r2" 6 CreateWorkflowModeBrandNew).RangeID = 6 ∧
    (∃ batch, Event.exec batch ∈ (CreateWorkflowExecution (storeSession (exStore 2 0))
        (exCreate "r2" 6 CreateWorkflowModeBrandNew)).trace ∧
      (storeSession (exStore 2 0)).exec batch = some (.conflict "conditional write rejected")) ∧
    (CreateWorkflowExecution (storeSession (exStore 2 0))
      (exCreate "r2" 6 CreateWorkflowModeBrandNew)).err =
      some (exportCurrentWorkflowConflictError
        { current_run_id := "r1", execution_state := [1], execution_state_encoding := "Proto3"
          workflow_last_write_version := 0, workflow_state := 2 }) ∧
    (CreateWorkflowExecution (storeSession (exStore 2 0))
      (exCreate "r2" 6 CreateWorkflowModeBrandNew)).err ≠ some (.shardOwnershipLost 1 6 5) := by
  refine ⟨by decide, by decide,
    ⟨[.createCurrentWorkflowExecution exCurrentKey
        { current_run_id := "r2", execution_state := [1], execution_state_encoding := "Proto3"
          workflow_last_write_version := 0, workflow_state := 2 },
      .createWorkflowExecution (exKey "r2") (exValues 1),
      .subEntity (.addSignalRequested []) (exKey "r2"), .updateLease 6 1 6],
      by decide, by decide⟩, by decide, by decide⟩

/-- C2: a request whose Mode is none of the modes the switch handles makes
CreateWorkflowExecution, UpdateWorkflowExecution and ConflictResolveWorkflowExecution
return an InternalError whose message ends with the mode value, and the operation
makes no call on the session: no batch is executed and no read is issued. -/
theorem unknown_mode_internal_error (ser : Serializer) (d : Session) :
    (∀ request : InternalCreateWorkflowExecutionRequest,
      request.Mode ≠ CreateWorkflowModeBypassCurrent →
      request.Mode ≠ CreateWorkflowModeUpdateCurrent →
      request.Mode ≠ CreateWorkflowModeBrandNew →
      CreateWorkflowExecution d request =
        { err := some (.internal
            ("CreateWorkflowExecution: unknown mode: " ++ toString request.Mode))
          trace := [] }) ∧
    (∀ request : InternalUpdateWorkflowExecutionRequest,
      request.Mode ≠ UpdateWorkflowModeBypassCurrent →
      request.Mode ≠ UpdateWorkflowModeUpdateCurrent →
      UpdateWorkflowExecution ser d request =
        { err := some (.internal
            ("UpdateWorkflowExecution: unknown mode: " ++ toString request.Mode))
          trace := [] }) ∧
    (∀ request : InternalConflictResolveWorkflowExecutionRequest,
      request.Mode ≠ ConflictResolveWorkflowModeBypassCurrent →
      request.Mode ≠ ConflictResolveWorkflowModeUpdateCurrent →
      ConflictResolveWorkflowExecution ser d request =
        { err := some (.internal
            ("ConflictResolveWorkflowExecution: unknown mode: " ++ toString request.Mode))
          trace := [] }) := by
  refine ⟨fun request h1 h2 h3 => ?_, fun request h1 h2 => ?_, fun request h1 h2 => ?_⟩
  · simp only [CreateWorkflowExecution, createModeSwitch, if_neg h1, if_neg h2, if_neg h3]
  · simp only [UpdateWorkflowExecution, updateModeSwitch, if_neg h1, if_neg h2]
  · simp only [ConflictResolveWorkflowExecution, conflictResolveModeSwitch, if_neg h1, if_neg h2]

/-- C2, instance: mode 7 on the three operations. -/
theorem unknown_mode_internal_error_witness :
    CreateWorkflowExecution (storeSession (exStore 2 0)) (exCreate "r2" 5 7) =
      { err := some (.internal "CreateWorkflowExecution: unknown mode: 7"), trace := [] } ∧
    UpdateWorkflowExecution exSerializer (storeSession (exStore 2 0)) (exUpdate 7 2 none) =
      { err := some (.internal "UpdateWorkflowExecution: unknown mode: 7"), trace := [] } ∧
    ConflictResolveWorkflowExecution exSerializer (storeSession (exStore 2 0))
        (exConflictResolve 7) =
      { err := some (.internal "ConflictResolveWorkflowExecution: unknown mode: 7")
        trace := [] } :=
  ⟨(unknown_mode_internal_error exSerializer (storeSession (exStore 2 0))).1
      (exCreate "r2" 5 7) (by decide) (by decide) (by decide),
   (unknown_mode_internal_error exSerializer (storeSession (exStore 2 0))).2.1
      (exUpdate 7 2 none) (by decide) (by decide),
   (unknown_mode_internal_error exSerializer (storeSession (exStore 2 0))).2.2
      (exConflictResolve 7) (by decide) (by decide)⟩

/-- C3, counterexample: run "r1" is stored at record version 0 with next_event_id 1. The
update of "r1" that carries DBRecordVersion 0 and Condition 1 takes the legacy strategy:
it is accepted, and the stored record version is 0 before and 0 after, not one greater.
On the store that holds "r1" at record version 7 the same update is accepted as well and
leaves version 0. With the record stored at the largest 64-bit version, the update that
carries the least 64-bit DBRecordVersion is accepted (DBRecordVersion - 1 wraps around)
and leaves the least 64-bit version. -/
theorem update_record_version_not_incremented_counterexample :
    (exStoreAtVersion 0).dbRecordVersion (exKey "r1") = some 0 ∧
    (UpdateWorkflowExecution exSerializer (storeSession (exStoreAtVersion 0))
      (exUpdate UpdateWorkflowModeUpdateCurrent 0 none)).err = none ∧
    (storeAfter (exStoreAtVersion 0) (UpdateWorkflowExecution exSerializer
      (storeSession (exStoreAtVersion 0))
      (exUpdate UpdateWorkflowModeUpdateCurrent 0 none))).dbRecordVersion (exKey "r1") =
      some 0 ∧
    (UpdateWorkflowExecution exSerializer (storeSession (exStoreAtVersion 7))
      (exUpdate UpdateWorkflowModeUpdateCurrent 0 none)).err = none ∧
    (storeAfter (exStoreAtVersion 7) (UpdateWorkflowExecution exSerializer
      (storeSession (exStoreAtVersion 7))
      (exUpdate UpdateWorkflowModeUpdateCurrent 0 none))).dbRecordVersion (exKey "r1") =
      some 0 ∧
    (UpdateWorkflowExecution exSerializer (storeSession (exStoreAtVersion (2 ^ 63 - 1)))
      (exUpdate UpdateWorkflowModeUpdateCurrent (-2 ^ 63) none)).err = none ∧
    (storeAfter (exStoreAtVersion (2 ^ 63 - 1)) (UpdateWorkflowExecution exSerializer
      (storeSession (exStoreAtVersion (2 ^ 63 - 1)))
      (exUpdate UpdateWorkflowModeUpdateCurrent (-2 ^ 63) none))).dbRecordVersion
        (exKey "r1") = some (-2 ^ 63) := by
  decide

/-- C3 (amended): on a store, an accepted UpdateWorkflowExecution leaves the stored
db_record_version of the updated run equal to the DBRecordVersion of the mutation. When
that DBRecordVersion is not 0, the batch conditioned on the stored version being
DBRecordVersion - 1 (in 64-bit arithmetic), so the stored version is exactly one greater
than before whenever DBRecordVersion is not the least 64-bit value. When it is 0, the
batch conditioned on the stored next_event_id being the Condition of the mutation, and
not on the stored version. A rejected UpdateWorkflowExecution leaves the whole store, so
also that version, as it was. -/
theorem update_increments_record_version (ser : Serializer) (st : Store)
    (request : InternalUpdateWorkflowExecutionRequest)
    (hint : -2 ^ 63 ≤ request.UpdateWorkflowMutation.DBRecordVersion ∧
      request.UpdateWorkflowMutation.DBRecordVersion < 2 ^ 63) :
    ((UpdateWorkflowExecution ser (storeSession st) request).err = none →
      (storeAfter st (UpdateWorkflowExecution ser (storeSession st) request)).dbRecordVersion
          (mutationKey request.ShardID request.UpdateWorkflowMutation) =
        some request.UpdateWorkflowMutation.DBRecordVersion ∧
      (request.UpdateWorkflowMutation.DBRecordVersion ≠ 0 →
        ∃ v, st.dbRecordVersion (mutationKey request.ShardID request.UpdateWorkflowMutation) =
            some v ∧
          v = wrapInt64 (request.UpdateWorkflowMutation.DBRecordVersion - 1) ∧
          (-2 ^ 63 < request.UpdateWorkflowMutation.DBRecordVersion →
            request.UpdateWorkflowMutation.DBRecordVersion = v + 1)) ∧
      (request.UpdateWorkflowMutation.DBRecordVersion = 0 →
        st.nextEventID (mutationKey request.ShardID request.UpdateWorkflowMutation) =
          some request.UpdateWorkflowMutation.Condition)) ∧
    ((UpdateWorkflowExecution ser (storeSession st) request).err ≠ none →
      storeAfter st (UpdateWorkflowExecution ser (storeSession st) request) = st ∧
      (storeAfter st (UpdateWorkflowExecution ser (storeSession st) request)).dbRecordVersion
          (mutationKey request.ShardID request.UpdateWorkflowMutation) =
        st.dbRecordVersion (mutationKey request.ShardID request.UpdateWorkflowMutation)) := by
  obtain ⟨hacc, hrej⟩ := Op.storeAfter_run ser st (.update request)
  simp only [Op.run] at hacc hrej
  refine ⟨fun hok => ?_, fun herr => ⟨hrej herr, by rw [hrej herr]⟩⟩
  obtain ⟨batch, hb, haccepts, hafter⟩ := hacc hok
  obtain ⟨txn, v, hsw, hbatch⟩ := Op.batch_eq ser (storeSession st) (.update request) batch hb
  have hswitch := Op.switch_stmts ser (storeSession st) (.update request) txn v hsw
  set m := request.UpdateWorkflowMutation with hm
  set key := mutationKey request.ShardID m with hkey
  set u : Stmt := updateExecution (mutationValues m) key m.Condition with hu
  have hall : ∀ s ∈ batch, s.holds st = true := by
    simpa [accepts, List.all_eq_true] using haccepts
  have humem : u ∈ batch := by
    rw [hbatch]
    simp only [Op.body, List.mem_append]
    exact Or.inl (Or.inr (Or.inl (mutationStmts_head request.ShardID m)))
  have hholds : u.holds st = true := hall u humem
  have hexists : st.execution key ≠ none :=
    updateExecution_holds_exists (mutationValues m) key m.Condition st hholds
  have hpre := (updateExecution_holds (mutationValues m) key m.Condition st).mp hholds
  have hversion : (mutationValues m).db_record_version = m.DBRecordVersion := rfl
  rw [hversion] at hpre
  have hset : ∀ st' : Store, (u.apply st').dbRecordVersion key = some m.DBRecordVersion :=
    fun st' => updateExecution_apply_version (mutationValues m) key m.Condition st'
  have hkeep : ∀ s ∈ batch, s.keepsValues key ∨ s = u := by
    intro s hs
    rw [hbatch] at hs
    simp only [Op.body, List.mem_append, List.mem_singleton] at hs
    rcases hs with (hs | hs | hs) | hs
    · exact Or.inl (Stmt.keepsValues_of_onCurrent key s (hswitch s hs).2)
    · rcases mutationStmts_mem _ _ s hs with h | ⟨op, h⟩
      · exact Or.inr h
      · subst h; exact Or.inl trivial
    · cases hn : request.NewWorkflowSnapshot with
      | none => simp [hn] at hs
      | some w =>
        simp only [hn] at hs
        rcases snapshotAsNewStmts_mem _ _ s hs with h | ⟨op, h⟩
        · subst h
          left
          intro hk
          have hc : (Stmt.createWorkflowExecution (snapshotKey request.ShardID w)
              (snapshotValues w)).holds st = true := by
            apply hall
            rw [hbatch]
            simp only [Op.body, List.mem_append, hn]
            exact Or.inl (Or.inr (Or.inr (snapshotAsNewStmts_head request.ShardID w)))
          simp only [Stmt.holds, hk, decide_eq_true_eq] at hc
          exact hexists hc
        · subst h; exact Or.inl trivial
    · subst hs; exact Or.inl trivial
  have hpost := foldl_apply_version key u m.DBRecordVersion hset batch st hkeep
  rw [if_pos humem] at hpost
  refine ⟨by rw [hafter]; exact hpost, fun h0 => ?_, fun h0 => ?_⟩
  · rw [if_neg h0] at hpre
    refine ⟨_, hpre, rfl, fun hmin => ?_⟩
    obtain ⟨-, h2⟩ := hint
    simp only [wrapInt64]
    norm_num at hmin h2 ⊢
    omega
  · rw [if_pos h0] at hpre
    exact hpre

/-- C3, instance: run "r1" is stored at record version 1; the update that writes
version 2 is accepted, found version 1 and leaves version 2. -/
theorem update_increments_record_version_witness :
    (-2 ^ 63 ≤ (exUpdate UpdateWorkflowModeUpdateCurrent 2 none).UpdateWorkflowMutation.DBRecordVersion ∧
      (exUpdate UpdateWorkflowModeUpdateCurrent 2 none).UpdateWorkflowMutation.DBRecordVersion
        < 2 ^ 63) ∧
    (exStore 2 0).dbRecordVersion (exKey "r1") = some 1 ∧
    (UpdateWorkflowExecution exSerializer (storeSession (exStore 2 0))
      (exUpdate UpdateWorkflowModeUpdateCurrent 2 none)).err = none ∧
    (storeAfter (exStore 2 0) (UpdateWorkflowExecution exSerializer (storeSession (exStore 2 0))
      (exUpdate UpdateWorkflowModeUpdateCurrent 2 none))).dbRecordVersion (exKey "r1") =
      some 2 :=
  ⟨by decide, by decide, by decide,
    ((update_increments_record_version exSerializer (exStore 2 0)
      (exUpdate UpdateWorkflowModeUpdateCurrent 2 none) (by decide)).1 (by decide)).1⟩

/-- C4: in CreateWorkflowExecution the mode decides the statement on
current_executions of the executed batch and the current-execution check of the
validator. BypassCurrent: none of either. BrandNew: one insert, conditioned on the
record not existing, and the existence check. UpdateCurrent: one update conditioned on
the stored triple (request.PreviousLastWriteVersion, COMPLETED, request.PreviousRunID),
and the check of that triple. On a store whose current record of the workflow is not in
state COMPLETED, an UpdateCurrent create is rejected and leaves the store as it was. -/
theorem create_current_statement (d : Session)
    (request : InternalCreateWorkflowExecutionRequest) :
    (∀ batch, Event.exec batch ∈ (CreateWorkflowExecution d request).trace →
      (request.Mode = CreateWorkflowModeBypassCurrent →
        batch.filter Stmt.onCurrent = [] ∧ createModeSwitch request = .ok ([], [])) ∧
      (request.Mode = CreateWorkflowModeBrandNew →
        batch.filter Stmt.onCurrent =
          [.createCurrentWorkflowExecution
            { shardID := request.ShardID
              namespaceID := request.NewWorkflowSnapshot.NamespaceID
              workflowID := request.NewWorkflowSnapshot.WorkflowID }
            { current_run_id := request.NewWorkflowSnapshot.RunID
              execution_state := request.NewWorkflowSnapshot.ExecutionStateBlob.Data
              execution_state_encoding :=
                request.NewWorkflowSnapshot.ExecutionStateBlob.EncodingName
              workflow_last_write_version := request.NewWorkflowSnapshot.LastWriteVersion
              workflow_state := request.NewWorkflowSnapshot.ExecutionState.State }] ∧
        ∃ txn, createModeSwitch request =
          .ok (txn, [.currentWorkflowNotExist request.ShardID
            request.NewWorkflowSnapshot.NamespaceID request.NewWorkflowSnapshot.WorkflowID])) ∧
      (request.Mode = CreateWorkflowModeUpdateCurrent →
        batch.filter Stmt.onCurrent =
          [.updateCurrentWorkflowExecutionForNew
            { current_run_id := request.NewWorkflowSnapshot.RunID
              execution_state := request.NewWorkflowSnapshot.ExecutionStateBlob.Data
              execution_state_encoding :=
                request.NewWorkflowSnapshot.ExecutionStateBlob.EncodingName
              workflow_last_write_version := request.NewWorkflowSnapshot.LastWriteVersion
              workflow_state := request.NewWorkflowSnapshot.ExecutionState.State }
            { shardID := request.ShardID
              namespaceID := request.NewWorkflowSnapshot.NamespaceID
              workflowID := request.NewWorkflowSnapshot.WorkflowID }
            request.PreviousLastWriteVersion WORKFLOW_EXECUTION_STATE_COMPLETED
            request.PreviousRunID] ∧
        ∃ txn, createModeSwitch request =
          .ok (txn, [.currentWorkflowMvcc request.ShardID
            request.NewWorkflowSnapshot.NamespaceID request.NewWorkflowSnapshot.WorkflowID
            request.PreviousLastWriteVersion WORKFLOW_EXECUTION_STATE_COMPLETED
            request.PreviousRunID]))) ∧
    (∀ (st : Store) (rec : CurrentRecord),
      request.Mode = CreateWorkflowModeUpdateCurrent →
      st.current { shardID := request.ShardID
                   namespaceID := request.NewWorkflowSnapshot.NamespaceID
                   workflowID := request.NewWorkflowSnapshot.WorkflowID } = some rec →
      rec.workflow_state ≠ WORKFLOW_EXECUTION_STATE_COMPLETED →
      (CreateWorkflowExecution (storeSession st) request).err ≠ none ∧
      storeAfter st (CreateWorkflowExecution (storeSession st) request) = st) := by
  have ser : Serializer :=
    { WorkflowExecutionStateToBlob := fun _ => .error ""
      WorkflowExecutionStateFromBlob := fun _ _ => .error "" }
  constructor
  · intro batch hmem
    have hb : Op.batch ser d (.create request) = some batch :=
      (Op.exec_mem_trace ser d (.create request) batch).mp hmem
    obtain ⟨txn, v, hsw, hf⟩ := Op.batch_filter_onCurrent ser d (.create request) batch hb
    simp only [Op.switch] at hsw
    refine ⟨fun hmode => ?_, fun hmode => ?_, fun hmode => ?_⟩
    · have hs : createModeSwitch request = .ok ([], []) := by
        simp only [createModeSwitch, hmode, if_true]
      rw [hs] at hsw
      simp only [Except.ok.injEq, Prod.mk.injEq] at hsw
      exact ⟨by rw [hf, ← hsw.1], hs⟩
    · have hs : createModeSwitch request = .ok
          ([.createCurrentWorkflowExecution
            { shardID := request.ShardID
              namespaceID := request.NewWorkflowSnapshot.NamespaceID
              workflowID := request.NewWorkflowSnapshot.WorkflowID }
            { current_run_id := request.NewWorkflowSnapshot.RunID
              execution_state := request.NewWorkflowSnapshot.ExecutionStateBlob.Data
              execution_state_encoding :=
                request.NewWorkflowSnapshot.ExecutionStateBlob.EncodingName
              workflow_last_write_version := request.NewWorkflowSnapshot.LastWriteVersion
              workflow_state := request.NewWorkflowSnapshot.ExecutionState.State }],
           [.currentWorkflowNotExist request.ShardID
            request.NewWorkflowSnapshot.NamespaceID
            request.NewWorkflowSnapshot.WorkflowID]) := by
        simp [createModeSwitch, hmode, CreateWorkflowModeBrandNew,
          CreateWorkflowModeBypassCurrent, CreateWorkflowModeUpdateCurrent]
      rw [hs] at hsw
      simp only [Except.ok.injEq, Prod.mk.injEq] at hsw
      exact ⟨by rw [hf, ← hsw.1], _, hs⟩
    · have hs : createModeSwitch request = .ok
          ([.updateCurrentWorkflowExecutionForNew
            { current_run_id := request.NewWorkflowSnapshot.RunID
              execution_state := request.NewWorkflowSnapshot.ExecutionStateBlob.Data
              execution_state_encoding :=
                request.NewWorkflowSnapshot.ExecutionStateBlob.EncodingName
              workflow_last_write_version := request.NewWorkflowSnapshot.LastWriteVersion
              workflow_state := request.NewWorkflowSnapshot.ExecutionState.State }
            { shardID := request.ShardID
              namespaceID := request.NewWorkflowSnapshot.NamespaceID
              workflowID := request.NewWorkflowSnapshot.WorkflowID }
            request.PreviousLastWriteVersion WORKFLOW_EXECUTION_STATE_COMPLETED
            request.PreviousRunID],
           [.currentWorkflowMvcc request.ShardID
            request.NewWorkflowSnapshot.NamespaceID request.NewWorkflowSnapshot.WorkflowID
            request.PreviousLastWriteVersion WORKFLOW_EXECUTION_STATE_COMPLETED
            request.PreviousRunID]) := by
        simp [createModeSwitch, hmode, CreateWorkflowModeBypassCurrent,
          CreateWorkflowModeUpdateCurrent]
      rw [hs] at hsw
      simp only [Except.ok.injEq, Prod.mk.injEq] at hsw
      exact ⟨by rw [hf, ← hsw.1], _, hs⟩
  · intro st rec hmode hcur hstate
    obtain ⟨hacc, hrej⟩ := Op.storeAfter_run ser st (.create request)
    simp only [Op.run] at hacc hrej
    have herr : (CreateWorkflowExecution (storeSession st) request).err ≠ none := by
      intro hok
      obtain ⟨batch, hb, haccepts, -⟩ := hacc hok
      obtain ⟨txn, v, hsw, hbatch⟩ := Op.batch_eq ser (storeSession st) (.create request) batch hb
      have hs : createModeSwitch request = .ok
          ([.updateCurrentWorkflowExecutionForNew
            { current_run_id := request.NewWorkflowSnapshot.RunID
              execution_state := request.NewWorkflowSnapshot.ExecutionStateBlob.Data
              execution_state_encoding :=
                request.NewWorkflowSnapshot.ExecutionStateBlob.EncodingName
              workflow_last_write_version := request.NewWorkflowSnapshot.LastWriteVersion
              workflow_state := request.NewWorkflowSnapshot.ExecutionState.State }
            { shardID := request.ShardID
              namespaceID := request.NewWorkflowSnapshot.NamespaceID
              workflowID := request.NewWorkflowSnapshot.WorkflowID }
            request.PreviousLastWriteVersion WORKFLOW_EXECUTION_STATE_COMPLETED
            request.PreviousRunID],
           [.currentWorkflowMvcc request.ShardID
            request.NewWorkflowSnapshot.NamespaceID request.NewWorkflowSnapshot.WorkflowID
            request.PreviousLastWriteVersion WORKFLOW_EXECUTION_STATE_COMPLETED
            request.PreviousRunID]) := by
        simp [createModeSwitch, hmode, CreateWorkflowModeBypassCurrent,
          CreateWorkflowModeUpdateCurrent]
      simp only [Op.switch, hs, Except.ok.injEq, Prod.mk.injEq] at hsw
      have hall : ∀ s ∈ batch, s.holds st = true := by
        simpa [accepts, List.all_eq_true] using haccepts
      have hmem : Stmt.updateCurrentWorkflowExecutionForNew
            { current_run_id := request.NewWorkflowSnapshot.RunID
              execution_state := request.NewWorkflowSnapshot.ExecutionStateBlob.Data
              execution_state_encoding :=
                request.NewWorkflowSnapshot.ExecutionStateBlob.EncodingName
              workflow_last_write_version := request.NewWorkflowSnapshot.LastWriteVersion
              workflow_state := request.NewWorkflowSnapshot.ExecutionState.State }
            { shardID := request.ShardID
              namespaceID := request.NewWorkflowSnapshot.NamespaceID
              workflowID := request.NewWorkflowSnapshot.WorkflowID }
            request.PreviousLastWriteVersion WORKFLOW_EXECUTION_STATE_COMPLETED
            request.PreviousRunID ∈ batch := by
        rw [hbatch, ← hsw.1]
        simp
      have hh := hall _ hmem
      simp only [Stmt.holds, hcur, decide_eq_true_eq] at hh
      exact hstate hh.2.1
    exact ⟨herr, hrej herr⟩

/-- C4, instance: an UpdateCurrent create for run "r2" over the current run "r1" is
rejected and writes nothing while "r1" is in state 2 (running); the same request is
accepted once "r1" is in state 3 (completed). -/
theorem create_current_statement_witness :
    (exCreate "r2" 5 CreateWorkflowModeUpdateCurrent).Mode = CreateWorkflowModeUpdateCurrent ∧
    ((CreateWorkflowExecution (storeSession (exStore 2 0))
        (exCreate "r2" 5 CreateWorkflowModeUpdateCurrent)).err ≠ none ∧
      storeAfter (exStore 2 0) (CreateWorkflowExecution (storeSession (exStore 2 0))
        (exCreate "r2" 5 CreateWorkflowModeUpdateCurrent)) = exStore 2 0) ∧
    (CreateWorkflowExecution (storeSession (exStore 3 0))
        (exCreate "r2" 5 CreateWorkflowModeUpdateCurrent)).err = none :=
  ⟨by decide,
   (create_current_statement (storeSession (exStore 2 0))
      (exCreate "r2" 5 CreateWorkflowModeUpdateCurrent)).2 (exStore 2 0)
      { current_run_id := "r1", execution_state := [1], execution_state_encoding := "Proto3"
        workflow_last_write_version := 0, workflow_state := 2 }
      (by decide) (by decide) (by decide),
   by decide⟩

/-- C5 (amended): in UpdateWorkflowExecution with mode UpdateCurrent the executed batch
has one statement on current_executions, and it conditions on the run id alone,
`IF current_run_id = <run id of the mutation>`, whether or not the request carries a
new-run snapshot: it holds of a store exactly when a current record exists with that
run id, whatever its last write version and state. The check registered for the
diagnosis compares the run id alone as well. -/
theorem update_current_statement (ser : Serializer) (d : Session)
    (request : InternalUpdateWorkflowExecutionRequest) (batch : List Stmt)
    (hmode : request.Mode = UpdateWorkflowModeUpdateCurrent)
    (hmem : Event.exec batch ∈ (UpdateWorkflowExecution ser d request).trace) :
    (∃ set key,
      batch.filter Stmt.onCurrent =
        [.updateCurrentWorkflowExecution set key request.UpdateWorkflowMutation.RunID] ∧
      (∀ newWorkflow, request.NewWorkflowSnapshot = some newWorkflow →
        set.current_run_id = newWorkflow.RunID) ∧
      (request.NewWorkflowSnapshot = none →
        set.current_run_id = request.UpdateWorkflowMutation.RunID) ∧
      ∀ st : Store,
        (Stmt.updateCurrentWorkflowExecution set key
            request.UpdateWorkflowMutation.RunID).holds st = true ↔
          ∃ rec, st.current key = some rec ∧
            rec.current_run_id = request.UpdateWorkflowMutation.RunID) ∧
    Op.registered ser d (.update request) =
      [.currentWorkflowRunId request.ShardID request.UpdateWorkflowMutation.NamespaceID
        request.UpdateWorkflowMutation.WorkflowID request.UpdateWorkflowMutation.RunID] := by
  have hb : Op.batch ser d (.update request) = some batch :=
    (Op.exec_mem_trace ser d (.update request) batch).mp hmem
  obtain ⟨txn, v, hsw, hf⟩ := Op.batch_filter_onCurrent ser d (.update request) batch hb
  have hholds : ∀ (set : CurrentRecord) (key : CurrentKey) (st : Store),
      (Stmt.updateCurrentWorkflowExecution set key
          request.UpdateWorkflowMutation.RunID).holds st = true ↔
        ∃ rec, st.current key = some rec ∧
          rec.current_run_id = request.UpdateWorkflowMutation.RunID := by
    intro set key st
    simp only [Stmt.holds]
    cases st.current key <;> simp
  have hne : ¬ UpdateWorkflowModeUpdateCurrent = UpdateWorkflowModeBypassCurrent := by decide
  simp only [Op.registered, hsw]
  simp only [Op.switch, updateModeSwitch, hmode, if_neg hne, if_true] at hsw
  cases hn : request.NewWorkflowSnapshot with
  | none =>
    simp only [hn] at hsw
    cases hblob : ser.WorkflowExecutionStateToBlob
        request.UpdateWorkflowMutation.ExecutionState with
    | error e => simp [hblob] at hsw
    | ok blob =>
      simp only [hblob, Except.ok.injEq, Prod.mk.injEq] at hsw
      obtain ⟨h1, h2⟩ := hsw
      refine ⟨⟨_, _, (by rw [hf, ← h1]), fun w hw => (by cases hw), fun _ => rfl, hholds _ _⟩,
        h2.symm⟩
  | some newWorkflow =>
    simp only [hn] at hsw
    split_ifs at hsw
    simp only [Except.ok.injEq, Prod.mk.injEq] at hsw
    obtain ⟨h1, h2⟩ := hsw
    refine ⟨⟨_, _, (by rw [hf, ← h1]), fun w hw => ?_, fun h => (by cases h), hholds _ _⟩,
      h2.symm⟩
    simp only [Option.some.injEq] at hw
    subst hw
    rfl

/-- C5, instance: an UpdateCurrent update of run "r1" that continues as new run "r2";
its statement on current_executions conditions on run id "r1". -/
theorem update_current_statement_witness :
    (exUpdate UpdateWorkflowModeUpdateCurrent 2 (some (exSnapshot "r2" 1 1))).Mode =
      UpdateWorkflowModeUpdateCurrent ∧
    Op.registered exSerializer (storeSession (exStore 2 0))
      (.update (exUpdate UpdateWorkflowModeUpdateCurrent 2 (some (exSnapshot "r2" 1 1)))) =
      [.currentWorkflowRunId 1 "n" "w" "r1"] :=
  ⟨by decide,
   (update_current_statement exSerializer (storeSession (exStore 2 0))
      (exUpdate UpdateWorkflowModeUpdateCurrent 2 (some (exSnapshot "r2" 1 1)))
      ([Stmt.updateCurrentWorkflowExecution
          { current_run_id := "r2", execution_state := [1], execution_state_encoding := "Proto3"
            workflow_last_write_version := 0, workflow_state := 1 } exCurrentKey "r1"] ++
        mutationStmts 1 (exMutation "r1" 2) ++ snapshotAsNewStmts 1 (exSnapshot "r2" 1 1) ++
        [leaseStmt 5 1])
      (by decide) (by decide)).2⟩

/-- C5, counterexample: an UpdateCurrent update that carries a new-run snapshot. The
statement on current_executions of its batch is the one conditioned on the run id
alone, and the request is accepted both on the store where the current record is
(last write version 0, state 2, run "r1") and on the store where it is (last write
version 99, state 3, run "r1"): the condition is not on the triple. -/
theorem update_current_triple_counterexample :
    (exUpdate UpdateWorkflowModeUpdateCurrent 2 (some (exSnapshot "r2" 1 1))).NewWorkflowSnapshot
      = some (exSnapshot "r2" 1 1) ∧
    (∃ batch, Event.exec batch ∈ (UpdateWorkflowExecution exSerializer
        (storeSession (exStore 2 0))
        (exUpdate UpdateWorkflowModeUpdateCurrent 2 (some (exSnapshot "r2" 1 1)))).trace ∧
      batch.filter Stmt.onCurrent =
        [.updateCurrentWorkflowExecution
          { current_run_id := "r2", execution_state := [1], execution_state_encoding := "Proto3"
            workflow_last_write_version := 0, workflow_state := 1 } exCurrentKey "r1"]) ∧
    (UpdateWorkflowExecution exSerializer (storeSession (exStore 2 0))
      (exUpdate UpdateWorkflowModeUpdateCurrent 2 (some (exSnapshot "r2" 1 1)))).err = none ∧
    (UpdateWorkflowExecution exSerializer (storeSession (exStore 3 99))
      (exUpdate UpdateWorkflowModeUpdateCurrent 2 (some (exSnapshot "r2" 1 1)))).err = none := by
  refine ⟨rfl,
    ⟨[Stmt.updateCurrentWorkflowExecution
        { current_run_id := "r2", execution_state := [1], execution_state_encoding := "Proto3"
          workflow_last_write_version := 0, workflow_state := 1 } exCurrentKey "r1"] ++
      mutationStmts 1 (exMutation "r1" 2) ++ snapshotAsNewStmts 1 (exSnapshot "r2" 1 1) ++
      [leaseStmt 5 1], by decide, by decide⟩, by decide, by decide⟩

/-- C6, failing input: the store holds the current-execution record of workflow "w"
with run id "r1" and an empty execution_state. The record exists and its run id is the
target "r1", yet assertNotCurrentExecution returns no CurrentWorkflowConflict: the read
of the record panics on the nil state blob, and so do assertNotCurrentExecution and the
bypass update of "r1", after the one read and without a batch. With target "r2", a run
the record does not name, the call panics as well instead of returning no error. On the
store whose record has the state blob [1] the same calls return the conflict and no
error. -/
theorem assertNotCurrentExecution_panics_on_empty_state :
    exEmptyStateStore.current exCurrentKey =
      some { current_run_id := "r1", execution_state := [], execution_state_encoding := "Proto3"
             workflow_last_write_version := 7, workflow_state := 2 } ∧
    (GetCurrentExecution exSerializer (storeSession exEmptyStateStore) ⟨1, "n", "w"⟩).1 =
      .panic "executionStateBlob" ∧
    (assertNotCurrentExecution exSerializer (storeSession exEmptyStateStore) 1 "n" "w" "r1"
      none).1 = some (.panic "executionStateBlob") ∧
    (assertNotCurrentExecution exSerializer (storeSession exEmptyStateStore) 1 "n" "w" "r2"
      none).1 = some (.panic "executionStateBlob") ∧
    UpdateWorkflowExecution exSerializer (storeSession exEmptyStateStore)
        (exUpdate UpdateWorkflowModeBypassCurrent 2 none) =
      { err := some (.panic "executionStateBlob")
        trace := [.query (.getCurrentExecution 1 "n" "w")] } ∧
    (assertNotCurrentExecution exSerializer (storeSession (exStore 2 7)) 1 "n" "w" "r1"
      none).1 =
      some (.currentWorkflowConditionFailed
        { Msg := "Assertion on current record failed. Current run ID is not expected: r1"
          RequestIDs := [], RunID := "", State := 0, Status := 0, LastWriteVersion := 0
          StartTime := none }) ∧
    (assertNotCurrentExecution exSerializer (storeSession (exStore 2 7)) 1 "n" "w" "r2"
      none).1 = none := by
  decide

/-- C7, counterexample: the stored current record is (run "r1", state 2, last write
version 7) and the target run is "r1"; the CurrentWorkflowConflict returned by
assertNotCurrentExecution has RunID "", state 0 and last write version 0. -/
theorem current_conflict_stored_values_counterexample :
    (exStore 2 7).current exCurrentKey =
      some { current_run_id := "r1", execution_state := [1], execution_state_encoding := "Proto3"
             workflow_last_write_version := 7, workflow_state := 2 } ∧
    (assertNotCurrentExecution exSerializer (storeSession (exStore 2 7)) 1 "n" "w" "r1" none).1 =
      some (.currentWorkflowConditionFailed
        { Msg := "Assertion on current record failed. Current run ID is not expected: r1"
          RequestIDs := [], RunID := "", State := 0, Status := 0, LastWriteVersion := 0
          StartTime := none }) ∧
    ("" : String) ≠ "r1" ∧ (0 : Int) ≠ 2 ∧ (0 : Int) ≠ 7 := by
  decide

/-- C7 (amended): a CurrentWorkflowConflict returned by a diagnosis check
(validateCurrentWorkflowNotExist, validateCurrentWorkflowRunId,
validateCurrentWorkflowMvcc) carries the run id, the workflow state and the last write
version of the current-execution record that the check read. The CurrentWorkflowConflict
returned by assertNotCurrentExecution has an empty RunID, state UNSPECIFIED and last
write version 0; the stored current run id, which is then the target run id, appears in
its message only. -/
theorem current_conflict_values (ser : Serializer) (d : Session) :
    (∀ (c : Check) (e : CurrentWorkflowConditionFailedError),
      runCheck d c = some (.currentWorkflowConditionFailed e) →
      ∃ shardID namespaceID workflowID rec,
        c.query = .getCurrentExecutionConflict shardID namespaceID workflowID ∧
        d.scanCurrentConflict shardID namespaceID workflowID = .ok rec ∧
        e.RunID = rec.current_run_id ∧ e.State = rec.workflow_state ∧
        e.LastWriteVersion = rec.workflow_last_write_version) ∧
    (∀ (shardID : Int) (namespaceID workflowID runID : String) (startTime : Option Int)
        (e : CurrentWorkflowConditionFailedError),
      (assertNotCurrentExecution ser d shardID namespaceID workflowID runID startTime).1 =
        some (.currentWorkflowConditionFailed e) →
      e.RunID = "" ∧ e.State = WORKFLOW_EXECUTION_STATE_UNSPECIFIED ∧ e.LastWriteVersion = 0 ∧
      e.Msg = "Assertion on current record failed. Current run ID is not expected: " ++ runID ∧
      ∃ row, d.mapScan (.getCurrentExecution shardID namespaceID workflowID) = .ok row ∧
        UUIDToString (row.get "current_run_id") = runID) := by
  constructor
  · intro c e h
    cases c with
    | currentWorkflowNotExist sh ns wf =>
      simp only [runCheck] at h
      cases hs : d.scanCurrentConflict sh ns wf with
      | error err => simp [hs] at h
      | ok rec =>
        simp only [hs, exportCurrentWorkflowConflictError, Option.some.injEq,
          Error.currentWorkflowConditionFailed.injEq] at h
        subst h
        exact ⟨sh, ns, wf, rec, rfl, hs, rfl, rfl, rfl⟩
    | currentWorkflowRunId sh ns wf run =>
      simp only [runCheck] at h
      cases hs : d.scanCurrentConflict sh ns wf with
      | error err => simp [hs] at h
      | ok rec =>
        simp only [hs] at h
        split_ifs at h
        simp only [exportCurrentWorkflowConflictError, Option.some.injEq,
          Error.currentWorkflowConditionFailed.injEq] at h
        subst h
        exact ⟨sh, ns, wf, rec, rfl, hs, rfl, rfl, rfl⟩
    | currentWorkflowMvcc sh ns wf lwv state run =>
      simp only [runCheck] at h
      cases hs : d.scanCurrentConflict sh ns wf with
      | error err => simp [hs] at h
      | ok rec =>
        simp only [hs] at h
        split_ifs at h
        simp only [exportCurrentWorkflowConflictError, Option.some.injEq,
          Error.currentWorkflowConditionFailed.injEq] at h
        subst h
        exact ⟨sh, ns, wf, rec, rfl, hs, rfl, rfl, rfl⟩
    | ownership sh range =>
      simp only [runCheck] at h
      cases hs : d.scanLease sh with
      | error err => simp [hs] at h
      | ok rec =>
        simp only [hs, extractShardOwnershipLostError] at h
        split_ifs at h
        simp at h
    | execution sh ns wf cond =>
      simp only [runCheck] at h
      cases hs : d.scanExecutionConflict sh ns wf cond.runID with
      | error err =>
        simp only [hs] at h
        split_ifs at h <;> simp at h
      | ok rec =>
        simp only [hs, extractWorkflowConflictError] at h
        split_ifs at h
        simp at h
  · intro shardID namespaceID workflowID runID startTime e h
    rw [assertNotCurrentExecution_eq] at h
    have hc := GetCurrentExecution_cases ser d ⟨shardID, namespaceID, workflowID⟩
    simp only at hc
    rcases hc with ⟨row, state, hscan, hg⟩ | ⟨hscan, msg, hg⟩ |
      ⟨hscan, ⟨e', hg⟩ | ⟨msg, hg⟩ | ⟨msg, hg⟩ | ⟨site, hg⟩⟩
    · rw [hg] at h
      simp only at h
      split_ifs at h with hrun
      simp only [Option.some.injEq, Error.currentWorkflowConditionFailed.injEq] at h
      subst h
      exact ⟨rfl, rfl, rfl, by rw [hrun], row, hscan, hrun⟩
    · rw [hg] at h; simp at h
    · rw [hg] at h; simp at h
    · rw [hg] at h; simp at h
    · rw [hg] at h; simp at h
    · rw [hg] at h; simp at h

/-- C7, instance: the existence check on the store whose current record is (run "r1",
state 2, last write version 7) reports a conflict that carries those values. -/
theorem current_conflict_values_witness :
    runCheck (storeSession (exStore 2 7)) (.currentWorkflowNotExist 1 "n" "w") =
      some (.currentWorkflowConditionFailed
        { Msg := "Current workflow record conflict. Current run ID: r1", RequestIDs := []
          RunID := "r1", State := 2, Status := 0, LastWriteVersion := 7, StartTime := none }) ∧
    ∃ shardID namespaceID workflowID rec,
      (Check.currentWorkflowNotExist 1 "n" "w").query =
        .getCurrentExecutionConflict shardID namespaceID workflowID ∧
      (storeSession (exStore 2 7)).scanCurrentConflict shardID namespaceID workflowID = .ok rec ∧
      "r1" = rec.current_run_id ∧ (2 : Int) = rec.workflow_state ∧
      (7 : Int) = rec.workflow_last_write_version :=
  ⟨by decide,
   (current_conflict_values exSerializer (storeSession (exStore 2 7))).1
      (.currentWorkflowNotExist 1 "n" "w")
      { Msg := "Current workflow record conflict. Current run ID: r1", RequestIDs := []
        RunID := "r1", State := 2, Status := 0, LastWriteVersion := 7, StartTime := none }
      (by decide)⟩

/-- C8: every request that passes the mode switch executes a batch, and the batch
that CreateWorkflowExecution, UpdateWorkflowExecution, ConflictResolveWorkflowExecution
or SetWorkflowExecution executes holds exactly one statement on the shards table. It is
the last statement, and it sets range_id to request.RangeID for shard request.ShardID
on the condition that range_id already is request.RangeID; a store that accepts the
batch had that range id and has the same range id, on every shard, after it. -/
theorem one_lease_statement_last (ser : Serializer) (d : Session) (op : Op) :
    (∀ txn v, (op.switch ser d).1 = .ok (txn, v) →
      ∃ batch, Event.exec batch ∈ (op.run ser d).trace) ∧
    (∀ batch, Event.exec batch ∈ (op.run ser d).trace →
      (∃ init, batch = init ++ [.updateLease op.RangeID op.ShardID op.RangeID] ∧
        ∀ s ∈ init, s.isLease = false) ∧
      batch.filter Stmt.isLease = [.updateLease op.RangeID op.ShardID op.RangeID] ∧
      batch.getLast? = some (.updateLease op.RangeID op.ShardID op.RangeID) ∧
      ∀ st : Store, accepts st batch = true →
        st.rangeID op.ShardID = some op.RangeID ∧
        ∀ shardID, (execBatch st batch).2.rangeID shardID = st.rangeID shardID) := by
  constructor
  · intro txn v hsw
    refine ⟨txn ++ op.body ++ [leaseStmt op.RangeID op.ShardID], ?_⟩
    rw [Op.exec_mem_trace]
    simp only [Op.batch, hsw, Op.txn_eq]
  · intro batch hmem
    have hb := (Op.exec_mem_trace ser d op batch).mp hmem
    obtain ⟨init, hinit, hno⟩ := Op.batch_init ser d op batch hb
    have hfilter : init.filter Stmt.isLease = [] :=
      List.filter_eq_nil_iff.mpr (fun s hs => by simp [hno s hs])
    refine ⟨⟨init, hinit, hno⟩, ?_, ?_, ?_⟩
    · rw [hinit, List.filter_append, hfilter]
      rfl
    · rw [hinit, List.getLast?_append]
      rfl
    · intro st hacc
      have hall : ∀ s ∈ batch, s.holds st = true := by
        simpa [accepts, List.all_eq_true] using hacc
      have hlease : st.rangeID op.ShardID = some op.RangeID := by
        have := hall (.updateLease op.RangeID op.ShardID op.RangeID) (by rw [hinit]; simp)
        simpa [Stmt.holds] using this
      refine ⟨hlease, fun shardID => ?_⟩
      rw [hinit] at hacc
      simp only [execBatch, hacc, if_true, hinit, List.foldl_append, List.foldl, Stmt.apply,
        Store.rangeID, foldl_apply_shards init st hno]
      simp only [Store.rangeID] at hlease
      by_cases hs : shardID = op.ShardID
      · subst hs
        rw [lookup_put_self]
        exact hlease.symm
      · rw [lookup_put_of_ne _ _ _ _ hs]

/-- C8, instance: the update of run "r1" passes the switch and executes a batch that
ends with the lease statement of shard 1 at range id 5. -/
theorem one_lease_statement_last_witness :
    ∃ batch, Event.exec batch ∈
      (Op.run exSerializer (storeSession (exStore 2 0))
        (.update (exUpdate UpdateWorkflowModeUpdateCurrent 2 none))).trace :=
  (one_lease_statement_last exSerializer (storeSession (exStore 2 0))
    (.update (exUpdate UpdateWorkflowModeUpdateCurrent 2 none))).1
    [.updateCurrentWorkflowExecution
      { current_run_id := "r1", execution_state := [1], execution_state_encoding := "Proto3"
        workflow_last_write_version := 0, workflow_state := 2 } exCurrentKey "r1"]
    [.currentWorkflowRunId 1 "n" "w" "r1"] (by decide)

/-- C9: decodeConflict never returns nil; when every check handed to Validate (the
checks already in the validator, the lease check and the per-run checks) reports no
violation, it returns the generic ConditionFailedError whose message names the shard
id, the namespace id and the workflow id it was given. -/
theorem decodeConflict_never_nil (d : Session) (validator : List Check) (shardID : Int)
    (namespaceID workflowID : String) (rangeID : Int) (conds : List executionCASCondition) :
    (decodeConflict d validator shardID namespaceID workflowID rangeID conds).1 ≠ none ∧
    ((∀ c ∈ decodeConflictChecks validator shardID namespaceID workflowID rangeID conds,
        runCheck d c = none) →
      (decodeConflict d validator shardID namespaceID workflowID rangeID conds).1 =
        some (.conditionFailed ("WorkflowExecution conflict: Shard:" ++ toString shardID ++
          ", Namespace:" ++ namespaceID ++ ", WorkflowID:" ++ workflowID))) := by
  refine ⟨decodeConflict_ne_none d validator shardID namespaceID workflowID rangeID conds,
    fun h => ?_⟩
  rw [decodeConflict_err, Validate_none d _ h]

/-- C9, instance: on the store at range id 5 with run "r1" at record version 1, the
diagnosis for those values finds no violation and returns the generic conflict. -/
theorem decodeConflict_never_nil_witness :
    (decodeConflict (storeSession (exStore 2 0)) [.currentWorkflowRunId 1 "n" "w" "r1"] 1 "n" "w"
        5 [{ runID := "r1", dbVersion := 1, nextEventID := 1 }]).1 =
      some (.conditionFailed "WorkflowExecution conflict: Shard:1, Namespace:n, WorkflowID:w") :=
  (decodeConflict_never_nil (storeSession (exStore 2 0)) [.currentWorkflowRunId 1 "n" "w" "r1"]
    1 "n" "w" 5 [{ runID := "r1", dbVersion := 1, nextEventID := 1 }]).2 (by decide)

/-- C10: in the four operations a diagnosis read is issued exactly when the batch was
executed and its execution failed with an error classified as a conditional-write
rejection. When the batch succeeds the operation returns nil; when it fails with any
other error the operation returns that error as it is and issues no diagnosis read;
when it fails with a rejection the operation returns what decodeConflict returns. -/
theorem diagnosis_only_on_rejection (ser : Serializer) (d : Session) (op : Op) :
    ((∃ ev ∈ (op.run ser d).trace, ev.isDiagnosisRead = true) ↔
      ∃ batch err, Event.exec batch ∈ (op.run ser d).trace ∧ d.exec batch = some err ∧
        ConflictError err = true) ∧
    (∀ batch, Event.exec batch ∈ (op.run ser d).trace →
      (d.exec batch = none → (op.run ser d).err = none) ∧
      (∀ err, d.exec batch = some err → ConflictError err = false →
        (op.run ser d).err = some (.driver err) ∧
        ∀ ev ∈ (op.run ser d).trace, ev.isDiagnosisRead = false) ∧
      (∀ err, d.exec batch = some err → ConflictError err = true →
        (op.run ser d).err = (decodeConflict d (op.registered ser d) op.ShardID op.NamespaceID
          op.WorkflowID op.RangeID op.conditions).1)) := by
  have hsw := Op.switch_reads ser d op
  cases hb : op.batch ser d with
  | none =>
    have hnone : ∀ batch, ¬ Event.exec batch ∈ (op.run ser d).trace := by
      intro batch hmem
      rw [Op.exec_mem_trace, hb] at hmem
      cases hmem
    refine ⟨⟨?_, ?_⟩, fun batch hmem => absurd hmem (hnone batch)⟩
    · rintro ⟨ev, hev, hd⟩
      rw [(Op.run_of_no_batch ser d op hb).1] at hev
      rw [(hsw ev hev).2] at hd
      cases hd
    · rintro ⟨batch, err, hmem, -, -⟩
      exact absurd hmem (hnone batch)
  | some b =>
    have hrun := Op.run_of_batch ser d op b hb
    obtain ⟨reads, ht, hr, hne⟩ := execTxn_trace d b (op.registered ser d) op.ShardID
      op.NamespaceID op.WorkflowID op.RangeID op.conditions
    have htrace : (op.run ser d).trace = (op.switch ser d).2 ++ .exec b :: reads := by
      rw [hrun, ht]
    have hbmem : Event.exec b ∈ (op.run ser d).trace := (Op.exec_mem_trace ser d op b).mpr hb
    refine ⟨⟨?_, ?_⟩, fun batch hmem => ?_⟩
    · rintro ⟨ev, hev, hd⟩
      rw [htrace] at hev
      simp only [List.mem_append, List.mem_cons] at hev
      rcases hev with h | h | h
      · rw [(hsw ev h).2] at hd
        cases hd
      · subst h
        cases hd
      · have hreads : reads ≠ [] := by
          intro hnil
          rw [hnil] at h
          cases h
        obtain ⟨err, he, hc⟩ := hne.mp hreads
        exact ⟨b, err, hbmem, he, hc⟩
    · rintro ⟨batch, err, hmem, he, hc⟩
      have hbb : batch = b := by
        have := (Op.exec_mem_trace ser d op batch).mp hmem
        rw [hb] at this
        exact (Option.some.inj this).symm
      subst hbb
      have hreads : reads ≠ [] := hne.mpr ⟨err, he, hc⟩
      obtain ⟨ev, rest, hcons⟩ := List.exists_cons_of_ne_nil hreads
      refine ⟨ev, ?_, (hr ev (by rw [hcons]; exact List.mem_cons_self ev rest)).1⟩
      rw [htrace, hcons]
      simp
    · have hbb : batch = b := by
        have := (Op.exec_mem_trace ser d op batch).mp hmem
        rw [hb] at this
        exact (Option.some.inj this).symm
      subst hbb
      refine ⟨fun he => ?_, fun err he hc => ?_, fun err he hc => ?_⟩
      · rw [hrun]
        simp only [execTxn, he]
      · have hreads : reads = [] := by
          by_contra hcon
          obtain ⟨err', he', hc'⟩ := hne.mp hcon
          rw [he] at he'
          rw [← Option.some.inj he', hc] at hc'
          cases hc'
        refine ⟨by rw [hrun]; simp only [execTxn, he, hc, Bool.false_eq_true, if_false], ?_⟩
        intro ev hev
        rw [htrace, hreads] at hev
        simp only [List.mem_append, List.mem_singleton] at hev
        rcases hev with h | h
        · exact (hsw ev h).2
        · subst h; rfl
      · rw [hrun, execTxn_conflict _ _ _ _ _ _ _ _ _ he hc]

/-- C10, instance: on a session whose batch execution times out, SetWorkflowExecution
returns the timeout as it is and its only session call is the batch. -/
theorem diagnosis_only_on_rejection_witness :
    (Op.run exSerializer exTimeoutSession (.set exSet)).err = some (.driver (.io "timeout")) ∧
    ∀ ev ∈ (Op.run exSerializer exTimeoutSession (.set exSet)).trace,
      ev.isDiagnosisRead = false :=
  ((diagnosis_only_on_rejection exSerializer exTimeoutSession (.set exSet)).2
    (snapshotAsResetStmts 1 (exSnapshot "r1" 2 2) ++ [leaseStmt 5 1]) (by decide)).2.1
    (.io "timeout") (by decide) (by decide)
/-- C11, counterexample: on the store that holds runs "r1" and "r2", an update of "r1"
that carries the new-run snapshot "r2" executes a batch that inserts the execution
record of "r2"; the batch is rejected, and the diagnosis holds one per-run check, for
"r1": the execution record of "r2" is never read. -/
theorem per_run_check_new_run_counterexample :
    (exUpdate UpdateWorkflowModeUpdateCurrent 2 (some (exSnapshot "r2" 1 1))).NewWorkflowSnapshot
      = some (exSnapshot "r2" 1 1) ∧
    (∃ batch, Event.exec batch ∈ (UpdateWorkflowExecution exSerializer
        (storeSession exStoreTwoRuns)
        (exUpdate UpdateWorkflowModeUpdateCurrent 2 (some (exSnapshot "r2" 1 1)))).trace ∧
      Stmt.createWorkflowExecution (exKey "r2") (snapshotValues (exSnapshot "r2" 1 1)) ∈ batch ∧
      (storeSession exStoreTwoRuns).exec batch = some (.conflict "conditional write rejected")) ∧
    (decodeConflictChecks
        (Op.registered exSerializer (storeSession exStoreTwoRuns)
          (.update (exUpdate UpdateWorkflowModeUpdateCurrent 2 (some (exSnapshot "r2" 1 1)))))
        1 "n" "w" 5
        (Op.conditions
          (.update (exUpdate UpdateWorkflowModeUpdateCurrent 2 (some (exSnapshot "r2" 1 1)))))
      ).filter Check.isExecution =
      [.execution 1 "n" "w" { runID := "r1", dbVersion := 1, nextEventID := 1 }] ∧
    Event.query (.getWorkflowExecutionConflicts 1 "n" "w" "r2") ∉
      (UpdateWorkflowExecution exSerializer (storeSession exStoreTwoRuns)
        (exUpdate UpdateWorkflowModeUpdateCurrent 2 (some (exSnapshot "r2" 1 1)))).trace := by
  refine ⟨rfl,
    ⟨[Stmt.updateCurrentWorkflowExecution
        { current_run_id := "r2", execution_state := [1], execution_state_encoding := "Proto3"
          workflow_last_write_version := 0, workflow_state := 1 } exCurrentKey "r1"] ++
      mutationStmts 1 (exMutation "r1" 2) ++ snapshotAsNewStmts 1 (exSnapshot "r2" 1 1) ++
      [leaseStmt 5 1], by decide, by decide, by decide⟩, by decide, by decide⟩

/-- C11 (amended): after a rejected batch the diagnosis of UpdateWorkflowExecution holds
exactly one per-run execution check, for the run id in the execution state of the
updated run, conditioned on DBRecordVersion - 1; the diagnosis of
ConflictResolveWorkflowExecution holds one for the reset run and, when the request
carries a current-run mutation, one for that run after it. Neither holds a check for
the new-run snapshot. -/
theorem per_run_checks_registered (ser : Serializer) (d : Session) :
    (∀ (request : InternalUpdateWorkflowExecutionRequest) (batch : List Stmt)
        (err : DriverError),
      Event.exec batch ∈ (UpdateWorkflowExecution ser d request).trace →
      d.exec batch = some err → ConflictError err = true →
      (UpdateWorkflowExecution ser d request).err =
        (decodeConflict d (Op.registered ser d (.update request)) request.ShardID
          request.UpdateWorkflowMutation.NamespaceID request.UpdateWorkflowMutation.WorkflowID
          request.RangeID (Op.conditions (.update request))).1 ∧
      (decodeConflictChecks (Op.registered ser d (.update request)) request.ShardID
          request.UpdateWorkflowMutation.NamespaceID request.UpdateWorkflowMutation.WorkflowID
          request.RangeID (Op.conditions (.update request))).filter Check.isExecution =
        [.execution request.ShardID request.UpdateWorkflowMutation.NamespaceID
          request.UpdateWorkflowMutation.WorkflowID
          { runID := request.UpdateWorkflowMutation.ExecutionState.RunId
            dbVersion := wrapInt64 (request.UpdateWorkflowMutation.DBRecordVersion - 1)
            nextEventID := request.UpdateWorkflowMutation.Condition }]) ∧
    (∀ (request : InternalConflictResolveWorkflowExecutionRequest) (batch : List Stmt)
        (err : DriverError),
      Event.exec batch ∈ (ConflictResolveWorkflowExecution ser d request).trace →
      d.exec batch = some err → ConflictError err = true →
      (ConflictResolveWorkflowExecution ser d request).err =
        (decodeConflict d (Op.registered ser d (.conflictResolve request)) request.ShardID
          request.ResetWorkflowSnapshot.NamespaceID request.ResetWorkflowSnapshot.WorkflowID
          request.RangeID (Op.conditions (.conflictResolve request))).1 ∧
      (decodeConflictChecks (Op.registered ser d (.conflictResolve request)) request.ShardID
          request.ResetWorkflowSnapshot.NamespaceID request.ResetWorkflowSnapshot.WorkflowID
          request.RangeID (Op.conditions (.conflictResolve request))).filter Check.isExecution =
        .execution request.ShardID request.ResetWorkflowSnapshot.NamespaceID
          request.ResetWorkflowSnapshot.WorkflowID
          { runID := request.ResetWorkflowSnapshot.RunID
            dbVersion := wrapInt64 (request.ResetWorkflowSnapshot.DBRecordVersion - 1)
            nextEventID := request.ResetWorkflowSnapshot.Condition } ::
        (match request.CurrentWorkflowMutation with
         | some currentWorkflow =>
           [.execution request.ShardID request.ResetWorkflowSnapshot.NamespaceID
              request.ResetWorkflowSnapshot.WorkflowID
              { runID := currentWorkflow.RunID
                dbVersion := wrapInt64 (currentWorkflow.DBRecordVersion - 1)
                nextEventID := currentWorkflow.Condition }]
         | none => [])) := by
  constructor
  · intro request batch err hmem hexec hconf
    refine ⟨Op.err_of_rejection ser d (.update request) batch err hmem hexec hconf, ?_⟩
    rw [decodeConflictChecks_filter_isExecution]
    rfl
  · intro request batch err hmem hexec hconf
    refine ⟨Op.err_of_rejection ser d (.conflictResolve request) batch err hmem hexec hconf, ?_⟩
    rw [decodeConflictChecks_filter_isExecution]
    simp only [Op.conditions, conflictResolveCASConditions]
    cases request.CurrentWorkflowMutation <;> rfl

/-- C11, instance: the rejected update of the counterexample returns what the
diagnosis with the one check for "r1" returns. -/
theorem per_run_checks_registered_witness :
    (UpdateWorkflowExecution exSerializer (storeSession exStoreTwoRuns)
        (exUpdate UpdateWorkflowModeUpdateCurrent 2 (some (exSnapshot "r2" 1 1)))).err =
      some (.conditionFailed "WorkflowExecution conflict: Shard:1, Namespace:n, WorkflowID:w") :=
  ((per_run_checks_registered exSerializer (storeSession exStoreTwoRuns)).1
    (exUpdate UpdateWorkflowModeUpdateCurrent 2 (some (exSnapshot "r2" 1 1)))
    ([Stmt.updateCurrentWorkflowExecution
        { current_run_id := "r2", execution_state := [1], execution_state_encoding := "Proto3"
          workflow_last_write_version := 0, workflow_state := 1 } exCurrentKey "r1"] ++
      mutationStmts 1 (exMutation "r1" 2) ++ snapshotAsNewStmts 1 (exSnapshot "r2" 1 1) ++
      [leaseStmt 5 1])
    (.conflict "conditional write rejected") (by decide) (by decide) (by decide)).1.trans
    (by decide)
/-- C12, counterexample: the store holds no run "r9"; the read of its execution
record reports not-found, and the per-run check returns a ConditionFailedError, which
is no NotFound error. -/
theorem per_run_check_absent_run_counterexample :
    (storeSession exStoreTwoRuns).scanExecutionConflict 1 "n" "w" "r9" = .error .notFound ∧
    runCheck (storeSession exStoreTwoRuns)
        (.execution 1 "n" "w" { runID := "r9", dbVersion := 1, nextEventID := 1 }) =
      some (.conditionFailed "Workflow does not exist: w") ∧
    ∀ msg, runCheck (storeSession exStoreTwoRuns)
        (.execution 1 "n" "w" { runID := "r9", dbVersion := 1, nextEventID := 1 }) ≠
      some (.notFound msg) := by
  refine ⟨by decide, by decide, fun msg h => ?_⟩
  have h2 : runCheck (storeSession exStoreTwoRuns)
      (.execution 1 "n" "w" { runID := "r9", dbVersion := 1, nextEventID := 1 }) =
      some (.conditionFailed "Workflow does not exist: w") := by decide
  rw [h2] at h
  cases h

/-- C12 (amended): in a per-run execution check of decodeConflict, when the read of the
execution record of the run reports that the row is absent, the check returns a
ConditionFailedError whose message says that the workflow does not exist and names the
workflow id. -/
theorem per_run_check_absent_run (d : Session) (shardID : Int) (namespaceID workflowID : String)
    (condition : executionCASCondition) (err : DriverError)
    (hread : d.scanExecutionConflict shardID namespaceID workflowID condition.runID = .error err)
    (hnf : IsNotFoundError err = true) :
    runCheck d (.execution shardID namespaceID workflowID condition) =
      some (.conditionFailed ("Workflow does not exist: " ++ workflowID)) := by
  simp only [runCheck, hread, hnf, if_true]

/-- C12, instance: the check for the absent run "r9". -/
theorem per_run_check_absent_run_witness :
    runCheck (storeSession exStoreTwoRuns)
        (.execution 1 "n" "w" { runID := "r9", dbVersion := 1, nextEventID := 1 }) =
      some (.conditionFailed "Workflow does not exist: w") :=
  per_run_check_absent_run (storeSession exStoreTwoRuns) 1 "n" "w"
    { runID := "r9", dbVersion := 1, nextEventID := 1 } .notFound (by decide) (by decide)

/-- C13, failing input: the read of the current-execution record fails with a
transport error, which is neither success nor not-found, and the existence check
(the closure of validateCurrentWorkflowNotExist) returns nil instead of that error;
on the same session the run-id check returns the error of its read. -/
theorem existence_check_drops_read_error :
    exTimeoutSession.scanCurrentConflict 1 "n" "w" = .error (.io "timeout") ∧
    IsNotFoundError (.io "timeout") = false ∧
    runCheck exTimeoutSession (.currentWorkflowNotExist 1 "n" "w") = none ∧
    runCheck exTimeoutSession (.currentWorkflowRunId 1 "n" "w" "r1") =
      some (.driver (.io "timeout")) := by
  decide

/-- C14: on a successful read of the current-execution record, the existence check
reports the CurrentWorkflowConflict built from the record, and it reports nothing when
the read says not-found; the run-id check reports nothing exactly when the stored
current_run_id is the expected run id; the triple check reports nothing exactly when
the stored run id, last write version and workflow state are the expected ones; a
violation of either is the CurrentWorkflowConflict built from the stored record, which
carries its run id, state and last write version. -/
theorem current_checks_decide (d : Session) (shardID : Int) (namespaceID workflowID : String) :
    (∀ rec, d.scanCurrentConflict shardID namespaceID workflowID = .ok rec →
      runCheck d (.currentWorkflowNotExist shardID namespaceID workflowID) =
        some (exportCurrentWorkflowConflictError rec)) ∧
    (d.scanCurrentConflict shardID namespaceID workflowID = .error .notFound →
      runCheck d (.currentWorkflowNotExist shardID namespaceID workflowID) = none) ∧
    (∀ rec runID, d.scanCurrentConflict shardID namespaceID workflowID = .ok rec →
      (runCheck d (.currentWorkflowRunId shardID namespaceID workflowID runID) = none ↔
        rec.current_run_id = runID) ∧
      (rec.current_run_id ≠ runID →
        runCheck d (.currentWorkflowRunId shardID namespaceID workflowID runID) =
          some (exportCurrentWorkflowConflictError rec))) ∧
    (∀ rec lastWriteVersion workflowState runID,
      d.scanCurrentConflict shardID namespaceID workflowID = .ok rec →
      (runCheck d (.currentWorkflowMvcc shardID namespaceID workflowID lastWriteVersion
          workflowState runID) = none ↔
        rec.current_run_id = runID ∧ rec.workflow_last_write_version = lastWriteVersion ∧
          rec.workflow_state = workflowState) ∧
      (¬ (rec.current_run_id = runID ∧ rec.workflow_last_write_version = lastWriteVersion ∧
          rec.workflow_state = workflowState) →
        runCheck d (.currentWorkflowMvcc shardID namespaceID workflowID lastWriteVersion
          workflowState runID) = some (exportCurrentWorkflowConflictError rec))) ∧
    (∀ rec : CurrentRecord, ∃ e,
      exportCurrentWorkflowConflictError rec = .currentWorkflowConditionFailed e ∧
      e.RunID = rec.current_run_id ∧ e.State = rec.workflow_state ∧
      e.LastWriteVersion = rec.workflow_last_write_version) := by
  refine ⟨fun rec h => ?_, fun h => ?_, fun rec runID h => ?_,
    fun rec lastWriteVersion workflowState runID h => ?_, fun rec => ⟨_, rfl, rfl, rfl, rfl⟩⟩
  · simp only [runCheck, h]
  · simp only [runCheck, h, IsNotFoundError, if_true]
  · by_cases hrun : runID = rec.current_run_id
    · subst hrun
      simp [runCheck, h]
    · have hrun' : ¬ rec.current_run_id = runID := fun e => hrun e.symm
      simp [runCheck, h, hrun, hrun']
  · by_cases hall : rec.current_run_id = runID ∧
        rec.workflow_last_write_version = lastWriteVersion ∧ rec.workflow_state = workflowState
    · obtain ⟨h1, h2, h3⟩ := hall
      subst h1 h2 h3
      simp [runCheck, h]
    · have hor : runID ≠ rec.current_run_id ∨
          lastWriteVersion ≠ rec.workflow_last_write_version ∨
          workflowState ≠ rec.workflow_state := by
        by_contra hcon
        simp only [not_or, ne_eq, not_not] at hcon
        exact hall ⟨hcon.1.symm, hcon.2.1.symm, hcon.2.2.symm⟩
      simp only [runCheck, h, if_pos hor, hall, not_false_eq_true, forall_true_left,
        and_true, iff_false]
      simp

/-- C14, instance: the stored record is (run "r1", last write version 0, state 2); the
run-id check for "r1" reports nothing and the triple check for the completed state
reports the conflict. -/
theorem current_checks_decide_witness :
    runCheck (storeSession (exStore 2 0)) (.currentWorkflowRunId 1 "n" "w" "r1") = none ∧
    runCheck (storeSession (exStore 2 0))
        (.currentWorkflowMvcc 1 "n" "w" 0 WORKFLOW_EXECUTION_STATE_COMPLETED "r1") =
      some (exportCurrentWorkflowConflictError
        { current_run_id := "r1", execution_state := [1], execution_state_encoding := "Proto3"
          workflow_last_write_version := 0, workflow_state := 2 }) :=
  ⟨((current_checks_decide (storeSession (exStore 2 0)) 1 "n" "w").2.2.1
      { current_run_id := "r1", execution_state := [1], execution_state_encoding := "Proto3"
        workflow_last_write_version := 0, workflow_state := 2 } "r1" (by decide)).1.mpr rfl,
   ((current_checks_decide (storeSession (exStore 2 0)) 1 "n" "w").2.2.2.1
      { current_run_id := "r1", execution_state := [1], execution_state_encoding := "Proto3"
        workflow_last_write_version := 0, workflow_state := 2 } 0
      WORKFLOW_EXECUTION_STATE_COMPLETED "r1" (by decide)).2 (by decide)⟩
/-- C15: a BrandNew CreateWorkflowExecution whose batch is rejected while a
current-execution record exists for (shardId, namespaceId, workflowId) returns the
CurrentWorkflowConflict built from that record, which reports the stored current run
id, whatever the lease read and the read of the execution record of the new run
answer: so also when the range id is unchanged and no execution record exists for the
run being created. On a store that holds such a record the batch is rejected, the
conflict is returned and nothing is written. -/
theorem brand_new_create_reports_current_run
    (request : InternalCreateWorkflowExecutionRequest)
    (hmode : request.Mode = CreateWorkflowModeBrandNew) :
    (∀ (d : Session) (batch : List Stmt) (err : DriverError) (rec : CurrentRecord),
      Event.exec batch ∈ (CreateWorkflowExecution d request).trace →
      d.exec batch = some err → ConflictError err = true →
      d.scanCurrentConflict request.ShardID request.NewWorkflowSnapshot.NamespaceID
        request.NewWorkflowSnapshot.WorkflowID = .ok rec →
      (CreateWorkflowExecution d request).err = some (exportCurrentWorkflowConflictError rec) ∧
      ∃ e, (CreateWorkflowExecution d request).err = some (.currentWorkflowConditionFailed e) ∧
        e.RunID = rec.current_run_id) ∧
    (∀ (st : Store) (rec : CurrentRecord),
      st.current { shardID := request.ShardID
                   namespaceID := request.NewWorkflowSnapshot.NamespaceID
                   workflowID := request.NewWorkflowSnapshot.WorkflowID } = some rec →
      (CreateWorkflowExecution (storeSession st) request).err =
        some (exportCurrentWorkflowConflictError rec) ∧
      storeAfter st (CreateWorkflowExecution (storeSession st) request) = st) := by
  have ser : Serializer :=
    { WorkflowExecutionStateToBlob := fun _ => .error ""
      WorkflowExecutionStateFromBlob := fun _ _ => .error "" }
  constructor
  · intro d batch err rec hmem hexec hconf hcur
    have h := create_brandNew_rejected d request batch err rec hmode hmem hexec hconf hcur
    exact ⟨h, _, h, rfl⟩
  · intro st rec hcur
    have hsw : (Op.switch ser (storeSession st) (.create request)).1 = .ok
        ([.createCurrentWorkflowExecution
            { shardID := request.ShardID
              namespaceID := request.NewWorkflowSnapshot.NamespaceID
              workflowID := request.NewWorkflowSnapshot.WorkflowID }
            { current_run_id := request.NewWorkflowSnapshot.RunID
              execution_state := request.NewWorkflowSnapshot.ExecutionStateBlob.Data
              execution_state_encoding :=
                request.NewWorkflowSnapshot.ExecutionStateBlob.EncodingName
              workflow_last_write_version := request.NewWorkflowSnapshot.LastWriteVersion
              workflow_state := request.NewWorkflowSnapshot.ExecutionState.State }],
         [.currentWorkflowNotExist request.ShardID request.NewWorkflowSnapshot.NamespaceID
            request.NewWorkflowSnapshot.WorkflowID]) := by
      simp only [Op.switch, createModeSwitch_brandNew request hmode]
    have hb : Op.batch ser (storeSession st) (.create request) = some
        ([.createCurrentWorkflowExecution
            { shardID := request.ShardID
              namespaceID := request.NewWorkflowSnapshot.NamespaceID
              workflowID := request.NewWorkflowSnapshot.WorkflowID }
            { current_run_id := request.NewWorkflowSnapshot.RunID
              execution_state := request.NewWorkflowSnapshot.ExecutionStateBlob.Data
              execution_state_encoding :=
                request.NewWorkflowSnapshot.ExecutionStateBlob.EncodingName
              workflow_last_write_version := request.NewWorkflowSnapshot.LastWriteVersion
              workflow_state := request.NewWorkflowSnapshot.ExecutionState.State }] ++
          (Op.create request).body ++
          [leaseStmt (Op.create request).RangeID (Op.create request).ShardID]) := by
      simp only [Op.batch, hsw, Op.txn_eq]
    have hmem := (Op.exec_mem_trace ser (storeSession st) (.create request) _).mpr hb
    simp only [Op.run] at hmem
    have hrej : (storeSession st).exec
        ([.createCurrentWorkflowExecution
            { shardID := request.ShardID
              namespaceID := request.NewWorkflowSnapshot.NamespaceID
              workflowID := request.NewWorkflowSnapshot.WorkflowID }
            { current_run_id := request.NewWorkflowSnapshot.RunID
              execution_state := request.NewWorkflowSnapshot.ExecutionStateBlob.Data
              execution_state_encoding :=
                request.NewWorkflowSnapshot.ExecutionStateBlob.EncodingName
              workflow_last_write_version := request.NewWorkflowSnapshot.LastWriteVersion
              workflow_state := request.NewWorkflowSnapshot.ExecutionState.State }] ++
          (Op.create request).body ++
          [leaseStmt (Op.create request).RangeID (Op.create request).ShardID]) =
        some (.conflict "conditional write rejected") := by
      rw [storeSession_exec]
      simp [accepts, Stmt.holds, hcur]
    have hscan : (storeSession st).scanCurrentConflict request.ShardID
        request.NewWorkflowSnapshot.NamespaceID request.NewWorkflowSnapshot.WorkflowID =
        .ok rec := by
      simp only [storeSession, hcur]
    have herr := create_brandNew_rejected (storeSession st) request _ _ rec hmode hmem hrej rfl
      hscan
    refine ⟨herr, ?_⟩
    have hne : (CreateWorkflowExecution (storeSession st) request).err ≠ none := by
      rw [herr]
      simp
    exact (Op.storeAfter_run ser st (.create request)).2 hne

/-- C15, instance: on the store with shard 1 at range id 5 and no workflow, the
BrandNew create of run "r1" succeeds; after it the BrandNew create of run "r2" for the
same workflow id returns the CurrentWorkflowConflict whose RunID is "r1", and no
execution record exists for "r2". -/
theorem brand_new_create_reports_current_run_witness :
    (exCreate "r2" 5 CreateWorkflowModeBrandNew).Mode = CreateWorkflowModeBrandNew ∧
    (CreateWorkflowExecution (storeSession exEmptyStore)
      (exCreate "r1" 5 CreateWorkflowModeBrandNew)).err = none ∧
    (storeAfter exEmptyStore (CreateWorkflowExecution (storeSession exEmptyStore)
      (exCreate "r1" 5 CreateWorkflowModeBrandNew))).execution (exKey "r2") = none ∧
    (CreateWorkflowExecution
        (storeSession (storeAfter exEmptyStore (CreateWorkflowExecution
          (storeSession exEmptyStore) (exCreate "r1" 5 CreateWorkflowModeBrandNew))))
        (exCreate "r2" 5 CreateWorkflowModeBrandNew)).err =
      some (.currentWorkflowConditionFailed
        { Msg := "Current workflow record conflict. Current run ID: r1", RequestIDs := []
          RunID := "r1", State := 2, Status := 0, LastWriteVersion := 0, StartTime := none }) :=
  ⟨by decide, by decide, by decide,
   ((brand_new_create_reports_current_run (exCreate "r2" 5 CreateWorkflowModeBrandNew)
      (by decide)).2
      (storeAfter exEmptyStore (CreateWorkflowExecution (storeSession exEmptyStore)
        (exCreate "r1" 5 CreateWorkflowModeBrandNew)))
      { current_run_id := "r1", execution_state := [1], execution_state_encoding := "Proto3"
        workflow_last_write_version := 0, workflow_state := 2 }
      (by decide)).1⟩

/-- C16: `mutableStateFromRow` on the row whose `execution` column holds the string
"x" returns the PersistedTypeMismatch that names the column `execution` and carries
the full row, but the value it carries is the empty byte string, the zero value of the
failed assertion, and not the stored "x"; with a string stored under `next_event_id`
the error carries the integer 0, and with an absent `execution_state` the empty byte
string. -/
theorem mismatch_error_carries_zero_value :
    exDriftRow.get "execution" = some (.str "x") ∧
    mutableStateFromRow exDriftRow =
      .error { column := "execution", expected := "", actual := .bytes [], row := exDriftRow } ∧
    (Value.bytes [] ≠ .str "x") ∧
    mutableStateFromRow (("next_event_id", .str "7") :: exScalarRow.without "next_event_id") =
      .error { column := "next_event_id", expected := "", actual := .int64 0
               row := ("next_event_id", .str "7") :: exScalarRow.without "next_event_id" } ∧
    mutableStateFromRow (exScalarRow.without "execution_state") =
      .error { column := "execution_state", expected := "", actual := .bytes []
               row := exScalarRow.without "execution_state" } := by
  decide

/-- C17: on the page that holds the row whose `execution` column is a string,
`ListConcreteExecutions` returns the PersistedTypeMismatch itself, not an Unavailable
error, while `GetWorkflowExecution` on the same row and `GetCurrentExecution` on a row
without `execution_state` return Unavailable errors whose text holds the mismatch. -/
theorem list_returns_mismatch_unwrapped :
    (ListConcreteExecutions (exRowSession exDriftRow) ⟨1, 1, []⟩).1 =
      .error (.persistedTypeMismatch
        { column := "execution", expected := "", actual := .bytes [], row := exDriftRow }) ∧
    (GetWorkflowExecution (exRowSession exDriftRow) ⟨1, "n", "w", "r1"⟩).1 =
      .error (.unavailable
        "GetWorkflowExecution operation failed. Error: persisted type mismatch: column execution, expected ") ∧
    (GetCurrentExecution exSerializer (exRowSession (exDriftRow.without "execution_state"))
        ⟨1, "n", "w"⟩).1 =
      .error (.unavailable
        "GetCurrentExecution operation failed. Error: persisted type mismatch: column execution_state, expected ") := by
  decide

/-- C18: `GetWorkflowExecution` fails abnormally, and returns no error, on a row with
the five scalar columns and no sub-entity column (the assertion on `activity_map`), on
the full row without `checksum`, without `checksum_encoding`, without
`buffered_events_list` or without `signal_map_encoding`, and on the full row whose
`timer_map` holds a string. -/
theorem get_fails_abnormally_on_unchecked_columns :
    (GetWorkflowExecution (exRowSession exScalarRow) ⟨1, "n", "w", "r1"⟩).1 =
      .panic "activity_map" ∧
    (GetWorkflowExecution (exRowSession (exFullRow.without "checksum")) ⟨1, "n", "w", "r1"⟩).1 =
      .panic "checksum" ∧
    (GetWorkflowExecution (exRowSession (exFullRow.without "checksum_encoding"))
        ⟨1, "n", "w", "r1"⟩).1 = .panic "checksum_encoding" ∧
    (GetWorkflowExecution (exRowSession (exFullRow.without "buffered_events_list"))
        ⟨1, "n", "w", "r1"⟩).1 = .panic "buffered_events_list" ∧
    (GetWorkflowExecution (exRowSession (exFullRow.without "signal_map_encoding"))
        ⟨1, "n", "w", "r1"⟩).1 = .panic "signal_map_encoding" ∧
    (GetWorkflowExecution
        (exRowSession (("timer_map", .str "x") :: exFullRow.without "timer_map"))
        ⟨1, "n", "w", "r1"⟩).1 = .panic "timer_map" ∧
    (GetWorkflowExecution (exRowSession exFullRow) ⟨1, "n", "w", "r1"⟩).1 =
      .ok { State := exFullState, DBRecordVersion := 1 } := by
  decide

/-- C19: when the point read of `GetWorkflowExecution` answers a row that
`mutableStateFromRow` and the sub-entity statements decode to a state, the operation
returns that state with DBRecordVersion 0 and no error if the row has no
`db_record_version` column, and with DBRecordVersion v if the column holds the 64-bit
integer v. -/
theorem db_record_version_defaults_to_zero (d : Session)
    (request : GetWorkflowExecutionRequest) (row : Row)
    (state state' : InternalWorkflowMutableState)
    (hscan : d.mapScan (Query.getWorkflowExecution request.ShardID request.NamespaceID
      request.WorkflowID request.RunID) = .ok row)
    (hstate : mutableStateFromRow row = .ok state)
    (hsub : subEntitiesFromRow state row = .ok state') :
    (row.get "db_record_version" = none →
      (GetWorkflowExecution d request).1 = .ok { State := state', DBRecordVersion := 0 }) ∧
    (∀ v : Int, row.get "db_record_version" = some (.int64 v) →
      (GetWorkflowExecution d request).1 = .ok { State := state', DBRecordVersion := v }) := by
  constructor
  · intro hv
    simp only [GetWorkflowExecution, hscan, hstate, hsub, Result.andThen, dbVersionFromRow, hv]
  · intro v hv
    simp only [GetWorkflowExecution, hscan, hstate, hsub, Result.andThen, dbVersionFromRow, hv,
      assertType, Value.asInt64]

/-- C19, instance: the full row of a run stored at record version 1 decodes to the
state `exFullState`; read without its `db_record_version` column it gives
DBRecordVersion 0, and read from the store that holds it, DBRecordVersion 1. -/
theorem db_record_version_defaults_to_zero_witness :
    (exFullRow.without "db_record_version").get "db_record_version" = none ∧
    (GetWorkflowExecution (exRowSession (exFullRow.without "db_record_version"))
        ⟨1, "n", "w", "r1"⟩).1 = .ok { State := exFullState, DBRecordVersion := 0 } ∧
    exFullRow.get "db_record_version" = some (.int64 1) ∧
    (GetWorkflowExecution (storeSession exStoreTwoRuns) ⟨1, "n", "w", "r1"⟩).1 =
      .ok { State := exFullState, DBRecordVersion := 1 } :=
  ⟨by decide,
   (db_record_version_defaults_to_zero (exRowSession (exFullRow.without "db_record_version"))
      ⟨1, "n", "w", "r1"⟩ (exFullRow.without "db_record_version") exScalarState exFullState
      (by decide) (by decide) (by decide)).1 (by decide),
   by decide,
   (db_record_version_defaults_to_zero (storeSession exStoreTwoRuns)
      ⟨1, "n", "w", "r1"⟩ exFullRow exScalarState exFullState
      (by decide) (by decide) (by decide)).2 1 (by decide)⟩

/-- C20: when every row of the page that has an `execution` column decodes,
`ListConcreteExecutions` issues the one page read and returns a response whose states
are the decoded rows that have an `execution` column, in the order the iterator yields
them and none for a row without the column, and whose NextPageToken equals the page
state of the iterator, so that it is empty exactly when the page state is empty. -/
theorem list_returns_page_and_token (d : Session) (request : ListConcreteExecutionsRequest)
    (hdecode : ∀ row ∈ (d.iter (Query.listWorkflowExecution request.ShardID request.PageSize
        request.PageToken)).1,
      (row.get "execution").isSome = true → (mutableStateFromRow row).isOk = true) :
    ∃ resp, ListConcreteExecutions d request =
        (.ok resp, [.query (Query.listWorkflowExecution request.ShardID request.PageSize
          request.PageToken)]) ∧
      resp.States.map Except.ok =
        ((d.iter (Query.listWorkflowExecution request.ShardID request.PageSize
            request.PageToken)).1.filter
          (fun row => (row.get "execution").isSome)).map mutableStateFromRow ∧
      resp.NextPageToken = (d.iter (Query.listWorkflowExecution request.ShardID
        request.PageSize request.PageToken)).2 ∧
      (resp.NextPageToken = [] ↔ (d.iter (Query.listWorkflowExecution request.ShardID
        request.PageSize request.PageToken)).2 = []) := by
  obtain ⟨states, hs, hmap⟩ := listStates_ok _ hdecode
  have htoken : (if (d.iter (Query.listWorkflowExecution request.ShardID request.PageSize
        request.PageToken)).2.length > 0
      then (d.iter (Query.listWorkflowExecution request.ShardID request.PageSize
        request.PageToken)).2 else []) =
      (d.iter (Query.listWorkflowExecution request.ShardID request.PageSize
        request.PageToken)).2 := by
    cases (d.iter (Query.listWorkflowExecution request.ShardID request.PageSize
        request.PageToken)).2 with
    | nil => rfl
    | cons a l => simp
  refine ⟨{ States := states
            NextPageToken := (d.iter (Query.listWorkflowExecution request.ShardID
              request.PageSize request.PageToken)).2 }, ?_, hmap, rfl, Iff.rfl⟩
  simp only [ListConcreteExecutions, hs, htoken]

/-- C20, instance: with the two runs "r1" and "r2" stored in shard 1, the first page
of size 1 holds exactly one state and a non-empty token, and the page read with that
token holds the one remaining state and an empty token. -/
theorem list_returns_page_and_token_witness :
    (∃ resp, ListConcreteExecutions (storeSession exStoreTwoRuns) ⟨1, 1, []⟩ =
        (.ok resp, [.query (Query.listWorkflowExecution 1 1 [])]) ∧
      resp.States.map Except.ok =
        (((storeSession exStoreTwoRuns).iter (Query.listWorkflowExecution 1 1 [])).1.filter
          (fun row => (row.get "execution").isSome)).map mutableStateFromRow ∧
      resp.NextPageToken = ((storeSession exStoreTwoRuns).iter
        (Query.listWorkflowExecution 1 1 [])).2 ∧
      (resp.NextPageToken = [] ↔ ((storeSession exStoreTwoRuns).iter
        (Query.listWorkflowExecution 1 1 [])).2 = [])) ∧
    (ListConcreteExecutions (storeSession exStoreTwoRuns) ⟨1, 1, []⟩).1 =
      .ok { States := [exScalarState], NextPageToken := [1] } ∧
    (ListConcreteExecutions (storeSession exStoreTwoRuns) ⟨1, 1, [1]⟩).1 =
      .ok { States := [exScalarState], NextPageToken := [] } ∧
    (ListConcreteExecutions (storeSession exStoreTwoRuns) ⟨1, 2, []⟩).1 =
      .ok { States := [exScalarState, exScalarState], NextPageToken := [] } :=
  ⟨list_returns_page_and_token (storeSession exStoreTwoRuns) ⟨1, 1, []⟩ (by decide),
   by decide, by decide, by decide⟩

/-- C21: `parseHosts` returns, in the order of the input, the fields of the input
between commas, each trimmed of its surrounding white space, without the fields that
trim to the empty string (the fields are those of `strings.Split`, which joined by
commas give the input back). Every returned host is non-empty, holds no comma, and has
no white space at its start or at its end. An input made of commas and white space only
gives the empty list. Parsing the returned hosts joined by commas gives the same
list. -/
theorem parseHosts_fields (input : List Char) :
    parseHosts input =
      ((Split input ',').map TrimSpace).filter (fun host => decide (host ≠ [])) ∧
    Join (Split input ',') ',' = input ∧
    (∀ host ∈ parseHosts input,
      host ≠ [] ∧ ',' ∉ host ∧ (∀ c, host.head? = some c → IsSpace c = false) ∧
        (∀ c, host.getLast? = some c → IsSpace c = false)) ∧
    ((∀ c ∈ input, c = ',' ∨ IsSpace c = true) → parseHosts input = []) ∧
    parseHosts (Join (parseHosts input) ',') = parseHosts input := by
  have hprops : ∀ host ∈ parseHosts input,
      host ≠ [] ∧ ',' ∉ host ∧ (∀ c, host.head? = some c → IsSpace c = false) ∧
        (∀ c, host.getLast? = some c → IsSpace c = false) := by
    intro host hhost
    rw [parseHosts_eq, List.mem_filter, List.mem_map] at hhost
    obtain ⟨⟨field, hfield, rfl⟩, hne⟩ := hhost
    refine ⟨by simpa using hne, ?_, TrimSpace_head field, TrimSpace_getLast field⟩
    intro hmem
    exact (Split_mem input ',' field hfield).1 (TrimSpace_mem field _ hmem)
  refine ⟨parseHosts_eq input, Join_Split input ',', hprops, ?_, ?_⟩
  · intro hall
    rw [parseHosts_eq, List.filter_eq_nil_iff]
    intro host hhost
    rw [List.mem_map] at hhost
    obtain ⟨field, hfield, rfl⟩ := hhost
    have hf := Split_mem input ',' field hfield
    have hspaces : ∀ c ∈ field, IsSpace c = true := by
      intro c hc
      rcases hall c (hf.2 c hc) with rfl | hs
      · exact absurd hc hf.1
      · exact hs
    rw [TrimSpace_of_spaces field hspaces]
    simp
  · cases hH : parseHosts input with
    | nil => decide
    | cons a rest =>
      rw [hH] at hprops
      rw [parseHosts_eq, Split_Join _ ',' (by simp) (fun x hx => (hprops x hx).2.1)]
      have hmap : (a :: rest).map TrimSpace = a :: rest := by
        conv_rhs => rw [← List.map_id (a :: rest)]
        apply List.map_congr_left
        intro x hx
        exact TrimSpace_of_trimmed x (hprops x hx).2.2.1 (hprops x hx).2.2.2
      rw [hmap, List.filter_eq_self]
      intro x hx
      simpa using (hprops x hx).1

/-- C21, instance: the input " a ,, b,  ,c" followed by a tab gives the hosts "a", "b",
"c"; these joined by commas are "a,b,c", which parses to the same hosts; the input
", , ,," gives no host. -/
theorem parseHosts_fields_witness :
    parseHosts " a ,, b,  ,c\t".toList = ["a".toList, "b".toList, "c".toList] ∧
    Join (parseHosts " a ,, b,  ,c\t".toList) ',' = "a,b,c".toList ∧
    parseHosts (Join (parseHosts " a ,, b,  ,c\t".toList) ',') =
      parseHosts " a ,, b,  ,c\t".toList ∧
    parseHosts ", , ,,".toList = [] :=
  ⟨by decide, by decide, (parseHosts_fields " a ,, b,  ,c\t".toList).2.2.2.2,
   (parseHosts_fields ", , ,,".toList).2.2.2.1 (by decide)⟩

/-- C22: ConflictResolveWorkflowExecution with mode UpdateCurrent executes one batch;
that batch has one statement on current_executions, the update conditioned on the run
id alone. The statement writes run id, execution-state blob, last write version and
state of the new-run snapshot when the request carries one and of the reset snapshot
otherwise (the run id and the state are those of the snapshot's execution state). It
conditions on the run id in the execution state of the current-run mutation when the
request carries one and of the reset snapshot otherwise, so that it holds of a store
exactly when a current record with that run id exists; the one check registered for the
diagnosis is the run-id check that expects the same run id. -/
theorem conflict_resolve_current_statement (ser : Serializer) (d : Session)
    (request : InternalConflictResolveWorkflowExecutionRequest)
    (hmode : request.Mode = ConflictResolveWorkflowModeUpdateCurrent) :
    ∃ (batch : List Stmt) (set : CurrentRecord) (ifRunID : String),
      (∀ b, Event.exec b ∈ (ConflictResolveWorkflowExecution ser d request).trace ↔
        b = batch) ∧
      batch.filter Stmt.onCurrent =
        [.updateCurrentWorkflowExecution set
          ⟨request.ShardID, request.ResetWorkflowSnapshot.NamespaceID,
            request.ResetWorkflowSnapshot.WorkflowID⟩ ifRunID] ∧
      Op.registered ser d (.conflictResolve request) =
        [.currentWorkflowRunId request.ShardID request.ResetWorkflowSnapshot.NamespaceID
          request.ResetWorkflowSnapshot.WorkflowID ifRunID] ∧
      (∀ newWorkflow, request.NewWorkflowSnapshot = some newWorkflow →
        set = ⟨newWorkflow.ExecutionState.RunId, newWorkflow.ExecutionStateBlob.Data,
          newWorkflow.ExecutionStateBlob.EncodingName, newWorkflow.LastWriteVersion,
          newWorkflow.ExecutionState.State⟩) ∧
      (request.NewWorkflowSnapshot = none →
        set = ⟨request.ResetWorkflowSnapshot.ExecutionState.RunId,
          request.ResetWorkflowSnapshot.ExecutionStateBlob.Data,
          request.ResetWorkflowSnapshot.ExecutionStateBlob.EncodingName,
          request.ResetWorkflowSnapshot.LastWriteVersion,
          request.ResetWorkflowSnapshot.ExecutionState.State⟩) ∧
      (∀ currentWorkflow, request.CurrentWorkflowMutation = some currentWorkflow →
        ifRunID = currentWorkflow.ExecutionState.RunId) ∧
      (request.CurrentWorkflowMutation = none →
        ifRunID = request.ResetWorkflowSnapshot.ExecutionState.RunId) ∧
      ∀ st : Store,
        (Stmt.updateCurrentWorkflowExecution set
            ⟨request.ShardID, request.ResetWorkflowSnapshot.NamespaceID,
              request.ResetWorkflowSnapshot.WorkflowID⟩ ifRunID).holds st = true ↔
          ∃ rec, st.current ⟨request.ShardID, request.ResetWorkflowSnapshot.NamespaceID,
              request.ResetWorkflowSnapshot.WorkflowID⟩ = some rec ∧
            rec.current_run_id = ifRunID := by
  have hholds : ∀ (set : CurrentRecord) (key : CurrentKey) (ifRunID : String) (st : Store),
      (Stmt.updateCurrentWorkflowExecution set key ifRunID).holds st = true ↔
        ∃ rec, st.current key = some rec ∧ rec.current_run_id = ifRunID := by
    intro set key ifRunID st
    simp only [Stmt.holds]
    cases st.current key <;> simp
  have hne : ¬ ConflictResolveWorkflowModeUpdateCurrent =
      ConflictResolveWorkflowModeBypassCurrent := by decide
  obtain ⟨shardID, rangeID, mode, reset, new, cur⟩ := request
  simp only at hmode
  subst hmode
  cases new with
  | none =>
    cases cur with
    | none =>
      have hsw := Op.of_switch ser d
        (.conflictResolve ⟨shardID, rangeID, ConflictResolveWorkflowModeUpdateCurrent, reset,
          none, none⟩) _ _
        (by simp only [Op.switch, conflictResolveModeSwitch, if_neg hne, if_true]; rfl)
      exact ⟨_, _, _, hsw.1, hsw.2.1, hsw.2.2, fun w hw => (by cases hw), fun _ => rfl,
        fun w hw => (by cases hw), fun _ => rfl, hholds _ _ _⟩
    | some currentWorkflow =>
      have hsw := Op.of_switch ser d
        (.conflictResolve ⟨shardID, rangeID, ConflictResolveWorkflowModeUpdateCurrent, reset,
          none, some currentWorkflow⟩) _ _
        (by simp only [Op.switch, conflictResolveModeSwitch, if_neg hne, if_true]; rfl)
      exact ⟨_, _, _, hsw.1, hsw.2.1, hsw.2.2, fun w hw => (by cases hw), fun _ => rfl,
        fun w hw => (by cases hw; rfl), fun h => (by cases h), hholds _ _ _⟩
  | some newWorkflow =>
    cases cur with
    | none =>
      have hsw := Op.of_switch ser d
        (.conflictResolve ⟨shardID, rangeID, ConflictResolveWorkflowModeUpdateCurrent, reset,
          some newWorkflow, none⟩) _ _
        (by simp only [Op.switch, conflictResolveModeSwitch, if_neg hne, if_true]; rfl)
      exact ⟨_, _, _, hsw.1, hsw.2.1, hsw.2.2, fun w hw => (by cases hw; rfl),
        fun h => (by cases h), fun w hw => (by cases hw), fun _ => rfl, hholds _ _ _⟩
    | some currentWorkflow =>
      have hsw := Op.of_switch ser d
        (.conflictResolve ⟨shardID, rangeID, ConflictResolveWorkflowModeUpdateCurrent, reset,
          some newWorkflow, some currentWorkflow⟩) _ _
        (by simp only [Op.switch, conflictResolveModeSwitch, if_neg hne, if_true]; rfl)
      exact ⟨_, _, _, hsw.1, hsw.2.1, hsw.2.2, fun w hw => (by cases hw; rfl),
        fun h => (by cases h), fun w hw => (by cases hw; rfl), fun h => (by cases h),
        hholds _ _ _⟩

/-- C22, instance: the UpdateCurrent conflict resolve that resets "r1", mutates the
current run "r2" and carries the new run "r3" executes a batch whose statement on
current_executions writes run id "r3" with the state blob, last write version 0 and
state 1 of the new-run snapshot, conditioned on run id "r2", and registers the run-id
check that expects "r2". -/
theorem conflict_resolve_current_statement_witness :
    exConflictResolveFull.Mode = ConflictResolveWorkflowModeUpdateCurrent ∧
    (∃ batch, Event.exec batch ∈ (ConflictResolveWorkflowExecution exSerializer
        (storeSession (exStore 2 0)) exConflictResolveFull).trace ∧
      batch.filter Stmt.onCurrent =
        [.updateCurrentWorkflowExecution
          { current_run_id := "r3", execution_state := [1], execution_state_encoding := "Proto3"
            workflow_last_write_version := 0, workflow_state := 1 } exCurrentKey "r2"]) ∧
    Op.registered exSerializer (storeSession (exStore 2 0))
      (.conflictResolve exConflictResolveFull) = [.currentWorkflowRunId 1 "n" "w" "r2"] := by
  obtain ⟨batch, set, ifRunID, hexec, hfilter, hreg, hnew, -, hcur, -, -⟩ :=
    conflict_resolve_current_statement exSerializer (storeSession (exStore 2 0))
      exConflictResolveFull (by decide)
  have hset := hnew _ rfl
  have hrun := hcur _ rfl
  subst hset
  subst hrun
  exact ⟨by decide, ⟨batch, (hexec batch).mpr rfl, hfilter⟩, hreg⟩

end Driver
